import Mathlib

/-!
# SWMM-HEAT 5.2.4: routing interface file (iface.c) and report writer (report.c)

A shallow embedding of the routing interface file functions of `iface.c` and of
the functions of `report.c` that read the report options and write error
messages, continuity tables by chunks, rankings, time step statistics and the
time series tables.

Modelling conventions.

* `double` values and `DateTime` are rationals, so arithmetic is exact.
* `int` values are integers; no value in these functions comes near the
  32-bit range.
* A text line is the list of its whitespace-delimited tokens: that is all
  `sscanf("%s")`, `sscanf("%d")` and `strtok(.., SEPSTR)` see of it.  Lines are
  taken to fit in `MAXLINE` characters.
* A local character buffer that a failed `fgets` or `sscanf` leaves untouched
  keeps the content it had; the content such a buffer has on entry to a
  function is an input of the model (`Junk`, and the `junk` argument of
  `iface_getNumIfaceNodes`).
* The loop of `iface_getNumIfaceNodes` is bounded by a `fuel` argument; the
  theorems show how much fuel makes it return.
* Constants, tables and functions that are declared in headers or defined in
  source files other than `iface.c` and `report.c` are fields of `Env`, of `Inp`
  (the two readers of input lines) and of `Rpt` (the report writer, with the
  global variables it reads).
* A text printed to the report file is one element of a list of strings per
  `fprintf` call; `printf` conversions round to the nearest decimal.
* The loops of `report_writeLoadingError` and `report_writeQualError` are
  bounded by a `fuel` argument as well.
-/

namespace SWMM

/-! ## C library -/

/-- Dates are days as a `double` in the source; rationals here. -/
abbrev DateTime := ℚ

/-- A text line, as its whitespace-delimited tokens. -/
abbrev Line := List String

/-- Value returned by `sscanf` when the input ends before the first conversion. -/
def EOF : Int := -1

/-- Values of the leading decimal digits of a character sequence. -/
def digitsOf : List Char → List Nat
  | [] => []
  | c :: cs => if c.isDigit then (c.toNat - 48) :: digitsOf cs else []

/-- Number denoted by a sequence of decimal digits. -/
def natOfDigits (ds : List Nat) : Nat :=
  ds.foldl (fun a d => 10 * a + d) 0

/-- Unsigned part of a `%d` conversion: fails when no digit leads. -/
def scanNat (cs : List Char) : Option Int :=
  if digitsOf cs = [] then none else some (natOfDigits (digitsOf cs) : Int)

/-- The `%d` conversion applied to one token: an optional sign and the leading
decimal digits; a matching failure when there is no digit. -/
def scanInt (tok : String) : Option Int :=
  match tok.data with
  | '-' :: cs => (scanNat cs).map (fun n => -n)
  | '+' :: cs => scanNat cs
  | cs => scanNat cs

/-- C library `atoi` on a token: 0 when no number leads. -/
def atoi (tok : String) : Int :=
  (scanInt tok).getD 0

/-- Unsigned decimal number (digits, optional point and digits) leading a
character sequence. -/
def scanReal (cs : List Char) : ℚ :=
  let ip := digitsOf cs
  match cs.drop ip.length with
  | '.' :: fs => (natOfDigits ip : ℚ) + (natOfDigits (digitsOf fs) : ℚ) / 10 ^ (digitsOf fs).length
  | _ => (natOfDigits ip : ℚ)

/-- C library `atof` on a token written in plain decimal form (the only form
the interface file writer produces): 0 when no number leads. -/
def atof (tok : String) : ℚ :=
  match tok.data with
  | '-' :: cs => - scanReal cs
  | '+' :: cs => scanReal cs
  | cs => scanReal cs

/-- Left padding with zeros up to a width. -/
def padZeros (w : Nat) (t : String) : String :=
  String.mk (List.replicate (w - t.length) '0') ++ t

/-- Text of `printf("%d")`. -/
def fmt_d (n : Int) : String := toString n

/-- Text of `printf("%0wd")`. -/
def fmt_0d (w : Nat) (n : Int) : String :=
  if n < 0 then "-" ++ padZeros (w - 1) (toString n.natAbs) else padZeros w (toString n.natAbs)

/-- Text of `printf("%f")`: six decimals, rounded to nearest. -/
def fmt_f (x : ℚ) : String :=
  let m : Int := Rat.floor (x * 1000000 + 1 / 2)
  (if m < 0 then "-" else "") ++ toString (m.natAbs / 1000000) ++ "."
    ++ padZeros 6 (toString (m.natAbs % 1000000))

/-- `sscanf(line, "%d", &x)`: the return value and the new value of `x`. -/
def sscanf_d (line : Line) (x : Int) : Int × Int :=
  match line with
  | [] => (EOF, x)
  | t :: _ =>
    match scanInt t with
    | none => (0, x)
    | some n => (1, n)

/-- `sscanf(line, "%s", s)`: the return value and the new content of `s`. -/
def sscanf_s (line : Line) (s : String) : Int × String :=
  match line with
  | [] => (EOF, s)
  | t :: _ => (1, t)

/-- `sscanf(line, "%s %s", s1, s2)`: the return value and the new contents of
`s1` and `s2`. -/
def sscanf_ss (line : Line) (s1 s2 : String) : Int × String × String :=
  match line with
  | [] => (EOF, s1, s2)
  | [t] => (1, t, s2)
  | t :: u :: _ => (2, t, u)

/-- A text stream open for reading. -/
structure TextFile where
  /-- lines not yet read -/
  rest : List Line
  /-- whether the last line of the file ends with a newline character -/
  newlineAtEnd : Bool
  /-- the end-of-file indicator tested by `feof` -/
  eof : Bool

/-- `fgets(buf, MAXLINE, f)`: the new content of `buf` and the stream.  At the
end of the file nothing is read, `buf` keeps its content and the end-of-file
indicator is set; the indicator is also set when the last line is read and no
newline ends it. -/
def fgets (buf : Line) (f : TextFile) : Line × TextFile :=
  match f.rest with
  | [] => (buf, { f with eof := true })
  | l :: ls => (l, { f with rest := ls, eof := f.eof || (ls.isEmpty && !f.newlineAtEnd) })

/-! ## Declarations from other source files -/

/-- Object types used as the first argument of `project_findObject`. -/
inductive ObjType
  | POLLUT
  | NODE
  | WTEMPERATURE
  | SUBCATCH
  | LINK
  deriving DecidableEq

/-- Constants, keyword tables and functions that `iface.c` and `report.c` use
and that are defined in other files of the program. -/
structure Env where
  /-- error.h -/
  ERR_INPUT : Int
  ERR_FILE_NAME : Int
  ERR_MEMORY : Int
  ERR_ROUTING_FILE_OPEN : Int
  ERR_ROUTING_FILE_FORMAT : Int
  ERR_ROUTING_FILE_NOMATCH : Int
  ERR_ROUTING_FILE_NAMES : Int
  /-- error.c: text of the message for a code, its `%s` filled with the argument -/
  error_getMsg : Int → String → String
  /-- datetime.h, datetime.c -/
  NO_DATE : DateTime
  datetime_encodeDate : Int → Int → Int → DateTime
  datetime_encodeTime : Int → Int → Int → DateTime
  datetime_decodeDate : DateTime → Int × Int × Int
  datetime_decodeTime : DateTime → Int × Int × Int
  /-- enums.h -/
  DW : Int
  OUTFALL : Int
  NO_FILE : Int
  USE_FILE : Int
  SAVE_FILE : Int
  /-- keywords.c -/
  FlowUnitWords : List String
  QualUnitsWords : List String
  TempUnitsWords : List String
  /-- input.c / keywords.c helpers -/
  strcomp : String → String → Bool
  findmatch : String → List String → Int
  /-- project.c -/
  project_findObject : ObjType → String → Int
  /-- project.c: whether the `k`-th call `project_createMatrix(nrows, ncols)` of
  `openFileForInput` obtains memory (the cells of a new matrix are 0) -/
  createMatrix_ok : Nat → Int → Int → Bool
  /-- whether `calloc(n, sizeof(int))` obtains memory -/
  calloc_ok : Int → Bool
  /-- swmm5.c: flow units conversion factors -/
  Qcf : Int → ℚ
  /-- value of `UCF(FLOW)` -/
  UCF_FLOW : ℚ

/-! ## Project data read by iface.c -/

/-- Fields of `TPollut` used here. -/
structure TPollut where
  ID : String
  units : Nat

/-- Fields of `TNode` used here. -/
structure TNode where
  ID : String
  type : Int
  degree : Int
  inflow : ℚ
  newQual : List ℚ
  newTemp : ℚ

/-- Project data that the interface file functions read and never change.
`Nobjects[POLLUT]` and `Nobjects[NODE]` are the lengths of `Pollut` and
`Node`. -/
structure Project where
  Title0 : Line
  Pollut : List TPollut
  Node : List TNode
  TempModel_active : Int
  WTemperature_ID : String
  WTemperature_units : Nat
  FlowUnits : Nat
  ReportStep : Int
  ReportStart : DateTime
  StartDateTime : DateTime
  RouteModel : Int

/-- The count `Nobjects[POLLUT]`. -/
def Project.nPollut (P : Project) : Int := P.Pollut.length

/-- The count `Nobjects[NODE]`. -/
def Project.nNode (P : Project) : Int := P.Node.length

/-- Entry of a keyword table. -/
def word (table : List String) (k : Nat) : String := table.getD k ""

/-! ## Program state -/

/-- A matrix made by `project_createMatrix`: the shape asked for and the cells. -/
structure Matrix where
  nrows : Int
  ncols : Int
  cell : Nat → Nat → ℚ

/-- Global variables and the shared variables of `iface.c`. -/
structure State where
  ErrorCode : Int
  ErrorMsg : String
  /-- text written to the report file; `none` when `Frpt.file` is NULL -/
  Frpt_file : Option (List String)
  Finflows_name : String
  Finflows_mode : Int
  Finflows_file : Option TextFile
  Foutflows_name : String
  Foutflows_mode : Int
  /-- lines written to the outflows file; `none` when `Foutflows.file` is NULL -/
  Foutflows_file : Option (List Line)
  IfaceFlowUnits : Int
  IfaceStep : Int
  NumIfacePolluts : Int
  NumIfaceTemperature : Int
  IfacePolluts : Option (List Int)
  IfaceTemperature : Int
  NumIfaceNodes : Int
  IfaceNodes : Option (List Int)
  OldIfaceValues : Option Matrix
  NewIfaceValues : Option Matrix
  IfaceFrac : ℚ
  OldIfaceDate : DateTime
  NewIfaceDate : DateTime

/-- Cell `M[i][j]` of a matrix pointer (0 for a NULL pointer, which the
program never reads). -/
def cellAt (M : Option Matrix) (i j : Int) : ℚ :=
  match M with
  | some m => m.cell i.toNat j.toNat
  | none => 0

/-- Assignment `M[i][j] = v` through a matrix pointer. -/
def setCell (M : Option Matrix) (i j : Int) (v : ℚ) : Option Matrix :=
  M.map (fun m => { m with cell := fun a b => if a = i.toNat ∧ b = j.toNat then v else m.cell a b })

/-- Entry `a[k]` of an integer array pointer. -/
def intAt (a : Option (List Int)) (k : Int) : Int :=
  (a.getD []).getD k.toNat 0

/-- Assignment `a[k] = v` through an integer array pointer. -/
def setInt (a : Option (List Int)) (k : Int) (v : Int) : Option (List Int) :=
  a.map (fun l => l.set k.toNat v)

/-- The stream `Finflows.file` (an exhausted stream stands for NULL, with which
the reading functions are never called). -/
def State.inflows (s : State) : TextFile :=
  s.Finflows_file.getD { rest := [], newlineAtEnd := false, eof := true }

/-! ## report.c -/

/-- Source: `report_writeLine`. -/
def report_writeLine (line : String) (s : State) : State :=
  match s.Frpt_file with
  | some out => { s with Frpt_file := some (out ++ ["\n  " ++ line]) }
  | none => s

/-- Source: `report_writeErrorMsg`. -/
def report_writeErrorMsg (E : Env) (code : Int) (arg : String) (s : State) : State :=
  let s1 :=
    match s.Frpt_file with
    | some _ =>
      let t := report_writeLine "" s
      { t with Frpt_file := t.Frpt_file.map (fun out => out ++ [E.error_getMsg code arg]) }
    | none => s
  let s2 := { s1 with ErrorCode := code }
  if s2.ErrorCode ≤ E.ERR_INPUT ∨ s2.ErrorCode ≥ E.ERR_FILE_NAME then
    { s2 with ErrorMsg := E.error_getMsg s2.ErrorCode arg }
  else s2

/-! ## iface.c: queries -/

/-- Macro `MAX` of macros.h. -/
def MAX (x y : ℚ) : ℚ := if x ≥ y then x else y

/-- Macro `MIN` of macros.h. -/
def MIN (x y : ℚ) : ℚ := if x ≤ y then x else y

/-- Source: `iface_getIfaceNode`. -/
def iface_getIfaceNode (s : State) (index : Int) : Int :=
  if index ≥ 0 ∧ index < s.NumIfaceNodes then intAt s.IfaceNodes index else -1

/-- Source: `iface_getIfaceFlow`. -/
def iface_getIfaceFlow (s : State) (index : Int) : ℚ :=
  if index ≥ 0 ∧ index < s.NumIfaceNodes then
    let q1 := cellAt s.OldIfaceValues index 0
    let q2 := cellAt s.NewIfaceValues index 0
    (1 - s.IfaceFrac) * q1 + s.IfaceFrac * q2
  else 0

/-- Source: `iface_getIfaceQual`. -/
def iface_getIfaceQual (s : State) (index pollut : Int) : ℚ :=
  if index ≥ 0 ∧ index < s.NumIfaceNodes then
    let j := intAt s.IfacePolluts pollut
    if j < 0 then 0
    else
      let c1 := cellAt s.OldIfaceValues index (j + 1)
      let c2 := cellAt s.NewIfaceValues index (j + 1)
      (1 - s.IfaceFrac) * c1 + s.IfaceFrac * c2
  else 0

/-- Source: `iface_getIfaceTemp`. -/
def iface_getIfaceTemp (s : State) (index npollut : Int) : ℚ :=
  if index ≥ 0 ∧ index < s.NumIfaceNodes then
    let j := s.IfaceTemperature
    if j < 0 then 0
    else
      let c1 := cellAt s.OldIfaceValues index (j + 1 + npollut)
      let c2 := cellAt s.NewIfaceValues index (j + 1 + npollut)
      (1 - s.IfaceFrac) * c1 + s.IfaceFrac * c2
  else 0

/-! ## iface.c: reading records -/

/-- Source: `setOldIfaceValues`.  The two nested loops copy the cells of rows
`0 .. NumIfaceNodes-1` and columns `0 .. NumIfacePolluts+TempModel.active`. -/
def setOldIfaceValues (P : Project) (s : State) : State :=
  { s with
    OldIfaceDate := s.NewIfaceDate
    OldIfaceValues := s.OldIfaceValues.map (fun m =>
      { m with cell := fun i j =>
          if (i : Int) < s.NumIfaceNodes ∧ (j : Int) < s.NumIfacePolluts + 1 + P.TempModel_active
          then cellAt s.NewIfaceValues i j else m.cell i j }) }

/-- The date and time fields last parsed by `readNewIfaceValues`. -/
structure DateParts where
  yr : Int
  mon : Int
  day : Int
  hr : Int
  min : Int
  sec : Int

/-- Source: `readNewIfaceValues`, the loop `for (j=1; j<=NumIfacePolluts; j++)`
on the tokens left on the line: `k` iterations remain, the next one for column
`j`.  Returns the tokens left and the matrix, or `none` with the matrix as it
is when `strtok` returns NULL. -/
def readQualValues (i : Int) : Nat → Int → Line → Option Matrix → Option Line × Option Matrix
  | 0, _, toks, M => (some toks, M)
  | _ + 1, _, [], M => (none, M)
  | k + 1, j, t :: toks, M => readQualValues i k (j + 1) toks (setCell M i j (atof t))

/-- Source: `readNewIfaceValues`, the body of the loop over the nodes once
`fgets` has filled the line buffer with `toks`, for row `i`: the date fields
parsed and the state, or `none` and the state where the function returns
because `strtok` gave NULL.  The first seven `strtok` calls change local
variables only, so the returns they lead to are one case. -/
def readRecord (E : Env) (P : Project) (i : Int) (toks : Line) (s : State) :
    Option DateParts × State :=
  match toks with
  | _ :: yr :: mon :: day :: hr :: min :: sec :: q :: rest =>
    let d1 : DateParts := ⟨atoi yr, atoi mon, atoi day, atoi hr, atoi min, atoi sec⟩
    -- parse flow value
    let M0 := setCell s.NewIfaceValues i 0 (atof q / E.Qcf s.IfaceFlowUnits)
    -- parse pollutant values
    match readQualValues i s.NumIfacePolluts.toNat 1 rest M0 with
    | (none, M) => (none, { s with NewIfaceValues := M })
    | (some rest1, M) =>
      -- parse temperature values
      if P.TempModel_active = 1 then
        match rest1 with
        | [] => (none, { s with NewIfaceValues := M })
        | t :: _ =>
          (some d1, { s with NewIfaceValues := setCell M i (s.NumIfacePolluts + 1) (atof t) })
      else (some d1, { s with NewIfaceValues := M })
  | _ => (none, s)

/-- Source: `readNewIfaceValues`, the loop `for (i=0; i<NumIfaceNodes; i++)`
and the statement after it: `k` iterations remain, the next one for row `i`;
`line` is the line buffer and `d` the date fields parsed so far.  `strtok`
ends the first token of the buffer with a NUL, so what the buffer holds as a
string after a line was parsed is that token. -/
def readNewLoop (E : Env) (P : Project) : Nat → Int → Line → DateParts → State → State
  | 0, _, _, d, s =>
    { s with NewIfaceDate := E.datetime_encodeDate d.yr d.mon d.day
                               + E.datetime_encodeTime d.hr d.min d.sec }
  | k + 1, i, line, _, s =>
    if s.inflows.eof then s
    else
      match readRecord E P i (fgets line s.inflows).1
          { s with Finflows_file := some (fgets line s.inflows).2 } with
      | (none, s1) => s1
      | (some d1, s1) => readNewLoop E P k (i + 1) ((fgets line s.inflows).1.take 1) d1 s1

/-- Source: `readNewIfaceValues`; `line0` is what its line buffer holds on
entry. -/
def readNewIfaceValues (E : Env) (P : Project) (line0 : Line) (s : State) : State :=
  readNewLoop E P s.NumIfaceNodes.toNat 0 line0 ⟨0, 0, 0, 0, 0, 0⟩ { s with NewIfaceDate := E.NO_DATE }

/-- Source: `iface_getNumIfaceNodes`, the loop
`while ( NewIfaceDate < currentDate && NewIfaceDate != NO_DATE )`.  The loop
need not end for every state, so the model counts iterations down from `fuel`
and yields `none` when they run out; `junk n` is what the line buffer of the
`n`-th call of `readNewIfaceValues` holds on entry. -/
def bracketLoop (E : Env) (P : Project) (junk : Nat → Line) (currentDate : DateTime) :
    Nat → Nat → State → Option State
  | fuel, n, s =>
    if s.NewIfaceDate < currentDate ∧ s.NewIfaceDate ≠ E.NO_DATE then
      match fuel with
      | 0 => none
      | fuel1 + 1 =>
        bracketLoop E P junk currentDate fuel1 (n + 1)
          (readNewIfaceValues E P (junk n) (setOldIfaceValues P s))
    else some s

/-- Source: `iface_getNumIfaceNodes`: the value returned and the state left. -/
def iface_getNumIfaceNodes (E : Env) (P : Project) (junk : Nat → Line) (fuel : Nat)
    (currentDate : DateTime) (s : State) : Option (Int × State) :=
  if s.OldIfaceDate > currentDate then some (0, s)
  else
    match bracketLoop E P junk currentDate fuel 0 s with
    | none => none
    | some s1 =>
      if s1.NewIfaceDate = E.NO_DATE then some (0, s1)
      else
        let frac := (currentDate - s1.OldIfaceDate) / (s1.NewIfaceDate - s1.OldIfaceDate)
        let frac1 := MAX 0 frac
        let frac2 := MIN frac1 1
        some (s1.NumIfaceNodes, { s1 with IfaceFrac := frac2 })

/-! ## iface.c: reading the header -/

/-- Entry `Pollut[j]`. -/
def pollutAt (P : Project) (j : Int) : TPollut :=
  P.Pollut.getD j.toNat ⟨"", 0⟩

/-- Entry `Node[i]`. -/
def nodeAt (P : Project) (i : Nat) : TNode :=
  P.Node.getD i ⟨"", 0, 0, 0, [], 0⟩

/-- The local buffers `line`, `s1`, `s2` of `getIfaceFilePolluts`. -/
structure Bufs where
  line : Line
  s1 : String
  s2 : String

/-- Outcome of a section of a function that returns an error code: either the
function returns there (`error`, with the code returned and the state left) or
it goes on (`ok`, with the local buffers and the state). -/
abbrev Step (α : Type) := Except (Int × State) (α × State)

/-- Sequencing of two sections: the second runs if the first did not return. -/
def Step.andThen {α β : Type} (x : Step α) (f : α → State → Step β) : Step β :=
  match x with
  | .error e => .error e
  | .ok r => f r.1 r.2

/-- The state left by a section. -/
def Step.state {α : Type} (x : Step α) : State :=
  match x with
  | .error e => e.2
  | .ok r => r.2

/-- The value a function returns whose last section is `x`: the error code, or
0 at its end. -/
def Step.code {α : Type} (x : Step α) : Int :=
  match x with
  | .error e => e.1
  | .ok _ => 0

/-- Source: `getIfaceFilePolluts`, section "read number of pollutants (minus
FLOW)". -/
def readCount (E : Env) (b : Bufs) (s : State) : Step Bufs :=
  let r := fgets b.line s.inflows
  let sc := sscanf_d r.1 (-1)
  let s1 := { s with Finflows_file := some r.2
                     NumIfacePolluts := if sc.1 ≠ 0 then sc.2 - 1 else sc.2 }
  if s1.NumIfacePolluts < 0 then .error (E.ERR_ROUTING_FILE_FORMAT, s1)
  else .ok (⟨r.1, b.s1, b.s2⟩, s1)

/-- Source: `getIfaceFilePolluts`, section "read flow units". -/
def readFlowUnits (E : Env) (b : Bufs) (s : State) : Step Bufs :=
  let r := fgets b.line s.inflows
  let s1 := { s with Finflows_file := some r.2 }
  let sc := sscanf_ss r.1 b.s1 b.s2
  if sc.1 < 2 then .error (E.ERR_ROUTING_FILE_FORMAT, s1)
  else if !E.strcomp sc.2.1 "FLOW" then .error (E.ERR_ROUTING_FILE_FORMAT, s1)
  else
    let s2 := { s1 with IfaceFlowUnits := E.findmatch sc.2.2 E.FlowUnitWords }
    if s2.IfaceFlowUnits < 0 then .error (E.ERR_ROUTING_FILE_FORMAT, s2)
    else .ok (⟨r.1, sc.2.1, sc.2.2⟩, s2)

/-- Source: `getIfaceFilePolluts`, section "allocate memory for pollutant index
array". -/
def allocPolluts (E : Env) (P : Project) (b : Bufs) (s : State) : Step Bufs :=
  if P.nPollut > 0 then
    if !E.calloc_ok P.nPollut then .error (E.ERR_MEMORY, { s with IfacePolluts := none })
    else .ok (b, { s with IfacePolluts := some (List.replicate P.nPollut.toNat (-1)) })
  else .ok (b, s)

/-- Source: `getIfaceFilePolluts`, the body of the loop
`for (i=0; i<NumIfacePolluts; i++)` after its `feof` test, for file position
`i`. -/
def pollutBody (E : Env) (P : Project) (i : Int) (b : Bufs) (s : State) : Step Bufs :=
  let r := fgets b.line s.inflows
  let s1 := { s with Finflows_file := some r.2 }
  let sc := sscanf_ss r.1 b.s1 b.s2
  if sc.1 < 2 then .error (E.ERR_ROUTING_FILE_FORMAT, s1)
  else
    let j := E.project_findObject ObjType.POLLUT sc.2.1
    if j < 0 then .ok (⟨r.1, sc.2.1, sc.2.2⟩, s1)
    else if !E.strcomp sc.2.2 (word E.QualUnitsWords (pollutAt P j).units) then
      .error (E.ERR_ROUTING_FILE_NOMATCH, s1)
    else .ok (⟨r.1, sc.2.1, sc.2.2⟩, { s1 with IfacePolluts := setInt s1.IfacePolluts j i })

/-- Source: `getIfaceFilePolluts`, the loop `for (i=0; i<NumIfacePolluts; i++)`:
`k` iterations remain, the next one for file position `i`. -/
def pollutLoop (E : Env) (P : Project) : Nat → Int → Bufs → State → Step Bufs
  | 0, _, b, s => .ok (b, s)
  | k + 1, i, b, s =>
    if s.inflows.eof then .error (E.ERR_ROUTING_FILE_FORMAT, s)
    else (pollutBody E P i b s).andThen (pollutLoop E P k (i + 1))

/-- Source: `getIfaceFilePolluts`, section "read pollutant names & units". -/
def matchPolluts (E : Env) (P : Project) (b : Bufs) (s : State) : Step Bufs :=
  if s.NumIfacePolluts > 0 ∧ P.nPollut > 0 then pollutLoop E P s.NumIfacePolluts.toNat 0 b s
  else .ok (b, s)

/-- Source: `getIfaceFilePolluts`, the part marked as the temperature
modification.  The value of `project_findObject(WTEMPERATURE, s1)` is assigned
to `j` and not used. -/
def tempBlock (E : Env) (P : Project) (b : Bufs) (s : State) : Step Bufs :=
  let s0 := if P.TempModel_active = 1 then { s with IfaceTemperature := -1 } else s
  if P.TempModel_active = 1 then
    if s0.inflows.eof then .error (E.ERR_ROUTING_FILE_FORMAT, s0)
    else
      let r := fgets b.line s0.inflows
      let s1 := { s0 with Finflows_file := some r.2 }
      let sc := sscanf_ss r.1 b.s1 b.s2
      if !E.strcomp sc.2.2 (word E.TempUnitsWords P.WTemperature_units) then
        .error (E.ERR_ROUTING_FILE_NOMATCH, s1)
      else .ok (⟨r.1, sc.2.1, sc.2.2⟩, { s1 with IfaceTemperature := 0 })
  else .ok (b, s0)

/-- Source: `getIfaceFilePolluts`, its sections in sequence. -/
def pollutSteps (E : Env) (P : Project) (b : Bufs) (s : State) : Step Bufs :=
  ((((readCount E b s).andThen (readFlowUnits E)).andThen (allocPolluts E P)).andThen
    (matchPolluts E P)).andThen (tempBlock E P)

/-- Source: `getIfaceFilePolluts`: the error code returned and the state left;
`b` is what the local buffers hold on entry. -/
def getIfaceFilePolluts (E : Env) (P : Project) (b : Bufs) (s : State) : Int × State :=
  ((pollutSteps E P b s).code, (pollutSteps E P b s).state)

/-- Source: `getIfaceFileNodes`, sections "read number of interface nodes" and
"allocate memory for interface nodes index array"; `line0` and `t0` are what
the local buffers `line` and `s` hold. -/
def readNodeCount (E : Env) (line0 : Line) (t0 : String) (s : State) : Step (Line × String) :=
  let r := fgets line0 s.inflows
  let sc := sscanf_d r.1 s.NumIfaceNodes
  let s1 := { s with Finflows_file := some r.2, NumIfaceNodes := sc.2 }
  if sc.1 = 0 ∨ s1.NumIfaceNodes ≤ 0 then .error (E.ERR_ROUTING_FILE_FORMAT, s1)
  else if !E.calloc_ok s1.NumIfaceNodes then .error (E.ERR_MEMORY, { s1 with IfaceNodes := none })
  else .ok ((r.1, t0), { s1 with IfaceNodes := some (List.replicate s1.NumIfaceNodes.toNat 0) })

/-- Source: `getIfaceFileNodes`, the body of the loop
`for ( i=0; i<NumIfaceNodes; i++ )` after its `feof` test, for position `i`;
the buffers are `line` and `s`. -/
def nodeBody (E : Env) (i : Int) (b : Line × String) (s : State) : Step (Line × String) :=
  let s0 := { s with IfaceNodes := setInt s.IfaceNodes i 0 }
  let r := fgets b.1 s0.inflows
  let s1 := { s0 with Finflows_file := some r.2 }
  let sc := sscanf_s r.1 b.2
  if sc.1 = 0 then .error (E.ERR_ROUTING_FILE_FORMAT, s1)
  else
    .ok ((r.1, sc.2),
      { s1 with IfaceNodes := setInt s1.IfaceNodes i (E.project_findObject ObjType.NODE sc.2) })

/-- Source: `getIfaceFileNodes`, the loop `for ( i=0; i<NumIfaceNodes; i++ )`:
`k` iterations remain, the next one for position `i`. -/
def nodeLoop (E : Env) : Nat → Int → Line × String → State → Step (Line × String)
  | 0, _, b, s => .ok (b, s)
  | k + 1, i, b, s =>
    if s.inflows.eof then .error (E.ERR_ROUTING_FILE_FORMAT, s)
    else (nodeBody E i b s).andThen (nodeLoop E k (i + 1))

/-- Source: `getIfaceFileNodes`, section "skip over column headings line". -/
def skipHeadings (E : Env) (b : Line × String) (s : State) : Step (Line × String) :=
  if s.inflows.eof then .error (E.ERR_ROUTING_FILE_FORMAT, s)
  else .ok (((fgets b.1 s.inflows).1, b.2), { s with Finflows_file := some (fgets b.1 s.inflows).2 })

/-- Source: `getIfaceFileNodes`, its sections in sequence. -/
def nodeSteps (E : Env) (line0 : Line) (t0 : String) (s : State) : Step (Line × String) :=
  ((readNodeCount E line0 t0 s).andThen
    (fun b s1 => nodeLoop E s1.NumIfaceNodes.toNat 0 b s1)).andThen (skipHeadings E)

/-- Source: `getIfaceFileNodes`: the error code returned and the state left;
`line0` and `t0` are what the local buffers `line` and `s` hold on entry. -/
def getIfaceFileNodes (E : Env) (line0 : Line) (t0 : String) (s : State) : Int × State :=
  ((nodeSteps E line0 t0 s).code, (nodeSteps E line0 t0 s).state)

/-- What the local character buffers of `openFileForInput` and of the functions
it calls hold when these functions are entered. -/
structure Junk where
  /-- `line` and `s` of `openFileForInput` -/
  line : Line
  s : String
  /-- `line`, `s1`, `s2` of `getIfaceFilePolluts` -/
  polluts : Bufs
  /-- `line` and `s` of `getIfaceFileNodes` -/
  nodesLine : Line
  nodesS : String
  /-- `line` of `readNewIfaceValues` -/
  readLine : Line

/-- Source: `openFileForInput`, section "check for correct file type": an
error is the state left by `report_writeErrorMsg`, otherwise the line buffer
and the state with which the function goes on. -/
def checkFileType (E : Env) (J : Junk) (s0 : State) : Except State (Line × State) :=
  let r1 := fgets J.line s0.inflows
  let s1 := { s0 with Finflows_file := some r1.2 }
  let sc1 := sscanf_s r1.1 J.s
  if sc1.1 = 0 ∨ !E.strcomp sc1.2 "SWMM5" then
    .error (report_writeErrorMsg E E.ERR_ROUTING_FILE_FORMAT s1.Finflows_name s1)
  else .ok (r1.1, s1)

/-- Source: `openFileForInput`, sections "skip title line" and "read reporting
time step (sec)"; `line` is the line buffer. -/
def readStep (E : Env) (line : Line) (s1 : State) : Except State State :=
  let r2 := fgets line s1.inflows
  let s2 := { s1 with Finflows_file := some r2.2, IfaceStep := 0 }
  let r3 := fgets r2.1 s2.inflows
  let sc3 := sscanf_d r3.1 s2.IfaceStep
  let s3 := { s2 with Finflows_file := some r3.2, IfaceStep := sc3.2 }
  if sc3.1 = 0 ∨ s3.IfaceStep ≤ 0 then
    .error (report_writeErrorMsg E E.ERR_ROUTING_FILE_FORMAT s3.Finflows_name s3)
  else .ok s3

/-- Source: `openFileForInput`, from the first `fgets` to the check of the
reporting time step, the file being open. -/
def openHeader (E : Env) (J : Junk) (s0 : State) : Except State State :=
  match checkFileType E J s0 with
  | .error r => .error r
  | .ok r => readStep E r.1 r.2

/-- Source: `openFileForInput`, from the call of `getIfaceFilePolluts` to the
end. -/
def openBody (E : Env) (P : Project) (J : Junk) (s3 : State) : State :=
  -- match constituents in file with those in project
  let rp := getIfaceFilePolluts E P J.polluts s3
  if rp.1 > 0 then report_writeErrorMsg E rp.1 rp.2.Finflows_name rp.2
  else
    -- match nodes in file with those in project
    let rn := getIfaceFileNodes E J.nodesLine J.nodesS rp.2
    if rn.1 > 0 then report_writeErrorMsg E rn.1 rn.2.Finflows_name rn.2
    else
      -- create matrices for old & new interface flows & WQ values
      let s4 := rn.2
      let M : Matrix := ⟨s4.NumIfaceNodes, 1 + s4.NumIfacePolluts, fun _ _ => 0⟩
      let s5 :=
        { s4 with
          OldIfaceValues :=
            if E.createMatrix_ok 0 s4.NumIfaceNodes (1 + s4.NumIfacePolluts) then some M else none
          NewIfaceValues :=
            if E.createMatrix_ok 1 s4.NumIfaceNodes (1 + s4.NumIfacePolluts) then some M else none }
      if s5.OldIfaceValues.isNone ∨ s5.NewIfaceValues.isNone then
        report_writeErrorMsg E E.ERR_MEMORY "" s5
      else
        -- read in new interface flows & WQ values
        let s6 := readNewIfaceValues E P J.readLine s5
        { s6 with OldIfaceDate := s6.NewIfaceDate }

/-- Source: `openFileForInput`; `opened` is what `fopen(Finflows.name, "rt")`
returns, `J` what the local buffers hold on entry. -/
def openFileForInput (E : Env) (P : Project) (J : Junk) (opened : Option TextFile)
    (s : State) : State :=
  let s0 := { s with Finflows_file := opened }
  match opened with
  | none => report_writeErrorMsg E E.ERR_ROUTING_FILE_OPEN s0.Finflows_name s0
  | some _ =>
    match openHeader E J s0 with
    | .error r => r
    | .ok s3 => openBody E P J s3

/-! ## iface.c: writing -/

/-- Source: `isOutletNode`. -/
def isOutletNode (E : Env) (P : Project) (i : Nat) : Bool :=
  if P.RouteModel = E.DW then (nodeAt P i).type = E.OUTFALL
  else (nodeAt P i).degree = 0

/-- The tokens of the text `theDate` that `iface_saveOutletResults` prints. -/
def theDate (E : Env) (reportDate : DateTime) : Line :=
  let d := E.datetime_decodeDate reportDate
  let t := E.datetime_decodeTime reportDate
  [fmt_0d 4 d.1, fmt_0d 2 d.2.1, fmt_0d 2 d.2.2, fmt_0d 2 t.1, fmt_0d 2 t.2.1, fmt_0d 2 t.2.2]

/-- Source: `iface_saveOutletResults`, the body of its loop for an outlet node
`i`: the line the `fprintf` calls write.  Object IDs and keywords are taken to
be single tokens. -/
def outletRecord (E : Env) (P : Project) (reportDate : DateTime) (i : Nat) : Line :=
  [(nodeAt P i).ID] ++ theDate E reportDate
    ++ [fmt_f ((nodeAt P i).inflow * E.UCF_FLOW)]
    ++ (List.range P.Pollut.length).map (fun p => fmt_f ((nodeAt P i).newQual.getD p 0))
    ++ (if P.TempModel_active = 1 then [fmt_f (nodeAt P i).newTemp] else [])

/-- Source: `iface_saveOutletResults`, on the lines of the file. -/
def iface_saveOutletResults (E : Env) (P : Project) (reportDate : DateTime)
    (file : List Line) : List Line :=
  (List.range P.Node.length).foldl
    (fun f i => if !isOutletNode E P i then f else f ++ [outletRecord E P reportDate i]) file

/-- Source: `openFileForOutput`, the lines written before the records. -/
def outputHeader (E : Env) (P : Project) : List Line :=
  [["SWMM5", "Interface", "File"],
   P.Title0,
   [fmt_d P.ReportStep, "-", "reporting", "time", "step", "in", "sec"],
   [fmt_d (P.nPollut + 1 + P.TempModel_active), "-", "number", "of", "constituents",
      "as", "listed", "below:"],
   ["FLOW", word E.FlowUnitWords P.FlowUnits]]
  ++ P.Pollut.map (fun q => [q.ID, word E.QualUnitsWords q.units])
  ++ (if P.TempModel_active = 1 then
        [[P.WTemperature_ID, word E.TempUnitsWords P.WTemperature_units]] else [])
  ++ [[fmt_d (((List.range P.Node.length).filter (isOutletNode E P)).length : Nat), "-",
        "number", "of", "nodes", "as", "listed", "below:"]]
  ++ ((List.range P.Node.length).filter (isOutletNode E P)).map (fun i => [(nodeAt P i).ID])
  ++ [["Node", "Year", "Mon", "Day", "Hr", "Min", "Sec", "FLOW"]
        ++ P.Pollut.map (fun q => q.ID)
        ++ (if P.TempModel_active = 1 then [P.WTemperature_ID] else [])]

/-- Source: `openFileForOutput`; `canOpen` tells whether
`fopen(Foutflows.name, "wt")` succeeds. -/
def openFileForOutput (E : Env) (P : Project) (canOpen : Bool) (s : State) : State :=
  if !canOpen then
    report_writeErrorMsg E E.ERR_ROUTING_FILE_OPEN s.Foutflows_name { s with Foutflows_file := none }
  else
    let file := outputHeader E P
    -- if reporting starts immediately, save initial outlet values
    if P.ReportStart = P.StartDateTime then
      { s with Foutflows_file := some (iface_saveOutletResults E P P.ReportStart file) }
    else { s with Foutflows_file := some file }

/-- Source: `iface_openRoutingFiles`, the assignments that initialize the
shared variables. -/
def resetShared (s : State) : State :=
  { s with
    NumIfacePolluts := 0
    IfacePolluts := none
    NumIfaceTemperature := 0
    IfaceTemperature := 0
    NumIfaceNodes := 0
    IfaceNodes := none
    OldIfaceValues := none
    NewIfaceValues := none }

/-- Source: `iface_openRoutingFiles`; `canOpen` and `opened` are the outcomes
of the two `fopen` calls. -/
def iface_openRoutingFiles (E : Env) (P : Project) (J : Junk) (canOpen : Bool)
    (opened : Option TextFile) (s : State) : State :=
  let s0 := resetShared s
  -- check that inflows & outflows files are not the same
  if s0.Foutflows_mode ≠ E.NO_FILE ∧ s0.Finflows_mode ≠ E.NO_FILE
      ∧ E.strcomp s0.Foutflows_name s0.Finflows_name then
    report_writeErrorMsg E E.ERR_ROUTING_FILE_NAMES "" s0
  else
    -- open the file for reading or writing
    let s1 := if s0.Foutflows_mode = E.SAVE_FILE then openFileForOutput E P canOpen s0 else s0
    if s1.Finflows_mode = E.USE_FILE then openFileForInput E P J opened s1 else s1

/-! ## A sample environment

Used to run the model on concrete files.  The helper functions follow the
behaviour the program documents for them: `strcomp` compares ignoring case,
`findmatch` returns the position of the first keyword that starts the string,
`project_findObject` returns the position of the object with the given ID or
-1. -/

/-- Upper-case form of a character (macro `UCHAR`). -/
def UCHAR (c : Char) : Char :=
  if 97 ≤ c.toNat ∧ c.toNat ≤ 122 then Char.ofNat (c.toNat - 32) else c

/-- Sample `strcomp`: equality ignoring case. -/
def sampleStrcomp (a b : String) : Bool :=
  a.data.map UCHAR == b.data.map UCHAR

/-- Position of the first entry of a list that satisfies a test, or -1. -/
def findPos {α : Type} (f : α → Bool) : List α → Int
  | [] => -1
  | x :: xs => if f x then 0 else (if findPos f xs < 0 then -1 else findPos f xs + 1)

/-- Sample `findmatch`: position of the first keyword that, ignoring case,
starts the string. -/
def sampleFindmatch (t : String) (keywords : List String) : Int :=
  findPos (fun k => k.data ≠ [] ∧ (k.data.map UCHAR).isPrefixOf (t.data.map UCHAR)) keywords

/-- Sample `project_findObject`; the sample projects hold no subcatchment and
no link. -/
def sampleFindObject (P : Project) (ty : ObjType) (id : String) : Int :=
  match ty with
  | ObjType.POLLUT => findPos (fun q => sampleStrcomp q.ID id) P.Pollut
  | ObjType.NODE => findPos (fun n => sampleStrcomp n.ID id) P.Node
  | ObjType.WTEMPERATURE => if sampleStrcomp P.WTemperature_ID id then 0 else -1
  | ObjType.SUBCATCH => -1
  | ObjType.LINK => -1

/-- Days in each month of a common or leap year. -/
def daysPerMonth (leap : Bool) : List Int :=
  [31, if leap then 29 else 28, 31, 30, 31, 30, 31, 31, 30, 31, 30, 31]

/-- Leap years of the Gregorian calendar. -/
def isLeapYear (y : Int) : Bool :=
  y % 4 = 0 ∧ (y % 100 ≠ 0 ∨ y % 400 = 0)

/-- Sample `datetime_encodeDate`: days since 12/30/1899, or the value of
`NO_DATE` for an invalid date. -/
def sampleEncodeDate (year month day : Int) : DateTime :=
  if 1 ≤ year ∧ year ≤ 9999 ∧ 1 ≤ month ∧ month ≤ 12 ∧ 1 ≤ day
      ∧ day ≤ (daysPerMonth (isLeapYear year)).getD (month - 1).toNat 0 then
    let d := day + ((daysPerMonth (isLeapYear year)).take (month - 1).toNat).sum
    let i := year - 1
    ((i * 365 + i / 4 - i / 100 + i / 400 + d - 693594 : Int) : ℚ)
  else -693594

/-- Sample `datetime_encodeTime`: the fraction of a day. -/
def sampleEncodeTime (hour minute second : Int) : DateTime :=
  if 0 ≤ hour ∧ 0 ≤ minute ∧ 0 ≤ second ∧ hour ≤ 24 ∧ minute ≤ 60 ∧ second ≤ 60 then
    ((hour * 3600 + minute * 60 + second : Int) : ℚ) / 86400
  else 0

/-- Month and day of the `d`-th day (from 0) of a year, given the lengths of
the months from month `m` on. -/
def monthDay : List Int → Int → Int → Int × Int
  | [], m, d => (m, d + 1)
  | n :: ns, m, d => if d < n then (m, d + 1) else monthDay ns (m + 1) (d - n)

/-- Sample `datetime_decodeDate`. -/
def sampleDecodeDate (date : DateTime) : Int × Int × Int :=
  let t : Int := Rat.floor date + 693594
  if t ≤ 0 then (0, 1, 1)
  else
    let t1 := t - 1
    let y400 := t1 / 146097
    let r400 := t1 % 146097
    let i100 := if r400 / 36524 = 4 then 3 else r400 / 36524
    let r100 := r400 - i100 * 36524
    let i4 := r100 / 1461
    let r4 := r100 % 1461
    let i1 := if r4 / 365 = 4 then 3 else r4 / 365
    let r1 := r4 - i1 * 365
    let y := 1 + y400 * 400 + i100 * 100 + i4 * 4 + i1
    let md := monthDay (daysPerMonth (isLeapYear y)) 1 r1
    (y, md.1, md.2)

/-- Sample `datetime_decodeTime`. -/
def sampleDecodeTime (time : DateTime) : Int × Int × Int :=
  let secs0 : Int := Rat.floor ((time - Rat.floor time) * 86400 + 1 / 2)
  let secs := if secs0 ≥ 86400 then 86399 else secs0
  (secs / 3600, (secs / 60) % 60, secs % 60)

/-- The sample environment for a project: SWMM 5.2 error numbers, keyword
tables and conversion factors, every allocation succeeding. -/
def sampleEnv (P : Project) : Env :=
  { ERR_INPUT := 200
    ERR_FILE_NAME := 301
    ERR_MEMORY := 101
    ERR_ROUTING_FILE_OPEN := 331
    ERR_ROUTING_FILE_FORMAT := 333
    ERR_ROUTING_FILE_NOMATCH := 335
    ERR_ROUTING_FILE_NAMES := 330
    error_getMsg := fun code arg => "ERROR " ++ toString code ++ ": " ++ arg
    NO_DATE := -693594
    datetime_encodeDate := sampleEncodeDate
    datetime_encodeTime := sampleEncodeTime
    datetime_decodeDate := sampleDecodeDate
    datetime_decodeTime := sampleDecodeTime
    DW := 3
    OUTFALL := 1
    NO_FILE := 0
    USE_FILE := 2
    SAVE_FILE := 3
    FlowUnitWords := ["CFS", "GPM", "MGD", "CMS", "LPS", "MLD"]
    QualUnitsWords := ["MG/L", "UG/L", "#/L"]
    TempUnitsWords := ["CELSIUS"]
    strcomp := sampleStrcomp
    findmatch := sampleFindmatch
    project_findObject := sampleFindObject P
    createMatrix_ok := fun _ _ _ => true
    calloc_ok := fun _ => true
    Qcf := fun k => [1, 448831 / 1000, 64632 / 100000, 2832 / 100000, 2832 / 100, 24466 / 10000].getD k.toNat 1
    UCF_FLOW := 1 }

/-- The state in which `iface_openRoutingFiles` leaves the shared variables of
`iface.c` before it opens a file, with no error set and no report file. -/
def initState (inflowsName outflowsName : String) : State :=
  { ErrorCode := 0
    ErrorMsg := ""
    Frpt_file := none
    Finflows_name := inflowsName
    Finflows_mode := 0
    Finflows_file := none
    Foutflows_name := outflowsName
    Foutflows_mode := 0
    Foutflows_file := none
    IfaceFlowUnits := 0
    IfaceStep := 0
    NumIfacePolluts := 0
    NumIfaceTemperature := 0
    IfacePolluts := none
    IfaceTemperature := 0
    NumIfaceNodes := 0
    IfaceNodes := none
    OldIfaceValues := none
    NewIfaceValues := none
    IfaceFrac := 0
    OldIfaceDate := 0
    NewIfaceDate := 0 }

/-- Buffers that hold nothing. -/
def noJunk : Junk :=
  { line := [], s := "", polluts := ⟨[], "", ""⟩, nodesLine := [], nodesS := "", readLine := [] }

/-- A project with one outfall node, a list of pollutants and the
temperature model switched by `temp`. -/
def sampleProject (polluts : List TPollut) (temp : Int) : Project :=
  { Title0 := ["Example"]
    Pollut := polluts
    Node := [⟨"J1", 0, 1, 2, polluts.map (fun _ => 5), 12⟩, ⟨"OUT1", 1, 0, 3 / 2, polluts.map (fun _ => 7), 18⟩]
    TempModel_active := temp
    WTemperature_ID := "WTEMP"
    WTemperature_units := 0
    FlowUnits := 0
    ReportStep := 900
    ReportStart := 37622
    StartDateTime := 37622
    RouteModel := 3 }

/-- The outflows file written for a project by `openFileForOutput` followed by
one call of `iface_saveOutletResults` per date. -/
def writtenFile (E : Env) (P : Project) (dates : List DateTime) : List Line :=
  dates.foldl (fun f d => iface_saveOutletResults E P d f)
    ((openFileForOutput E P true (initState "" "out.txt")).Foutflows_file.getD [])

/-- The stream obtained by opening a file that the writer produced: the writer
ends no line with a newline. -/
def reopened (file : List Line) : TextFile :=
  { rest := file, newlineAtEnd := false, eof := false }

/-- A state with one interface node whose flow is 10 at date 0 and 20 at date
10. -/
def interpState : State :=
  { initState "in.txt" "" with
    NumIfaceNodes := 1
    IfaceNodes := some [0]
    OldIfaceValues := some ⟨1, 1, fun _ _ => 10⟩
    NewIfaceValues := some ⟨1, 1, fun _ _ => 20⟩
    OldIfaceDate := 0
    NewIfaceDate := 10 }

/-- The sample project with one pollutant and the temperature model off. -/
def projectTSS : Project := sampleProject [⟨"TSS", 0⟩] 0

/-- The state after `openFileForInput` has opened the file written for
`projectTSS` with records at the start date and one and two quarters of an hour
later. -/
def openedTSS : State :=
  openFileForInput (sampleEnv projectTSS) projectTSS noJunk
    (some (reopened (writtenFile (sampleEnv projectTSS) projectTSS [37622 + 1 / 96, 37622 + 2 / 96])))
    (initState "out.txt" "")

/-- A variant of `interpState` with weight 1/2, one matched pollutant and a
matched temperature. -/
def interpHalf : State :=
  { interpState with IfaceFrac := 1 / 2, IfacePolluts := some [0], IfaceTemperature := 0 }

/-! ## Predicates used in the statements -/

/-- Agreement of two states on the variables that `readNewIfaceValues` never
assigns. -/
def SameButRead (s r : State) : Prop :=
  r.ErrorCode = s.ErrorCode ∧ r.ErrorMsg = s.ErrorMsg ∧ r.Frpt_file = s.Frpt_file
    ∧ r.OldIfaceDate = s.OldIfaceDate ∧ r.NumIfaceNodes = s.NumIfaceNodes
    ∧ r.NumIfacePolluts = s.NumIfacePolluts ∧ r.OldIfaceValues = s.OldIfaceValues
    ∧ r.IfaceFrac = s.IfaceFrac ∧ r.IfaceFlowUnits = s.IfaceFlowUnits

/-- What is left to read of a stream: the lines not yet read, plus one while
the end-of-file indicator is not set. -/
def pending (f : TextFile) : Nat :=
  f.rest.length + (if f.eof then 0 else 1)

/-- Number of tokens a record line needs for `readNewIfaceValues` to parse it
to the end: node ID, six date and time fields, flow, one value per file
constituent, and the temperature when its model is active. -/
def fieldsNeeded (P : Project) (s : State) : Nat :=
  8 + s.NumIfacePolluts.toNat + (if P.TempModel_active = 1 then 1 else 0)

/-- Agreement of two states on the error variables, the report file, the name
of the inflows file, the node count and the value matrices. -/
def SameReport (s r : State) : Prop :=
  r.ErrorCode = s.ErrorCode ∧ r.ErrorMsg = s.ErrorMsg ∧ r.Frpt_file = s.Frpt_file
    ∧ r.Finflows_name = s.Finflows_name ∧ r.OldIfaceValues = s.OldIfaceValues
    ∧ r.NewIfaceValues = s.NewIfaceValues

/-- Agreement of two states on what `SameReport` lists and on the node count:
what `getIfaceFilePolluts` leaves as it is. -/
def SameHead (s r : State) : Prop :=
  SameReport s r ∧ r.NumIfaceNodes = s.NumIfaceNodes

/-- The outcome of `openFileForInput` entered in state `s` is a format error:
the error code is `ERR_ROUTING_FILE_FORMAT`, the message written to the report
file and saved in `ErrorMsg` is the one `report_writeErrorMsg` makes for that
code with the name of the inflows file, and no value matrix exists. -/
def FormatFailure (E : Env) (s r : State) : Prop :=
  r.ErrorCode = E.ERR_ROUTING_FILE_FORMAT
    ∧ r.OldIfaceValues = none ∧ r.NewIfaceValues = none
    ∧ r.Frpt_file = (report_writeErrorMsg E E.ERR_ROUTING_FILE_FORMAT s.Finflows_name s).Frpt_file
    ∧ r.ErrorMsg = (report_writeErrorMsg E E.ERR_ROUTING_FILE_FORMAT s.Finflows_name s).ErrorMsg

/-- The line starts with a positive integer. -/
def startsPosInt (l : Line) : Prop :=
  ∃ t n, l.head? = some t ∧ scanInt t = some n ∧ 0 < n

/-- The first token of the line is `SWMM5`, ignoring case. -/
def magicOK (E : Env) (l : Line) : Prop :=
  ∃ t rest, l = t :: rest ∧ E.strcomp t "SWMM5" = true

/-- The line is `FLOW` followed by a known flow-unit word. -/
def flowLineOK (E : Env) (l : Line) : Prop :=
  ∃ a b rest, l = a :: b :: rest ∧ E.strcomp a "FLOW" = true ∧ 0 ≤ E.findmatch b E.FlowUnitWords

/-- The pollutant line has a name and a unit word, and the name is either not
a project pollutant or one with that unit word. -/
def pollutLineOK (E : Env) (P : Project) (l : Line) : Prop :=
  ∃ name unit rest, l = name :: unit :: rest
    ∧ (E.project_findObject ObjType.POLLUT name < 0
        ∨ E.strcomp unit (word E.QualUnitsWords (pollutAt P (E.project_findObject ObjType.POLLUT name)).units) = true)

/-- A state of `openedTSS` kind whose file goes on with a record cut short
after the month. -/
def shortRecordState : State :=
  { openedTSS with Finflows_file := some ⟨[["OUT1", "2003", "01"]], false, false⟩ }

/-- The sample project without pollutants and with the temperature model off. -/
def projectPlain : Project := sampleProject [] 0

/-- An inflows file that declares two constituents and whose pollutant line
holds one token only (`2`); the lines after it are those of a file for one
node. -/
def fileShortPollutLine : List Line :=
  [["SWMM5", "Interface", "File"],
   ["Example"],
   ["900", "-", "reporting", "time", "step", "in", "sec"],
   ["2", "-", "number", "of", "constituents", "as", "listed", "below:"],
   ["FLOW", "CFS"],
   ["2"],
   ["1", "-", "number", "of", "nodes", "as", "listed", "below:"],
   ["OUT1"],
   ["Node", "Year", "Mon", "Day", "Hr", "Min", "Sec", "FLOW", "TSS"],
   ["OUT1", "2003", "01", "01", "00", "00", "00", "1.500000", "7.000000"]]

/-- An inflows file for `projectTSS` that declares three constituents: the
first pollutant line names TSS with the units `UG/L`, which are not those of
the project (`MG/L`), and the second pollutant line holds one token only. -/
def fileUnitsThenShort : List Line :=
  [["SWMM5", "Interface", "File"],
   ["Example"],
   ["900", "-", "reporting", "time", "step", "in", "sec"],
   ["3", "-", "number", "of", "constituents", "as", "listed", "below:"],
   ["FLOW", "CFS"],
   ["TSS", "UG/L"],
   ["LEAD"],
   ["1", "-", "number", "of", "nodes", "as", "listed", "below:"],
   ["OUT1"]]

/-- An inflows file for `projectTSS` that declares three constituents, the
second pollutant line holding one token only. -/
def fileShortSecondLine : List Line :=
  [["SWMM5", "Interface", "File"],
   ["Example"],
   ["900", "-", "reporting", "time", "step", "in", "sec"],
   ["3", "-", "number", "of", "constituents", "as", "listed", "below:"],
   ["FLOW", "CFS"],
   ["TSS", "MG/L"],
   ["LEAD"],
   ["1", "-", "number", "of", "nodes", "as", "listed", "below:"],
   ["OUT1"]]

/-- The sample project with the pollutants TSS and LEAD and the temperature
model off. -/
def projectTwo : Project := sampleProject [⟨"TSS", 0⟩, ⟨"LEAD", 1⟩] 0

/-- The state after line 3 of an inflows file for `projectTwo` that declares
FLOW, a pollutant the project does not have (ZINC) and TSS. -/
def afterStepTwo : State :=
  { resetShared (initState "in.txt" "") with
    IfaceStep := 900
    Finflows_file := some (reopened
      [["3", "-", "number", "of", "constituents", "as", "listed", "below:"],
       ["FLOW", "CFS"], ["ZINC", "UG/L"], ["TSS", "MG/L"],
       ["1", "-", "number", "of", "nodes", "as", "listed", "below:"], ["OUT1"]]) }

/-- The sample project with the pollutant TSS and the temperature model on. -/
def projectTSSTemp : Project := sampleProject [⟨"TSS", 0⟩] 1

/-- The sample project without pollutants and with the temperature model on. -/
def projectTemp : Project := sampleProject [] 1

/-- What `openFileForInput` leaves when a project reads back the outflows file
it wrote itself, with records at the start date and a quarter of an hour
later. -/
def readBack (P : Project) : State :=
  openFileForInput (sampleEnv P) P noJunk
    (some (reopened (writtenFile (sampleEnv P) P [37622 + 1 / 96])))
    (resetShared (initState "out.txt" ""))

/-- An inflows file whose first line is blank, followed by the lines of a file
for `projectTSS`. -/
def fileBlankFirst : List Line :=
  [[],
   ["Example"],
   ["900", "-", "reporting", "time", "step", "in", "sec"],
   ["2", "-", "number", "of", "constituents", "as", "listed", "below:"],
   ["FLOW", "CFS"],
   ["TSS", "MG/L"],
   ["1", "-", "number", "of", "nodes", "as", "listed", "below:"],
   ["OUT1"],
   ["Node", "Year", "Mon", "Day", "Hr", "Min", "Sec", "FLOW", "TSS"],
   ["OUT1", "2003", "01", "01", "00", "00", "00", "1.500000", "7.000000"]]

/-- An inflows file for `projectTemp` (temperature variable `WTEMP`) whose
temperature line names another variable, `SALT`, with the project's
temperature unit word. -/
def fileOtherTempName : List Line :=
  [["SWMM5", "Interface", "File"],
   ["Example"],
   ["900", "-", "reporting", "time", "step", "in", "sec"],
   ["1", "-", "number", "of", "constituents", "as", "listed", "below:"],
   ["FLOW", "CFS"],
   ["SALT", "CELSIUS"],
   ["1", "-", "number", "of", "nodes", "as", "listed", "below:"],
   ["OUT1"],
   ["Node", "Year", "Mon", "Day", "Hr", "Min", "Sec", "FLOW", "SALT"],
   ["OUT1", "2003", "01", "01", "00", "00", "00", "1.500000", "18.000000"]]

/-- An inflows file for `projectTemp` whose temperature line names the
project's temperature variable with another unit word. -/
def fileOtherTempUnit : List Line :=
  [["SWMM5", "Interface", "File"],
   ["Example"],
   ["900", "-", "reporting", "time", "step", "in", "sec"],
   ["1", "-", "number", "of", "constituents", "as", "listed", "below:"],
   ["FLOW", "CFS"],
   ["WTEMP", "KELVIN"],
   ["1", "-", "number", "of", "nodes", "as", "listed", "below:"],
   ["OUT1"],
   ["Node", "Year", "Mon", "Day", "Hr", "Min", "Sec", "FLOW", "WTEMP"],
   ["OUT1", "2003", "01", "01", "00", "00", "00", "1.500000", "18.000000"]]

/-! ## iface.c: the parts of the written file -/

/-- Source: `openFileForOutput` and `iface_saveOutletResults`, the node indexes
`i` of the loops `for (i=0; i<Nobjects[NODE]; i++)` that pass the test
`isOutletNode(i)`, in the order the loops visit them. -/
def outletNodes (E : Env) (P : Project) : List Nat :=
  (List.range P.Node.length).filter (isOutletNode E P)

/-- Source: `openFileForOutput`, the text of the two count lines
`"\n%-4d - number of ... as listed below:"`. -/
def countLine (n : Int) (what : String) : Line :=
  [fmt_d n, "-", "number", "of", what, "as", "listed", "below:"]

/-- Source: `openFileForOutput`, the lines written between the constituent
count and the node count: the `FLOW` line, one line per pollutant, and the
temperature line under `TempModel.active == 1`. -/
def constituentLines (E : Env) (P : Project) : List Line :=
  [["FLOW", word E.FlowUnitWords P.FlowUnits]]
  ++ P.Pollut.map (fun q => [q.ID, word E.QualUnitsWords q.units])
  ++ (if P.TempModel_active = 1 then
        [[P.WTemperature_ID, word E.TempUnitsWords P.WTemperature_units]] else [])

/-- Source: `openFileForOutput`, the node ID lines written after the node
count. -/
def nodeLines (E : Env) (P : Project) : List Line :=
  (outletNodes E P).map (fun i => [(nodeAt P i).ID])

/-- Source: `openFileForOutput`, the line of column headings. -/
def headingLine (P : Project) : Line :=
  ["Node", "Year", "Mon", "Day", "Hr", "Min", "Sec", "FLOW"]
    ++ P.Pollut.map (fun q => q.ID)
    ++ (if P.TempModel_active = 1 then [P.WTemperature_ID] else [])

/-- Source: `iface_saveOutletResults`, the values printed with `" %-10f"` after
the node ID and the date of a record: flow, one value per pollutant, and the
temperature under `TempModel.active == 1`. -/
def recordValues (E : Env) (P : Project) (i : Nat) : List String :=
  [fmt_f ((nodeAt P i).inflow * E.UCF_FLOW)]
    ++ (List.range P.Pollut.length).map (fun p => fmt_f ((nodeAt P i).newQual.getD p 0))
    ++ (if P.TempModel_active = 1 then [fmt_f (nodeAt P i).newTemp] else [])

/-! ## report.c: continuity tables by chunks of pollutants -/

/-- Macro `MIN` of macros.h, at type `int`. -/
def MIN_int (x y : Int) : Int := if x ≤ y then x else y

/-- Source: `report_writeLoadingError` and `report_writeQualError`, the loop
`while ( p1 <= Nobjects[POLLUT] )` they share: `N` is `Nobjects[POLLUT]`,
`table p1 p2` the effect of the call of the table writer
(`report_LoadingErrors`, `report_QualErrors`) on what it changes.  The model
counts iterations down from `fuel` and yields `none` when they run out. -/
def chunkLoop {σ : Type} (N : Int) (table : Int → Int → σ → σ) :
    Nat → Int → Int → σ → Option σ
  | fuel, p1, p2, out =>
    if p1 ≤ N then
      match fuel with
      | 0 => none
      | fuel1 + 1 =>
        chunkLoop N table fuel1 (p2 + 1) (MIN_int (p2 + 1 + 4) N) (table (p1 - 1) (p2 - 1) out)
    else some out

/-- Source: `report_writeLoadingError`. -/
def report_writeLoadingError {σ : Type} (N : Int) (report_LoadingErrors : Int → Int → σ → σ)
    (fuel : Nat) (out : σ) : Option σ :=
  chunkLoop N report_LoadingErrors fuel 1 (MIN_int 5 N) out

/-- Source: `report_writeQualError`. -/
def report_writeQualError {σ : Type} (N : Int) (report_QualErrors : Int → Int → σ → σ)
    (fuel : Nat) (out : σ) : Option σ :=
  chunkLoop N report_QualErrors fuel 1 (MIN_int 5 N) out

/-- A table writer that records the index range it is called with. -/
def logCall (p1 p2 : Int) (calls : List (Int × Int)) : List (Int × Int) :=
  calls ++ [(p1, p2)]

/-- The index ranges of the specification: chunk `k` of `ceil(N/5)` chunks
runs from `5k` to `5k+4`, cut at `N-1`. -/
def chunkRanges (N : Int) : List (Int × Int) :=
  (List.range ((N + 4) / 5).toNat).map
    (fun (k : Nat) => (5 * (k : Int), min (5 * (k : Int) + 4) (N - 1)))

/-! ## report.c: what it takes from other source files -/

/-- Text of `printf("%.pf")`: `p` decimals, rounded to nearest, no decimal
point for `p = 0`. -/
def fmt_prec (p : Nat) (x : ℚ) : String :=
  let m : Int := Rat.floor (x * 10 ^ p + 1 / 2)
  (if m < 0 then "-" else "") ++ toString (m.natAbs / 10 ^ p)
    ++ (if p = 0 then "" else "." ++ padZeros p (toString (m.natAbs % 10 ^ p)))

/-- Right justification in a field of width `w`, as `printf("%ws")` does. -/
def fmt_s (w : Nat) (t : String) : String :=
  String.mk (List.replicate (w - t.length) ' ') ++ t

/-- Text of `printf("%w.pf")`. -/
def fmt_wf (w p : Nat) (x : ℚ) : String := fmt_s w (fmt_prec p x)

/-- Fields of `TSubcatch` used by report.c. -/
structure TSubcatch where
  ID : String
  rptFlag : Int

/-- Fields of `TLink` used by report.c. -/
structure TLink where
  ID : String
  rptFlag : Int

/-- A slot of a ranking array (`TMaxStats`). -/
structure TMaxStats where
  objType : Int
  index : Int
  value : ℚ

/-- What report.c takes from other source files: constants of the
enumerations, global variables, and the functions of output.c and datetime.c,
whose code is not part of these sources.  The writing functions only read it;
`report_readOptions` assigns the reporting flags.
`Nobjects[SUBCATCH]` and `Nobjects[LINK]` are the lengths of `Subcatch` and
`Link`; `Node_rptFlag` lists `Node[j].rptFlag`; `Title` lists the `MAXTITLE`
title lines; the `output_read...Results` functions give the results vector
they fill for a period and a reported object. -/
structure Rpt where
  NONE : Int
  ALL : Int
  SOME : Int
  TRUE : Int
  FALSE : Int
  TIMELEVELS : Int
  US : Int
  NODE : Int
  SUBCATCH_RAINFALL : Int
  SUBCATCH_SNOWDEPTH : Int
  SUBCATCH_EVAP : Int
  SUBCATCH_INFIL : Int
  SUBCATCH_RUNOFF : Int
  SUBCATCH_GW_FLOW : Int
  SUBCATCH_GW_ELEV : Int
  SUBCATCH_WASHOFF : Int
  NODE_DEPTH : Int
  NODE_HEAD : Int
  NODE_INFLOW : Int
  NODE_OVERFLOW : Int
  NODE_QUAL : Int
  LINK_FLOW : Int
  LINK_DEPTH : Int
  LINK_VELOCITY : Int
  LINK_CAPACITY : Int
  LINK_QUAL : Int
  Title : List String
  Subcatch : List TSubcatch
  Link : List TLink
  Node_rptFlag : List Int
  nSnowmelt : Int
  nAquifer : Int
  Nperiods : Int
  NonConvergeCount : Int
  RptFlags_disabled : Int
  RptFlags_input : Int
  RptFlags_continuity : Int
  RptFlags_flowStats : Int
  RptFlags_controls : Int
  RptFlags_averages : Int
  RptFlags_subcatchments : Int
  RptFlags_nodes : Int
  RptFlags_links : Int
  IgnoreRainfall : Int
  IgnoreSnowmelt : Int
  IgnoreGwater : Int
  IgnoreRouting : Int
  IgnoreQuality : Int
  IgnoreWTemperature : Int
  UnitSystem : Int
  CourantFactor : ℚ
  output_readDateTime : Int → DateTime
  output_readSubcatchResults : Int → Int → Int → ℚ
  output_readNodeResults : Int → Int → Int → ℚ
  output_readLinkResults : Int → Int → Int → ℚ
  datetime_dateToStr : DateTime → String
  datetime_timeToStr : DateTime → String

/-- Entry `Link[j]`. -/
def linkAt (R : Rpt) (j : Int) : TLink := R.Link.getD j.toNat ⟨"", 0⟩

/-- Entry `Subcatch[j]`. -/
def subcatchAt (R : Rpt) (j : Int) : TSubcatch := R.Subcatch.getD j.toNat ⟨"", 0⟩

/-- Slot `a[i]` of a ranking array; the functions read the slots below
`nMaxStats`, which the array holds. -/
def statAt (a : List TMaxStats) (i : Nat) : TMaxStats := a.getD i ⟨0, -1, 0⟩

/-- A call `fprintf(Frpt.file, ...)` that prints `text`.  The functions that
make it without testing `Frpt.file` run with the report file open; on a NULL
file the model writes nothing. -/
def fprintf_Frpt (text : String) (s : State) : State :=
  { s with Frpt_file := s.Frpt_file.map (fun out => out ++ [text]) }

/-! ## report.c: rankings -/

/-- Source: `report_writeMaxStats`, the body of the first loop for slot `i`. -/
def massBalLine (P : Project) (maxMassBalErrs : List TMaxStats) (i : Nat) (s : State) : State :=
  let j := (statAt maxMassBalErrs i).index
  if j < 0 then s
  else fprintf_Frpt ("\n  Node " ++ (nodeAt P j.toNat).ID ++ " ("
    ++ fmt_prec 2 (statAt maxMassBalErrs i).value ++ "%)") s

/-- Source: `report_writeMaxStats`, the body of the second loop for slot `i`,
on the count `k` and the state. -/
def courantLine (P : Project) (R : Rpt) (maxCourantCrit : List TMaxStats) (i : Nat)
    (ks : Int × State) : Int × State :=
  let j := (statAt maxCourantCrit i).index
  if j < 0 then ks
  else
    let s1 :=
      if (statAt maxCourantCrit i).objType = R.NODE then
        fprintf_Frpt ("\n  Node " ++ (nodeAt P j.toNat).ID) ks.2
      else fprintf_Frpt ("\n  Link " ++ (linkAt R j).ID) ks.2
    (ks.1 + 1, fprintf_Frpt (" (" ++ fmt_prec 2 (statAt maxCourantCrit i).value ++ "%)") s1)

/-- Source: `report_writeMaxStats`. -/
def report_writeMaxStats (E : Env) (P : Project) (R : Rpt)
    (maxMassBalErrs maxCourantCrit : List TMaxStats) (nMaxStats : Int) (s : State) : State :=
  if P.RouteModel ≠ E.DW ∨ (R.Link.length : Int) = 0 then s
  else if nMaxStats ≤ 0 then s
  else
    let s1 :=
      if (statAt maxMassBalErrs 0).index ≥ 0 then
        let t1 := report_writeLine "" s
        let t2 := report_writeLine "*************************" t1
        let t3 := report_writeLine "Highest Continuity Errors" t2
        let t4 := report_writeLine "*************************" t3
        let t5 := (List.range nMaxStats.toNat).foldl
          (fun t i => massBalLine P maxMassBalErrs i t) t4
        report_writeLine "" t5
      else s
    if R.CourantFactor = 0 then s1
    else
      let u1 := report_writeLine "" s1
      let u2 := report_writeLine "***************************" u1
      let u3 := report_writeLine "Time-Step Critical Elements" u2
      let u4 := report_writeLine "***************************" u3
      let ks := (List.range nMaxStats.toNat).foldl
        (fun t i => courantLine P R maxCourantCrit i t) (0, u4)
      let u5 := if ks.1 = 0 then fprintf_Frpt "\n  None" ks.2 else ks.2
      report_writeLine "" u5

/-- Source: `report_writeMaxFlowTurns`, the body of the loop for slot `i`. -/
def flowTurnLine (R : Rpt) (flowTurns : List TMaxStats) (i : Nat) (s : State) : State :=
  let j := (statAt flowTurns i).index
  if j < 0 then s
  else fprintf_Frpt ("\n  Link " ++ (linkAt R j).ID ++ " ("
    ++ fmt_prec 0 (statAt flowTurns i).value ++ ")") s

/-- Source: `report_writeMaxFlowTurns`. -/
def report_writeMaxFlowTurns (R : Rpt) (flowTurns : List TMaxStats) (nMaxStats : Int)
    (s : State) : State :=
  if (R.Link.length : Int) = 0 then s
  else
    let s1 := report_writeLine "" s
    let s2 := report_writeLine "********************************" s1
    let s3 := report_writeLine "Highest Flow Instability Indexes" s2
    let s4 := report_writeLine "********************************" s3
    let s5 :=
      if nMaxStats ≤ 0 ∨ (statAt flowTurns 0).index ≤ 0 then
        fprintf_Frpt "\n  All links are stable." s4
      else
        (List.range nMaxStats.toNat).foldl (fun t i => flowTurnLine R flowTurns i t) s4
    report_writeLine "" s5

/-- Source: `report_writeNonconvergedStats`, the body of the loop for slot
`i`. -/
def nonconvergedLine (P : Project) (maxNonconverged : List TMaxStats) (i : Nat) (s : State) :
    State :=
  let j := (statAt maxNonconverged i).index
  if j < 0 ∨ (statAt maxNonconverged i).value ≤ 0 then s
  else fprintf_Frpt ("\n  Node " ++ (nodeAt P j.toNat).ID ++ " ("
    ++ fmt_prec 2 (100 * (statAt maxNonconverged i).value) ++ "%)") s

/-- Source: `report_writeNonconvergedStats`. -/
def report_writeNonconvergedStats (E : Env) (P : Project) (maxNonconverged : List TMaxStats)
    (nMaxStats : Int) (s : State) : State :=
  if P.nNode = 0 ∨ P.RouteModel ≠ E.DW then s
  else
    let s1 := report_writeLine "" s
    let s2 := report_writeLine "*********************************" s1
    let s3 := report_writeLine "Most Frequent Nonconverging Nodes" s2
    let s4 := report_writeLine "*********************************" s3
    let s5 :=
      if nMaxStats ≤ 0 ∨ (statAt maxNonconverged 0).index ≤ 0
          ∨ (statAt maxNonconverged 0).value < 5 / 100000 then
        fprintf_Frpt "\n  Convergence obtained at all time steps." s4
      else
        (List.range nMaxStats.toNat).foldl (fun t i => nonconvergedLine P maxNonconverged i t) s4
    report_writeLine "" s5

/-! ## report.c: title and time series tables -/

/-- Source: `report_writeTitle`.  The counter `lineCount` is never read. -/
def report_writeTitle (R : Rpt) (s : State) : State :=
  if s.ErrorCode ≠ 0 then s
  else R.Title.foldl (fun t line => if line.length > 0 then report_writeLine line t else t) s

/-- Macro `LINE_10`. -/
def LINE_10 : String := "----------"

/-- Macro `LINE_12`. -/
def LINE_12 : String := "------------"

/-- Macro `LINE_51`. -/
def LINE_51 : String := "---------------------------------------------------"

/-- Macro `LINE_64`. -/
def LINE_64 : String := "----------------------------------------------------------------"

/-- A statement under `if ( c )`. -/
def doIf (c : Prop) [Decidable c] (f : State → State) (s : State) : State :=
  if c then f s else s

/-- A loop `for (i = 0; i < Nobjects[POLLUT]; i++)` whose body prints
`text q` for pollutant `q`. -/
def forPolluts (P : Project) (text : TPollut → String) (s : State) : State :=
  P.Pollut.foldl (fun t q => fprintf_Frpt (text q) t) s

/-- Source: `report_SubcatchHeader`. -/
def report_SubcatchHeader (E : Env) (P : Project) (R : Rpt) (id : String) (s : State) : State :=
  let hasSnowmelt : Prop := R.nSnowmelt > 0 ∧ R.IgnoreSnowmelt = 0
  let hasGwater : Prop := R.nAquifer > 0 ∧ R.IgnoreGwater = 0
  let hasQuality : Prop := P.nPollut > 0 ∧ R.IgnoreQuality = 0
  -- print top border of header
  s |> report_writeLine ""
    |> fprintf_Frpt ("\n  <<< Subcatchment " ++ id ++ " >>>")
    |> report_writeLine LINE_51
    |> doIf hasSnowmelt (fprintf_Frpt LINE_12)
    |> doIf hasGwater (fun t => fprintf_Frpt LINE_10 (fprintf_Frpt LINE_10 t))
    |> doIf hasQuality (forPolluts P (fun _ => LINE_10))
    -- print first line of column headings
    |> fprintf_Frpt "\n  Date        Time        Precip.    Losses    Runoff"
    |> doIf hasSnowmelt (fprintf_Frpt "  Snow Depth")
    |> doIf hasGwater (fprintf_Frpt "  GW Elev.   GW Flow")
    |> doIf hasQuality (forPolluts P (fun q => fmt_s 10 q.ID))
    -- print second line of column headings
    |> (fun t => if R.UnitSystem = R.US then
          fprintf_Frpt ("\n                            in/hr     in/hr "
            ++ fmt_s 9 (word E.FlowUnitWords P.FlowUnits)) t
        else
          fprintf_Frpt ("\n                            mm/hr     mm/hr "
            ++ fmt_s 9 (word E.FlowUnitWords P.FlowUnits)) t)
    |> doIf hasSnowmelt (fun t =>
          if R.UnitSystem = R.US then fprintf_Frpt "      inches" t
          else fprintf_Frpt "     mmeters" t)
    |> doIf hasGwater (fun t =>
          if R.UnitSystem = R.US then
            fprintf_Frpt ("      feet " ++ fmt_s 9 (word E.FlowUnitWords P.FlowUnits)) t
          else fprintf_Frpt ("    meters " ++ fmt_s 9 (word E.FlowUnitWords P.FlowUnits)) t)
    |> doIf hasQuality (forPolluts P (fun q => fmt_s 10 (word E.QualUnitsWords q.units)))
    -- print lower border of header
    |> report_writeLine LINE_51
    |> doIf hasSnowmelt (fprintf_Frpt LINE_12)
    |> doIf hasGwater (fun t => fprintf_Frpt LINE_10 (fprintf_Frpt LINE_10 t))
    |> doIf hasQuality (forPolluts P (fun _ => LINE_10))

/-- Source: `report_Subcatchments`, the body of the loop over the periods for
the reported subcatchment `k`. -/
def subcatchRow (P : Project) (R : Rpt) (k period : Int) (s : State) : State :=
  let days := R.output_readDateTime period
  let theDate := R.datetime_dateToStr days
  let theTime := R.datetime_timeToStr days
  let SubcatchResults := R.output_readSubcatchResults period k
  s |> fprintf_Frpt ("\n  " ++ fmt_s 11 theDate ++ " " ++ fmt_s 8 theTime ++ " "
        ++ fmt_wf 10 3 (SubcatchResults R.SUBCATCH_RAINFALL)
        ++ fmt_wf 10 3 (SubcatchResults R.SUBCATCH_EVAP / 24 + SubcatchResults R.SUBCATCH_INFIL)
        ++ fmt_wf 10 4 (SubcatchResults R.SUBCATCH_RUNOFF))
    |> doIf (R.nSnowmelt > 0 ∧ R.IgnoreSnowmelt = 0)
        (fprintf_Frpt ("  " ++ fmt_wf 10 3 (SubcatchResults R.SUBCATCH_SNOWDEPTH)))
    |> doIf (R.nAquifer > 0 ∧ R.IgnoreGwater = 0)
        (fprintf_Frpt (fmt_wf 10 3 (SubcatchResults R.SUBCATCH_GW_ELEV)
          ++ fmt_wf 10 4 (SubcatchResults R.SUBCATCH_GW_FLOW)))
    |> doIf (P.nPollut > 0 ∧ R.IgnoreQuality = 0) (fun t =>
        (List.range P.Pollut.length).foldl (fun u (p : Nat) =>
          fprintf_Frpt (fmt_wf 10 3 (SubcatchResults (R.SUBCATCH_WASHOFF + p))) u) t)

/-- Source: `report_Subcatchments`. -/
def report_Subcatchments (E : Env) (P : Project) (R : Rpt) (s : State) : State :=
  if (R.Subcatch.length : Int) = 0 then s
  else
    let s1 := s |> report_writeLine ""
      |> report_writeLine "********************************"
      |> report_writeLine "Subcatchment Time Series Results"
      |> report_writeLine "********************************"
    (List.range R.Subcatch.length).foldl (fun t (j : Nat) =>
      let k := (subcatchAt R j).rptFlag - 1
      if k ≥ 0 then
        let t1 := report_SubcatchHeader E P R (subcatchAt R j).ID t
        let t2 := (List.range R.Nperiods.toNat).foldl
          (fun u (i : Nat) => subcatchRow P R k ((i : Int) + 1) u) t1
        report_writeLine "" t2
      else t) s1

/-- Source: `report_NodeHeader`. -/
def report_NodeHeader (E : Env) (P : Project) (R : Rpt) (id : String) (s : State) : State :=
  let lengthUnits := if R.UnitSystem = R.US then "feet" else "meters"
  s |> report_writeLine ""
    |> fprintf_Frpt ("\n  <<< Node " ++ id ++ " >>>")
    |> report_writeLine LINE_64
    |> forPolluts P (fun _ => LINE_10)
    |> fprintf_Frpt "\n                           Inflow  Flooding     Depth      Head"
    |> doIf (R.IgnoreQuality = 0) (forPolluts P (fun q => fmt_s 10 q.ID))
    |> fprintf_Frpt ("\n  Date        Time      "
        ++ fmt_s 9 (word E.FlowUnitWords P.FlowUnits) ++ " "
        ++ fmt_s 9 (word E.FlowUnitWords P.FlowUnits) ++ " "
        ++ fmt_s 9 lengthUnits ++ " " ++ fmt_s 9 lengthUnits)
    |> doIf (R.IgnoreQuality = 0) (forPolluts P (fun q => fmt_s 10 (word E.QualUnitsWords q.units)))
    |> report_writeLine LINE_64
    |> doIf (R.IgnoreQuality = 0) (forPolluts P (fun _ => LINE_10))

/-- Source: `report_Nodes`, the body of the loop over the periods for the
reported node `k`. -/
def nodeRow (P : Project) (R : Rpt) (k period : Int) (s : State) : State :=
  let days := R.output_readDateTime period
  let theDate := R.datetime_dateToStr days
  let theTime := R.datetime_timeToStr days
  let NodeResults := R.output_readNodeResults period k
  s |> fprintf_Frpt ("\n  " ++ fmt_s 11 theDate ++ " " ++ fmt_s 8 theTime ++ "  "
        ++ fmt_wf 9 3 (NodeResults R.NODE_INFLOW) ++ " "
        ++ fmt_wf 9 3 (NodeResults R.NODE_OVERFLOW) ++ " "
        ++ fmt_wf 9 3 (NodeResults R.NODE_DEPTH) ++ " "
        ++ fmt_wf 9 3 (NodeResults R.NODE_HEAD))
    |> doIf (R.IgnoreQuality = 0) (fun t =>
        (List.range P.Pollut.length).foldl (fun u (p : Nat) =>
          fprintf_Frpt (" " ++ fmt_wf 9 3 (NodeResults (R.NODE_QUAL + p))) u) t)
    |> doIf (R.IgnoreWTemperature = 0)
        (fprintf_Frpt (" " ++ fmt_wf 9 3 (NodeResults (R.NODE_QUAL + P.nPollut))))

/-- Source: `report_Nodes`. -/
def report_Nodes (E : Env) (P : Project) (R : Rpt) (s : State) : State :=
  if P.nNode = 0 then s
  else
    let s1 := s |> report_writeLine ""
      |> report_writeLine "************************"
      |> report_writeLine "Node Time Series Results"
      |> report_writeLine "************************"
    (List.range P.Node.length).foldl (fun t (j : Nat) =>
      let k := R.Node_rptFlag.getD j 0 - 1
      if k ≥ 0 then
        let t1 := report_NodeHeader E P R (nodeAt P j).ID t
        let t2 := (List.range R.Nperiods.toNat).foldl
          (fun u (i : Nat) => nodeRow P R k ((i : Int) + 1) u) t1
        report_writeLine "" t2
      else t) s1

/-- Source: `report_LinkHeader`. -/
def report_LinkHeader (E : Env) (P : Project) (R : Rpt) (id : String) (s : State) : State :=
  s |> report_writeLine ""
    |> fprintf_Frpt ("\n  <<< Link " ++ id ++ " >>>")
    |> report_writeLine LINE_64
    |> forPolluts P (fun _ => LINE_10)
    |> fprintf_Frpt "\n                             Flow  Velocity     Depth  Capacity/"
    |> doIf (R.IgnoreQuality = 0) (forPolluts P (fun q => fmt_s 10 q.ID))
    |> (fun t => if R.UnitSystem = R.US then
          fprintf_Frpt ("\n  Date        Time     "
            ++ fmt_s 10 (word E.FlowUnitWords P.FlowUnits) ++ "    ft/sec      feet   Setting ") t
        else
          fprintf_Frpt ("\n  Date        Time     "
            ++ fmt_s 10 (word E.FlowUnitWords P.FlowUnits) ++ "     m/sec    meters   Setting ") t)
    |> doIf (R.IgnoreQuality = 0)
        (forPolluts P (fun q => " " ++ fmt_s 9 (word E.QualUnitsWords q.units)))
    |> report_writeLine LINE_64
    |> doIf (R.IgnoreQuality = 0) (forPolluts P (fun _ => LINE_10))

/-- Source: `report_Links`, the body of the loop over the periods for the
reported link `k`: the vector `LinkResults` that `output_readLinkResults`
leaves, and the state. -/
def linkRow (P : Project) (R : Rpt) (k period : Int) (s : State) : (Int → ℚ) × State :=
  let days := R.output_readDateTime period
  let theDate := R.datetime_dateToStr days
  let theTime := R.datetime_timeToStr days
  let LinkResults := R.output_readLinkResults period k
  (LinkResults,
   s |> fprintf_Frpt ("\n  " ++ fmt_s 11 theDate ++ " " ++ fmt_s 8 theTime ++ "  "
        ++ fmt_wf 9 3 (LinkResults R.LINK_FLOW) ++ " "
        ++ fmt_wf 9 3 (LinkResults R.LINK_VELOCITY) ++ " "
        ++ fmt_wf 9 3 (LinkResults R.LINK_DEPTH) ++ " "
        ++ fmt_wf 9 3 (LinkResults R.LINK_CAPACITY))
    |> doIf (R.IgnoreQuality = 0) (fun t =>
        (List.range P.Pollut.length).foldl (fun u (p : Nat) =>
          fprintf_Frpt (" " ++ fmt_wf 9 3 (LinkResults (R.LINK_QUAL + p))) u) t))

/-- Source: `report_Links`; `LinkResults0` is what the vector `LinkResults`
holds on entry.  The temperature is printed after the loop over the periods,
from the vector as the last period left it. -/
def report_Links (E : Env) (P : Project) (R : Rpt) (LinkResults0 : Int → ℚ) (s : State) :
    State :=
  if (R.Link.length : Int) = 0 then s
  else
    let s1 := s |> report_writeLine ""
      |> report_writeLine "************************"
      |> report_writeLine "Link Time Series Results"
      |> report_writeLine "************************"
    ((List.range R.Link.length).foldl (fun (t : (Int → ℚ) × State) (j : Nat) =>
      let k := (linkAt R j).rptFlag - 1
      if k ≥ 0 then
        let t1 := report_LinkHeader E P R (linkAt R j).ID t.2
        let t2 := (List.range R.Nperiods.toNat).foldl
          (fun (u : (Int → ℚ) × State) (i : Nat) => linkRow P R k ((i : Int) + 1) u.2) (t.1, t1)
        let t3 := doIf (R.IgnoreWTemperature = 0)
          (fprintf_Frpt (" " ++ fmt_wf 9 3 (t2.1 (R.LINK_QUAL + P.nPollut)))) t2.2
        (t2.1, report_writeLine "" t3)
      else t) (LinkResults0, s1)).2

/-- Source: `report_writeReport`; `LinkResults0` is what the vector
`LinkResults` holds on entry. -/
def report_writeReport (E : Env) (P : Project) (R : Rpt) (LinkResults0 : Int → ℚ)
    (s : State) : State :=
  if s.ErrorCode ≠ 0 then s
  else if R.Nperiods = 0 then s
  else
    let s1 :=
      if R.RptFlags_subcatchments ≠ R.NONE
          ∧ (R.IgnoreRainfall = R.FALSE ∨ R.IgnoreSnowmelt = R.FALSE ∨ R.IgnoreGwater = R.FALSE)
      then report_Subcatchments E P R s else s
    if R.IgnoreRouting = R.TRUE ∧ R.IgnoreQuality = R.TRUE then s1
    else
      let s2 := if R.RptFlags_nodes ≠ R.NONE then report_Nodes E P R s1 else s1
      if R.RptFlags_links ≠ R.NONE then report_Links E P R LinkResults0 s2 else s2

/-! ## report.c: sample data and the texts named in the statements -/

/-- The state after the texts `l` were printed to the report file. -/
def written (l : List String) (s : State) : State :=
  { s with Frpt_file := s.Frpt_file.map (fun out => out ++ l) }

/-- The text `report_writeNonconvergedStats` prints for a listed slot. -/
def nonconvergedText (P : Project) (m : TMaxStats) : String :=
  "\n  Node " ++ (nodeAt P m.index.toNat).ID ++ " (" ++ fmt_prec 2 (100 * m.value) ++ "%)"

/-- The text `report_writeMaxFlowTurns` prints for a listed slot. -/
def flowTurnText (R : Rpt) (m : TMaxStats) : String :=
  "\n  Link " ++ (linkAt R m.index).ID ++ " (" ++ fmt_prec 0 m.value ++ ")"

/-- The four lines that head the non-convergence ranking. -/
def nonconvergedHeading : List String :=
  ["\n  ", "\n  *********************************", "\n  Most Frequent Nonconverging Nodes",
   "\n  *********************************"]

/-- The four lines that head the flow instability ranking. -/
def flowTurnHeading : List String :=
  ["\n  ", "\n  ********************************", "\n  Highest Flow Instability Indexes",
   "\n  ********************************"]

/-- Sample report data: SWMM 5.2 values of the constants, two links, one
subcatchment, two reporting periods, every object reported, nothing ignored
but the water temperature. -/
def sampleRpt : Rpt :=
  { NONE := 0, ALL := 1, SOME := 2, TRUE := 1, FALSE := 0, TIMELEVELS := 6, US := 0, NODE := 2
    SUBCATCH_RAINFALL := 0, SUBCATCH_SNOWDEPTH := 1, SUBCATCH_EVAP := 2, SUBCATCH_INFIL := 3
    SUBCATCH_RUNOFF := 4, SUBCATCH_GW_FLOW := 5, SUBCATCH_GW_ELEV := 6, SUBCATCH_WASHOFF := 8
    NODE_DEPTH := 0, NODE_HEAD := 1, NODE_INFLOW := 4, NODE_OVERFLOW := 5, NODE_QUAL := 6
    LINK_FLOW := 0, LINK_DEPTH := 1, LINK_VELOCITY := 2, LINK_CAPACITY := 4, LINK_QUAL := 5
    Title := ["Example", "", "second line"]
    Subcatch := [⟨"S1", 1⟩]
    Link := [⟨"C1", 1⟩, ⟨"C2", 2⟩]
    Node_rptFlag := [1, 2]
    nSnowmelt := 0
    nAquifer := 0
    Nperiods := 2
    NonConvergeCount := 3
    RptFlags_disabled := 0
    RptFlags_input := 0
    RptFlags_continuity := 1
    RptFlags_flowStats := 1
    RptFlags_controls := 0
    RptFlags_averages := 0
    RptFlags_subcatchments := 1
    RptFlags_nodes := 1
    RptFlags_links := 1
    IgnoreRainfall := 0
    IgnoreSnowmelt := 0
    IgnoreGwater := 0
    IgnoreRouting := 0
    IgnoreQuality := 0
    IgnoreWTemperature := 1
    UnitSystem := 0
    CourantFactor := 3 / 4
    output_readDateTime := fun period => 37622 + period / 96
    output_readSubcatchResults := fun period k i => period + k / 10 + i / 100
    output_readNodeResults := fun period k i => period + k / 10 + i / 100
    output_readLinkResults := fun period k i => period + k / 10 + i / 100
    datetime_dateToStr := fun d =>
      fmt_0d 2 (sampleDecodeDate d).2.1 ++ "/" ++ fmt_0d 2 (sampleDecodeDate d).2.2 ++ "/"
        ++ fmt_0d 4 (sampleDecodeDate d).1
    datetime_timeToStr := fun d =>
      fmt_0d 2 (sampleDecodeTime d).1 ++ ":" ++ fmt_0d 2 (sampleDecodeTime d).2.1 ++ ":"
        ++ fmt_0d 2 (sampleDecodeTime d).2.2 }

/-- A state with an open, empty report file and no error. -/
def reportState : State := { initState "" "" with Frpt_file := some [] }

/-- A non-convergence ranking whose second slot holds node 0 with the value
0.00001. -/
def rankSmallSecond : List TMaxStats := [⟨2, 1, 1 / 2⟩, ⟨2, 0, 1 / 100000⟩]

/-- A ranking whose second slot holds object 0 with the value 0. -/
def rankZeroSecond : List TMaxStats := [⟨2, 1, 1 / 2⟩, ⟨2, 0, 0⟩]

/-- A ranking with object 1 in the first slot, object 0 in the second and an
unused third slot. -/
def rankThree : List TMaxStats := [⟨2, 1, 7⟩, ⟨2, 0, 3⟩, ⟨0, -1, 0⟩]

/-- A non-convergence ranking with node 1 in the first slot, node 0 in the
second and an unused third slot. -/
def rankNonconverged : List TMaxStats := [⟨2, 1, 1 / 2⟩, ⟨2, 0, 1 / 4⟩, ⟨0, -1, 0⟩]

/-- A ranking with object 0 in the first slot and object 1 in the second. -/
def rankFirstZero : List TMaxStats := [⟨2, 0, 3⟩, ⟨2, 1, 2⟩]

/-! ## Sample inputs for the temperature column and the time series tables -/

/-- An inflows file in the layout `openFileForInput` reads for `projectTSSTemp`:
the count on line 4 covers `FLOW` and the pollutant, the temperature line
follows the pollutant line, and the record holds flow, pollutant value and
temperature. -/
def fileTempTSS : List Line :=
  [["SWMM5", "Interface", "File"],
   ["Example"],
   ["900", "-", "reporting", "time", "step", "in", "sec"],
   ["2", "-", "number", "of", "constituents", "as", "listed", "below:"],
   ["FLOW", "CFS"],
   ["TSS", "MG/L"],
   ["WTEMP", "CELSIUS"],
   ["1", "-", "number", "of", "nodes", "as", "listed", "below:"],
   ["OUT1"],
   ["Node", "Year", "Mon", "Day", "Hr", "Min", "Sec", "FLOW", "TSS", "WTEMP"],
   ["OUT1", "2003", "01", "01", "00", "00", "00", "1.500000", "7.000000", "18.000000"]]

/-- What `openFileForInput` leaves for `projectTSSTemp` on `fileTempTSS`. -/
def openedTemp : State :=
  openFileForInput (sampleEnv projectTSSTemp) projectTSSTemp noJunk
    (some (reopened fileTempTSS)) (resetShared (initState "in.txt" ""))

/-- Sample report data with the water temperature reported and one reported
link. -/
def rptTemp : Rpt :=
  { sampleRpt with IgnoreWTemperature := 0, Link := [⟨"C1", 1⟩], Node_rptFlag := [0, 1] }

/-- Source: `report_Nodes`, the text of the first `fprintf` of a period row:
date, time and the 4 values of every node row. -/
def nodeRowHead (R : Rpt) (k period : Int) : String :=
  "\n  " ++ fmt_s 11 (R.datetime_dateToStr (R.output_readDateTime period)) ++ " "
    ++ fmt_s 8 (R.datetime_timeToStr (R.output_readDateTime period)) ++ "  "
    ++ fmt_wf 9 3 (R.output_readNodeResults period k R.NODE_INFLOW) ++ " "
    ++ fmt_wf 9 3 (R.output_readNodeResults period k R.NODE_OVERFLOW) ++ " "
    ++ fmt_wf 9 3 (R.output_readNodeResults period k R.NODE_DEPTH) ++ " "
    ++ fmt_wf 9 3 (R.output_readNodeResults period k R.NODE_HEAD)

/-- Source: `report_Links`, the text of the first `fprintf` of a period row:
date, time and the 4 values of every link row. -/
def linkRowHead (R : Rpt) (k period : Int) : String :=
  "\n  " ++ fmt_s 11 (R.datetime_dateToStr (R.output_readDateTime period)) ++ " "
    ++ fmt_s 8 (R.datetime_timeToStr (R.output_readDateTime period)) ++ "  "
    ++ fmt_wf 9 3 (R.output_readLinkResults period k R.LINK_FLOW) ++ " "
    ++ fmt_wf 9 3 (R.output_readLinkResults period k R.LINK_VELOCITY) ++ " "
    ++ fmt_wf 9 3 (R.output_readLinkResults period k R.LINK_DEPTH) ++ " "
    ++ fmt_wf 9 3 (R.output_readLinkResults period k R.LINK_CAPACITY)

/-! ## report.c: routing time step statistics -/

/-- Fields of `TTimeStepStats`.  The counts of steps and trials enter the
function as `double` operands; the bucket counts are integers that the
function casts. -/
structure TTimeStepStats where
  minTimeStep : ℚ
  maxTimeStep : ℚ
  routingTime : ℚ
  timeStepCount : ℚ
  trialsCount : ℚ
  steadyStateTime : ℚ
  timeStepIntervals : List ℚ
  timeStepCounts : List Int

/-- Source: `report_RouteStepFreq`, the value of `totalSteps` after the first
loop: the sum of the buckets `1 .. TIMELEVELS-1`. -/
def totalSteps (R : Rpt) (t : TTimeStepStats) : ℚ :=
  (List.range (R.TIMELEVELS - 1).toNat).foldl
    (fun acc (k : Nat) => acc + ((t.timeStepCounts.getD (k + 1) 0 : Int) : ℚ)) 0

/-- Source: `report_RouteStepFreq`, the percentage printed for bucket `i`. -/
def stepPercent (R : Rpt) (t : TTimeStepStats) (i : Nat) : ℚ :=
  100 * ((t.timeStepCounts.getD i 0 : Int) : ℚ) / totalSteps R t

/-- Source: `report_RouteStepFreq`, the text of the `fprintf` for bucket `i`. -/
def stepFreqLine (R : Rpt) (t : TTimeStepStats) (i : Nat) : String :=
  "\n     " ++ fmt_wf 6 3 (t.timeStepIntervals.getD (i - 1) 0) ++ " - "
    ++ fmt_wf 6 3 (t.timeStepIntervals.getD i 0) ++ " sec      :  "
    ++ fmt_wf 7 2 (stepPercent R t i) ++ " %"

/-- Source: `report_RouteStepFreq`. -/
def report_RouteStepFreq (R : Rpt) (t : TTimeStepStats) (s : State) : State :=
  if totalSteps R t = 0 then s
  else
    let s1 := fprintf_Frpt "\n  Time Step Frequencies       :" s
    (List.range (R.TIMELEVELS - 1).toNat).foldl
      (fun u (k : Nat) => fprintf_Frpt (stepFreqLine R t (k + 1)) u) s1

/-- Source: `report_writeTimeStepStats`, the value of `fSteadyState` when the
lines are written. -/
def fSteadyState (t : TTimeStepStats) : ℚ :=
  let totalRoutingTime := t.steadyStateTime + t.routingTime
  if totalRoutingTime > 0 then 100 * t.steadyStateTime / totalRoutingTime else 0

/-- Source: `report_writeTimeStepStats`. -/
def report_writeTimeStepStats (E : Env) (P : Project) (R : Rpt) (t : TTimeStepStats)
    (s : State) : State :=
  let timeStepCount := t.timeStepCount
  if (R.Link.length : Int) = 0 ∨ t.timeStepCount = 0 then s
  else
    s |> report_writeLine ""
      |> report_writeLine "*************************"
      |> report_writeLine "Routing Time Step Summary"
      |> report_writeLine "*************************"
      |> fprintf_Frpt ("\n  Minimum Time Step           :  " ++ fmt_wf 7 2 t.minTimeStep ++ " sec")
      |> fprintf_Frpt ("\n  Average Time Step           :  "
          ++ fmt_wf 7 2 (t.routingTime / timeStepCount) ++ " sec")
      |> fprintf_Frpt ("\n  Maximum Time Step           :  " ++ fmt_wf 7 2 t.maxTimeStep ++ " sec")
      |> fprintf_Frpt ("\n  % of Time in Steady State   :  " ++ fmt_wf 7 2 (MIN (fSteadyState t) 100))
      |> fprintf_Frpt ("\n  Average Iterations per Step :  "
          ++ fmt_wf 7 2 (t.trialsCount / timeStepCount))
      |> fprintf_Frpt ("\n  % of Steps Not Converging   :  "
          ++ fmt_wf 7 2 (100 * (R.NonConvergeCount : ℚ) / timeStepCount))
      -- write grouped frequency table of variable routing time steps
      |> doIf (P.RouteModel = E.DW ∧ R.CourantFactor > 0) (report_RouteStepFreq R t)
      |> report_writeLine ""

/-- Sample statistics: 40 steps in 1000 s of routing and 250 s of steady
state, 90 trials, and the step counts 0, 10, 10, 10, 5, 5 of six levels. -/
def sampleStats : TTimeStepStats :=
  { minTimeStep := 5, maxTimeStep := 30, routingTime := 1000, timeStepCount := 40
    trialsCount := 90, steadyStateTime := 250
    timeStepIntervals := [30, 20, 15, 10, 5, 1]
    timeStepCounts := [0, 10, 10, 10, 5, 5] }

/-- The ten lines `report_writeTimeStepStats` writes before the frequency
table: the heading and the six statistics. -/
def timeStepSummary (R : Rpt) (t : TTimeStepStats) : List String :=
  ["\n  ", "\n  *************************", "\n  Routing Time Step Summary",
   "\n  *************************",
   "\n  Minimum Time Step           :  " ++ fmt_wf 7 2 t.minTimeStep ++ " sec",
   "\n  Average Time Step           :  " ++ fmt_wf 7 2 (t.routingTime / t.timeStepCount) ++ " sec",
   "\n  Maximum Time Step           :  " ++ fmt_wf 7 2 t.maxTimeStep ++ " sec",
   "\n  % of Time in Steady State   :  " ++ fmt_wf 7 2 (MIN (fSteadyState t) 100),
   "\n  Average Iterations per Step :  " ++ fmt_wf 7 2 (t.trialsCount / t.timeStepCount),
   "\n  % of Steps Not Converging   :  "
     ++ fmt_wf 7 2 (100 * (R.NonConvergeCount : ℚ) / t.timeStepCount)]

/-- The lines of the frequency table: its heading and one line per bucket
`1 .. TIMELEVELS-1`. -/
def stepFreqTable (R : Rpt) (t : TTimeStepStats) : List String :=
  "\n  Time Step Frequencies       :"
    :: (List.range (R.TIMELEVELS - 1).toNat).map (fun (k : Nat) => stepFreqLine R t (k + 1))

/-! ## Reading lines of input: report options and interface files -/

/-- Constants, keyword tables and functions of other source files that
`report_readOptions` and `iface_readFileParams` use. -/
structure Inp where
  /-- error.h -/
  ERR_ITEMS : Int
  ERR_KEYWORD : Int
  ERR_NAME : Int
  /-- error.c: the value `error_setInpError(code, s)` returns -/
  error_setInpError : Int → String → Int
  /-- keywords.c -/
  ReportWords : List String
  NoYesWords : List String
  FileModeWords : List String
  FileTypeWords : List String
  /-- enums.h -/
  NO : Int
  YES : Int
  RAINFALL_FILE : Int
  RUNOFF_FILE : Int
  HOTSTART_FILE : Int
  RDII_FILE : Int
  INFLOWS_FILE : Int
  OUTFLOWS_FILE : Int
  /-- text.h -/
  w_NONE : String
  w_ALL : String
  /-- consts.h -/
  MAXFNAME : Nat
  /-- the string that `sstrncpy(dest, src, maxlen)` leaves in `dest` -/
  sstrncpy : String → Nat → String
  /-- the string that `addAbsolutePath(fname)` returns -/
  addAbsolutePath : String → String

/-- The conversion `(char)` of an `int`, `char` being a signed byte. -/
def toChar (n : Int) : Int := (n + 128) % 256 - 128

/-- Source: `report_readOptions`, the assignment `Subcatch[j].rptFlag = TRUE`,
`Node[j].rptFlag = TRUE` or `Link[j].rptFlag = TRUE` that `switch ( m )`
selects. -/
def setRptFlag (R : Rpt) (m : ObjType) (j : Int) : Rpt :=
  match m with
  | ObjType.SUBCATCH =>
    { R with Subcatch := R.Subcatch.set j.toNat { subcatchAt R j with rptFlag := R.TRUE } }
  | ObjType.NODE => { R with Node_rptFlag := R.Node_rptFlag.set j.toNat R.TRUE }
  | ObjType.LINK => { R with Link := R.Link.set j.toNat { linkAt R j with rptFlag := R.TRUE } }
  | _ => R

/-- Source: `report_readOptions`, the loop `for (t = 1; t < ntoks; t++)` on the
tokens `tok[1] .. tok[ntoks-1]`: the token for which the function returns
`ERR_NAME`, if there is one, and the flags as the loop leaves them. -/
def flagObjects (E : Env) (m : ObjType) : List String → Rpt → Option String × Rpt
  | [], R => (none, R)
  | t :: ts, R =>
    let j := E.project_findObject m t
    if j < 0 then (some t, R) else flagObjects E m ts (setRptFlag R m j)

/-- Source: `report_readOptions`, the last `switch ( m )`: the assignment to
the reporting flag of the object type. -/
def setTypeFlag (R : Rpt) (m : ObjType) (k : Int) : Rpt :=
  match m with
  | ObjType.SUBCATCH => { R with RptFlags_subcatchments := k }
  | ObjType.NODE => { R with RptFlags_nodes := k }
  | ObjType.LINK => { R with RptFlags_links := k }
  | _ => R

/-- Source: `report_readOptions`, from `// --- determine object's reporting
flag` to the end, for the object type `m`. -/
def objectOptions (E : Env) (K : Inp) (tok : List String) (ntoks : Int) (m : ObjType)
    (R : Rpt) : Int × Rpt :=
  if E.strcomp (tok.getD 1 "") K.w_NONE then (0, setTypeFlag R m (toChar R.NONE))
  else if E.strcomp (tok.getD 1 "") K.w_ALL then (0, setTypeFlag R m (toChar R.ALL))
  else
    -- set reporting flag for individual objects
    match flagObjects E m ((tok.take ntoks.toNat).drop 1) R with
    | (some t, R1) => (K.error_setInpError K.ERR_NAME t, R1)
    | (none, R1) => (0, setTypeFlag R1 m (toChar R.SOME))

/-- Source: `report_readOptions`: the value returned and the flags left. -/
def report_readOptions (E : Env) (K : Inp) (tok : List String) (ntoks : Int) (R : Rpt) :
    Int × Rpt :=
  if ntoks < 2 then (K.error_setInpError K.ERR_ITEMS "", R)
  else
    let k := toChar (E.findmatch (tok.getD 0 "") K.ReportWords)
    if k < 0 then (K.error_setInpError K.ERR_KEYWORD (tok.getD 0 ""), R)
    -- keyword not SUBCATCHMENT, NODE, or LINK
    else if k < 2 ∨ k > 4 then
      let m := E.findmatch (tok.getD 1 "") K.NoYesWords
      if m < K.NO ∨ m > K.YES then (K.error_setInpError K.ERR_KEYWORD (tok.getD 1 ""), R)
      else if k = 0 then (0, { R with RptFlags_disabled := m })
      else if k = 1 then (0, { R with RptFlags_input := m })
      else if k = 5 then (0, { R with RptFlags_continuity := m })
      else if k = 6 then (0, { R with RptFlags_flowStats := m })
      else if k = 7 then (0, { R with RptFlags_controls := m })
      else if k = 8 then (0, { R with RptFlags_averages := m })
      else if k = 9 then (0, R)
      else (K.error_setInpError K.ERR_KEYWORD (tok.getD 1 ""), R)
    -- SUBCATCHMENT, NODE, & LINK keywords
    else
      objectOptions E K tok ntoks
        (if k = 2 then ObjType.SUBCATCH else if k = 3 then ObjType.NODE else ObjType.LINK) R

/-- Fields of `TFile` that `iface_readFileParams` assigns. -/
structure TFile where
  mode : Int
  name : String

/-- The interface file variables that `iface_readFileParams` assigns.  Of
`Finflows` and `Foutflows`, mode and name are what `State` holds as
`Finflows_mode`, `Finflows_name`, `Foutflows_mode` and `Foutflows_name`. -/
structure Files where
  Frain : TFile
  Frunoff : TFile
  Fhotstart1 : TFile
  Fhotstart2 : TFile
  Frdii : TFile
  Finflows : TFile
  Foutflows : TFile

/-- Source: `iface_readFileParams`, the statement `switch ( j )` and the
`return 0` after it, for the mode `k`, the file type `j` and the local
`fname`. -/
def processFileName (E : Env) (K : Inp) (k j : Int) (fname : String) (F : Files) :
    Int × Files :=
  if j = K.RAINFALL_FILE then
    (0, { F with Frain := ⟨k, K.sstrncpy (K.addAbsolutePath fname) K.MAXFNAME⟩ })
  else if j = K.RUNOFF_FILE then
    (0, { F with Frunoff := ⟨k, K.sstrncpy (K.addAbsolutePath fname) K.MAXFNAME⟩ })
  else if j = K.HOTSTART_FILE then
    if k = E.USE_FILE then
      (0, { F with Fhotstart1 := ⟨k, K.sstrncpy (K.addAbsolutePath fname) K.MAXFNAME⟩ })
    else if k = E.SAVE_FILE then
      (0, { F with Fhotstart2 := ⟨k, K.sstrncpy (K.addAbsolutePath fname) K.MAXFNAME⟩ })
    else (0, F)
  else if j = K.RDII_FILE then
    (0, { F with Frdii := ⟨k, K.sstrncpy fname K.MAXFNAME⟩ })
  else if j = K.INFLOWS_FILE then
    if k ≠ E.USE_FILE then (K.error_setInpError K.ERR_ITEMS "", F)
    else (0, { F with Finflows := ⟨k, K.sstrncpy (K.addAbsolutePath fname) K.MAXFNAME⟩ })
  else if j = K.OUTFLOWS_FILE then
    if k ≠ E.SAVE_FILE then (K.error_setInpError K.ERR_ITEMS "", F)
    else (0, { F with Foutflows := ⟨k, K.sstrncpy (K.addAbsolutePath fname) K.MAXFNAME⟩ })
  else (0, F)

/-- Source: `iface_readFileParams`: the value returned and the file variables
left. -/
def iface_readFileParams (E : Env) (K : Inp) (tok : List String) (ntoks : Int) (F : Files) :
    Int × Files :=
  -- determine file disposition and type
  if ntoks < 2 then (K.error_setInpError K.ERR_ITEMS "", F)
  else
    let k := toChar (E.findmatch (tok.getD 0 "") K.FileModeWords)
    if k < 0 then (K.error_setInpError K.ERR_KEYWORD (tok.getD 0 ""), F)
    else
      let j := E.findmatch (tok.getD 1 "") K.FileTypeWords
      if j < 0 then (K.error_setInpError K.ERR_KEYWORD (tok.getD 1 ""), F)
      else if ntoks < 3 then (0, F)
      else processFileName E K k j (K.sstrncpy (tok.getD 2 "") K.MAXFNAME) F

/-- Sample constants of the input readers: SWMM 5.2 keyword tables and values,
`error_setInpError` returning its code, file names kept as they are up to
`MAXFNAME` characters. -/
def sampleInp : Inp :=
  { ERR_ITEMS := 203, ERR_KEYWORD := 205, ERR_NAME := 209
    error_setInpError := fun code _ => code
    ReportWords := ["DISABLED", "INPUT", "SUBCATCHMENTS", "NODES", "LINKS", "CONTINUITY",
      "FLOWSTATS", "CONTROLS", "AVERAGES", "NODESTATS"]
    NoYesWords := ["NO", "YES"]
    FileModeWords := ["NO", "SCRATCH", "USE", "SAVE"]
    FileTypeWords := ["RAINFALL", "RUNOFF", "HOTSTART", "RDII", "INFLOWS", "OUTFLOWS"]
    NO := 0, YES := 1
    RAINFALL_FILE := 0, RUNOFF_FILE := 1, HOTSTART_FILE := 2, RDII_FILE := 3
    INFLOWS_FILE := 4, OUTFLOWS_FILE := 5
    w_NONE := "NONE", w_ALL := "ALL"
    MAXFNAME := 259
    sstrncpy := fun src maxlen => String.mk (src.data.take maxlen)
    addAbsolutePath := fun fname => fname }

/-- File variables with no file named. -/
def noFiles : Files :=
  { Frain := ⟨0, ""⟩, Frunoff := ⟨0, ""⟩, Fhotstart1 := ⟨0, ""⟩, Fhotstart2 := ⟨0, ""⟩
    Frdii := ⟨0, ""⟩, Finflows := ⟨0, ""⟩, Foutflows := ⟨0, ""⟩ }

/-- The reporting flag of object `i` of type `m`. -/
def rptFlagOf (R : Rpt) (m : ObjType) (i : Nat) : Int :=
  match m with
  | ObjType.SUBCATCH => (subcatchAt R i).rptFlag
  | ObjType.NODE => R.Node_rptFlag.getD i 0
  | ObjType.LINK => (linkAt R i).rptFlag
  | _ => 0

/-- The number of objects of type `m` that carry a reporting flag. -/
def rptCount (R : Rpt) (m : ObjType) : Nat :=
  match m with
  | ObjType.SUBCATCH => R.Subcatch.length
  | ObjType.NODE => R.Node_rptFlag.length
  | ObjType.LINK => R.Link.length
  | _ => 0

/-- The field of `RptFlags` for the object type `m`. -/
def typeFlagOf (R : Rpt) (m : ObjType) : Int :=
  match m with
  | ObjType.SUBCATCH => R.RptFlags_subcatchments
  | ObjType.NODE => R.RptFlags_nodes
  | ObjType.LINK => R.RptFlags_links
  | _ => 0

/-- A `findmatch` that returns the position of the keyword equal to the string,
ignoring case. -/
def wholeWordMatch (t : String) (keywords : List String) : Int :=
  findPos (fun k => sampleStrcomp k t) keywords

/-- Source: `report_readOptions`, the first `switch(k)` of the object
keywords: the object type for the keyword index 2, 3 or 4. -/
def typeOfKeyword (k : Int) : ObjType :=
  if k = 2 then ObjType.SUBCATCH else if k = 3 then ObjType.NODE else ObjType.LINK

/-- The flags after the objects of type `m` that the tokens `l` name have got
their reporting flag set, one token after the other. -/
def flagged (E : Env) (m : ObjType) (l : List String) (R : Rpt) : Rpt :=
  l.foldl (fun r t => setRptFlag r m (E.project_findObject m t)) R

/-- The tokens `tok[1] .. tok[ntoks-1]`. -/
def objectTokens (tok : List String) (ntoks : Int) : List String :=
  (tok.take ntoks.toNat).drop 1

/-- What `openFileForInput` leaves when `projectTSS` reads back the file it
wrote, with a newline added after the last record: one record line is left to
read, and the end-of-file indicator is set only by a read that finds nothing. -/
def readBackNewline : State :=
  openFileForInput (sampleEnv projectTSS) projectTSS noJunk
    (some { rest := writtenFile (sampleEnv projectTSS) projectTSS [37622 + 1 / 96], newlineAtEnd := true, eof := false })
    (resetShared (initState "out.txt" ""))

/-- A line buffer that holds a full record on entry to `readNewIfaceValues`. -/
def staleRecord : Line :=
  ["OUT1", "2003", "01", "01", "00", "30", "00", "1.500000", "7.000000"]

end SWMM

/-! ## Theorems -/

namespace SWMM

theorem MAX_eq_max (x y : ℚ) : MAX x y = max x y := by
  unfold MAX
  split_ifs with h
  · exact (max_eq_left h).symm
  · exact (max_eq_right (le_of_lt (not_le.mp h))).symm

theorem MIN_eq_min (x y : ℚ) : MIN x y = min x y := by
  unfold MIN
  split_ifs with h
  · exact (min_eq_left h).symm
  · exact (min_eq_right (le_of_lt (not_le.mp h))).symm

/-- The loop of `iface_getNumIfaceNodes` does nothing when the current date is
not after `NewIfaceDate`. -/
theorem bracketLoop_idle (E : Env) (P : Project) (junk : Nat → Line) (t : DateTime)
    (fuel n : Nat) (s : State) (h : ¬ (s.NewIfaceDate < t ∧ s.NewIfaceDate ≠ E.NO_DATE)) :
    bracketLoop E P junk t fuel n s = some s := by
  unfold bracketLoop
  simp only [h, if_false]

theorem sameButRead_trans {a b c : State} (hab : SameButRead a b) (hbc : SameButRead b c) :
    SameButRead a c := by
  unfold SameButRead at hab hbc ⊢
  refine ⟨?_, ?_, ?_, ?_, ?_, ?_, ?_, ?_, ?_⟩ <;> simp only [hbc, hab]

theorem readRecord_frame (E : Env) (P : Project) (i : Int) (toks : Line) (s : State) :
    SameButRead s (readRecord E P i toks s).2
      ∧ (readRecord E P i toks s).2.NewIfaceDate = s.NewIfaceDate
      ∧ (readRecord E P i toks s).2.Finflows_file = s.Finflows_file := by
  unfold readRecord
  split
  · dsimp only
    split
    · simp [SameButRead]
    · split_ifs
      · split <;> simp [SameButRead]
      · simp [SameButRead]
  · simp [SameButRead]

theorem readNewLoop_frame (E : Env) (P : Project) (k : Nat) :
    ∀ (i : Int) (line : Line) (d : DateParts) (s : State),
      SameButRead s (readNewLoop E P k i line d s) := by
  induction k with
  | zero => intro i line d s; simp [readNewLoop, SameButRead]
  | succ k ih =>
    intro i line d s
    unfold readNewLoop
    split_ifs with h1
    · simp [SameButRead]
    · have hf := (readRecord_frame E P i (fgets line s.inflows).1
        { s with Finflows_file := some (fgets line s.inflows).2 }).1
      split
      · rename_i s1 heq
        rw [heq] at hf
        exact sameButRead_trans (by simp [SameButRead]) hf
      · rename_i d1 s1 heq
        rw [heq] at hf
        exact sameButRead_trans (sameButRead_trans (by simp [SameButRead]) hf) (ih _ _ _ _)

theorem readNewIfaceValues_frame (E : Env) (P : Project) (line0 : Line) (s : State) :
    SameButRead s (readNewIfaceValues E P line0 s) := by
  unfold readNewIfaceValues
  exact sameButRead_trans (by simp [SameButRead]) (readNewLoop_frame E P _ _ _ _ _)

theorem fgets_pending (line : Line) (f : TextFile) (h : f.eof = false) :
    pending (fgets line f).2 < pending f := by
  unfold fgets pending
  cases hr : f.rest with
  | nil => simp [h]
  | cons l ls =>
    simp only [h, Bool.false_or, List.length_cons]
    by_cases hb : (ls.isEmpty && !f.newlineAtEnd) = true
    · simp [hb]; omega
    · simp [hb]

theorem readNewLoop_pending (E : Env) (P : Project) (k : Nat) :
    ∀ (i : Int) (line : Line) (d : DateParts) (s : State),
      pending (readNewLoop E P k i line d s).inflows ≤ pending s.inflows
      ∧ (0 < k → (readNewLoop E P k i line d s).NewIfaceDate = s.NewIfaceDate
          ∨ pending (readNewLoop E P k i line d s).inflows < pending s.inflows) := by
  induction k with
  | zero => intro i line d s; simp [readNewLoop, State.inflows]
  | succ k ih =>
    intro i line d s
    unfold readNewLoop
    split_ifs with h1
    · simp
    · have hlt := fgets_pending line s.inflows (by simpa using h1)
      have hf := readRecord_frame E P i (fgets line s.inflows).1
        { s with Finflows_file := some (fgets line s.inflows).2 }
      have hkey : ∀ r : State, r.Finflows_file = some (fgets line s.inflows).2 →
          pending r.inflows < pending s.inflows := by
        intro r hr
        simpa [State.inflows, hr] using hlt
      split
      · rename_i s1 heq
        rw [heq] at hf
        have := hkey s1 hf.2.2
        exact ⟨this.le, fun _ => Or.inr this⟩
      · rename_i d1 s1 heq
        rw [heq] at hf
        have h2 := hkey s1 hf.2.2
        have h3 := (ih (i + 1) ((fgets line s.inflows).1.take 1) d1 s1).1
        exact ⟨by omega, fun _ => Or.inr (by omega)⟩

/-- Each call of `readNewIfaceValues` with at least one interface node either
leaves `NewIfaceDate = NO_DATE` or leaves less to read of the file. -/
theorem readNewIfaceValues_progress (E : Env) (P : Project) (line0 : Line) (s : State)
    (hn : 1 ≤ s.NumIfaceNodes) :
    (readNewIfaceValues E P line0 s).NewIfaceDate = E.NO_DATE
      ∨ pending (readNewIfaceValues E P line0 s).inflows < pending s.inflows := by
  unfold readNewIfaceValues
  have hk : 0 < s.NumIfaceNodes.toNat := by omega
  have := (readNewLoop_pending E P s.NumIfaceNodes.toNat 0 line0 ⟨0, 0, 0, 0, 0, 0⟩
    { s with NewIfaceDate := E.NO_DATE }).2 hk
  simpa [State.inflows] using this

theorem setOldIfaceValues_fields (P : Project) (s : State) :
    (setOldIfaceValues P s).NumIfaceNodes = s.NumIfaceNodes
      ∧ (setOldIfaceValues P s).OldIfaceDate = s.NewIfaceDate
      ∧ (setOldIfaceValues P s).inflows = s.inflows := by
  simp [setOldIfaceValues, State.inflows]

/-- What the loop of `iface_getNumIfaceNodes` establishes when it ends. -/
theorem bracketLoop_spec (E : Env) (P : Project) (junk : Nat → Line) (t : DateTime)
    (fuel : Nat) :
    ∀ (n : Nat) (s s1 : State), bracketLoop E P junk t fuel n s = some s1 →
      ¬ (s1.NewIfaceDate < t ∧ s1.NewIfaceDate ≠ E.NO_DATE)
        ∧ s1.NumIfaceNodes = s.NumIfaceNodes
        ∧ (s1 = s ∨ s1.OldIfaceDate < t) := by
  induction fuel with
  | zero =>
    intro n s s1 h
    by_cases hc : s.NewIfaceDate < t ∧ s.NewIfaceDate ≠ E.NO_DATE
    · simp [bracketLoop, hc] at h
    · rw [bracketLoop_idle E P junk t 0 n s hc] at h
      simp only [Option.some.injEq] at h
      subst h
      exact ⟨hc, rfl, Or.inl rfl⟩
  | succ fuel ih =>
    intro n s s1 h
    by_cases hc : s.NewIfaceDate < t ∧ s.NewIfaceDate ≠ E.NO_DATE
    · unfold bracketLoop at h
      rw [if_pos hc] at h
      obtain ⟨h1, h2, h3⟩ := ih _ _ _ h
      have hfr := readNewIfaceValues_frame E P (junk n) (setOldIfaceValues P s)
      obtain ⟨_, _, _, hOld, hNum, _⟩ := hfr
      have hset := setOldIfaceValues_fields P s
      refine ⟨h1, by rw [h2, hNum, hset.1], Or.inr ?_⟩
      rcases h3 with h3 | h3
      · rw [h3, hOld, hset.2.1]; exact hc.1
      · exact h3
    · rw [bracketLoop_idle E P junk t (fuel + 1) n s hc] at h
      simp only [Option.some.injEq] at h
      subst h
      exact ⟨hc, rfl, Or.inl rfl⟩

/-- The loop of `iface_getNumIfaceNodes` ends when there is at least one
interface node: the fuel it needs is bounded by what is left of the file. -/
theorem bracketLoop_terminates (E : Env) (P : Project) (junk : Nat → Line) (t : DateTime)
    (fuel : Nat) :
    ∀ (n : Nat) (s : State), 1 ≤ s.NumIfaceNodes → pending s.inflows + 1 ≤ fuel →
      ∃ s1, bracketLoop E P junk t fuel n s = some s1 := by
  induction fuel with
  | zero => intro n s _ h; omega
  | succ fuel ih =>
    intro n s hn hfuel
    by_cases hc : s.NewIfaceDate < t ∧ s.NewIfaceDate ≠ E.NO_DATE
    · unfold bracketLoop
      rw [if_pos hc]
      have hset := setOldIfaceValues_fields P s
      have hn1 : 1 ≤ (setOldIfaceValues P s).NumIfaceNodes := by rw [hset.1]; exact hn
      have hfr := readNewIfaceValues_frame E P (junk n) (setOldIfaceValues P s)
      obtain ⟨_, _, _, _, hNum, _⟩ := hfr
      rcases readNewIfaceValues_progress E P (junk n) (setOldIfaceValues P s) hn1 with h | h
      · exact ⟨_, bracketLoop_idle E P junk t fuel (n + 1) _ (fun hh => hh.2 h)⟩
      · rw [hset.2.2] at h
        exact ih (n + 1) _ (by rw [hNum]; exact hn1) (by omega)
    · exact ⟨s, bracketLoop_idle E P junk t (fuel + 1) n s hc⟩

/-- C3: whenever `iface_getNumIfaceNodes` returns a non-zero count and, in the
state it leaves, `OldIfaceDate < NewIfaceDate`, the stored weight `IfaceFrac`
is min(1, max(0, (currentDate - OldIfaceDate)/(NewIfaceDate - OldIfaceDate)))
and lies in [0, 1]. -/
theorem C3_frac_clamped (E : Env) (P : Project) (junk : Nat → Line) (fuel : Nat)
    (t : DateTime) (s s1 : State) (n : Int)
    (hret : iface_getNumIfaceNodes E P junk fuel t s = some (n, s1)) (hn : n ≠ 0)
    (_hlt : s1.OldIfaceDate < s1.NewIfaceDate) :
    s1.IfaceFrac
        = min 1 (max 0 ((t - s1.OldIfaceDate) / (s1.NewIfaceDate - s1.OldIfaceDate)))
      ∧ 0 ≤ s1.IfaceFrac ∧ s1.IfaceFrac ≤ 1 := by
  have key : s1.IfaceFrac
      = min 1 (max 0 ((t - s1.OldIfaceDate) / (s1.NewIfaceDate - s1.OldIfaceDate))) := by
    unfold iface_getNumIfaceNodes at hret
    split_ifs at hret with h1
    · simp only [Option.some.injEq, Prod.mk.injEq] at hret
      exact absurd hret.1.symm hn
    · cases hb : bracketLoop E P junk t fuel 0 s with
      | none => rw [hb] at hret; simp at hret
      | some s2 =>
        rw [hb] at hret
        simp only at hret
        split_ifs at hret with h2
        · simp only [Option.some.injEq, Prod.mk.injEq] at hret
          exact absurd hret.1.symm hn
        · simp only [Option.some.injEq, Prod.mk.injEq] at hret
          rw [← hret.2]
          simp only [MAX_eq_max, MIN_eq_min]
          exact min_comm _ _
  refine ⟨key, ?_, ?_⟩
  · rw [key]; exact le_min zero_le_one (le_max_left _ _)
  · rw [key]; exact min_le_left _ _

/-- C3, on the interpolation example at date 5: the weight is 1/2. -/
theorem C3_frac_clamped_witness :
    ∃ s1, iface_getNumIfaceNodes (sampleEnv (sampleProject [] 0)) (sampleProject [] 0)
        (fun _ => []) 0 5 interpState = some (1, s1)
      ∧ s1.IfaceFrac = min 1 (max 0 ((5 - s1.OldIfaceDate) / (s1.NewIfaceDate - s1.OldIfaceDate)))
      ∧ 0 ≤ s1.IfaceFrac ∧ s1.IfaceFrac ≤ 1 := by
  have hrun : iface_getNumIfaceNodes (sampleEnv (sampleProject [] 0)) (sampleProject [] 0)
      (fun _ => []) 0 5 interpState
      = some (1, { interpState with IfaceFrac := MIN (MAX 0 ((5 - 0) / (10 - 0))) 1 }) := by
    unfold iface_getNumIfaceNodes bracketLoop
    norm_num [interpState, initState, sampleEnv]
  exact ⟨_, hrun, C3_frac_clamped _ _ _ _ _ _ _ _ hrun (by decide)
    (by norm_num [interpState, initState])⟩

/-- The value of `iface_getNumIfaceNodes` once its loop has ended. -/
theorem getNum_after_loop (E : Env) (P : Project) (junk : Nat → Line) (fuel : Nat)
    (t : DateTime) (s s1 : State) (h0 : ¬ s.OldIfaceDate > t)
    (hb : bracketLoop E P junk t fuel 0 s = some s1) :
    iface_getNumIfaceNodes E P junk fuel t s
      = if s1.NewIfaceDate = E.NO_DATE then some (0, s1)
        else some (s1.NumIfaceNodes, { s1 with
          IfaceFrac := MIN (MAX 0 ((t - s1.OldIfaceDate) / (s1.NewIfaceDate - s1.OldIfaceDate))) 1 })
    := by
  unfold iface_getNumIfaceNodes
  rw [if_neg h0, hb]

/-- C5: for every current date, `iface_getNumIfaceNodes` (a) returns 0 and
leaves the state, the file position included, as it is when
`OldIfaceDate > currentDate`; (b) reads nothing and changes at most `IfaceFrac`
when `currentDate <= NewIfaceDate` on entry; (c) whenever it returns a non-zero
count, leaves `OldIfaceDate <= currentDate <= NewIfaceDate` and the count is
`NumIfaceNodes`; (d) returns 0 when its loop ends with `NewIfaceDate = NO_DATE`;
and (e) it does return, with at least one interface node, once the fuel of the
model exceeds what is left of the file. -/
theorem C5_bracketing (E : Env) (P : Project) (junk : Nat → Line) (fuel : Nat)
    (t : DateTime) (s : State) :
    (s.OldIfaceDate > t → iface_getNumIfaceNodes E P junk fuel t s = some (0, s))
    ∧ (t ≤ s.NewIfaceDate →
        ∃ n f, iface_getNumIfaceNodes E P junk fuel t s = some (n, { s with IfaceFrac := f }))
    ∧ (∀ n s1, iface_getNumIfaceNodes E P junk fuel t s = some (n, s1) → n ≠ 0 →
        s1.OldIfaceDate ≤ t ∧ t ≤ s1.NewIfaceDate ∧ n = s1.NumIfaceNodes
          ∧ s1.NumIfaceNodes = s.NumIfaceNodes)
    ∧ (∀ s1, ¬ s.OldIfaceDate > t → bracketLoop E P junk t fuel 0 s = some s1 →
        s1.NewIfaceDate = E.NO_DATE → iface_getNumIfaceNodes E P junk fuel t s = some (0, s1))
    ∧ (1 ≤ s.NumIfaceNodes → pending s.inflows + 1 ≤ fuel →
        ∃ r, iface_getNumIfaceNodes E P junk fuel t s = some r) := by
  refine ⟨?_, ?_, ?_, ?_, ?_⟩
  · intro h
    unfold iface_getNumIfaceNodes
    rw [if_pos h]
  · intro h
    by_cases h0 : s.OldIfaceDate > t
    · exact ⟨0, s.IfaceFrac, by unfold iface_getNumIfaceNodes; rw [if_pos h0]⟩
    · have hb := bracketLoop_idle E P junk t fuel 0 s (fun hh => absurd hh.1 (not_lt.mpr h))
      rw [getNum_after_loop E P junk fuel t s s h0 hb]
      by_cases h1 : s.NewIfaceDate = E.NO_DATE
      · exact ⟨0, s.IfaceFrac, by rw [if_pos h1]⟩
      · exact ⟨s.NumIfaceNodes, _, by rw [if_neg h1]⟩
  · intro n s1 hret hn
    by_cases h0 : s.OldIfaceDate > t
    · unfold iface_getNumIfaceNodes at hret
      rw [if_pos h0] at hret
      simp only [Option.some.injEq, Prod.mk.injEq] at hret
      exact absurd hret.1.symm hn
    · cases hb : bracketLoop E P junk t fuel 0 s with
      | none =>
        unfold iface_getNumIfaceNodes at hret
        rw [if_neg h0, hb] at hret
        simp at hret
      | some s2 =>
        rw [getNum_after_loop E P junk fuel t s s2 h0 hb] at hret
        obtain ⟨hc, hnum, hold⟩ := bracketLoop_spec E P junk t fuel 0 s s2 hb
        by_cases h1 : s2.NewIfaceDate = E.NO_DATE
        · rw [if_pos h1] at hret
          simp only [Option.some.injEq, Prod.mk.injEq] at hret
          exact absurd hret.1.symm hn
        · rw [if_neg h1] at hret
          simp only [Option.some.injEq, Prod.mk.injEq] at hret
          obtain ⟨hr1, hr2⟩ := hret
          subst hr2
          have hnew : t ≤ s2.NewIfaceDate := by
            by_contra hlt
            exact hc ⟨not_le.mp hlt, h1⟩
          refine ⟨?_, hnew, hr1.symm, hnum⟩
          rcases hold with hold | hold
          · show s2.OldIfaceDate ≤ t
            rw [hold]; exact not_lt.mp h0
          · exact hold.le
  · intro s1 h0 hb h1
    rw [getNum_after_loop E P junk fuel t s s1 h0 hb, if_pos h1]
  · intro hn hfuel
    by_cases h0 : s.OldIfaceDate > t
    · exact ⟨_, by unfold iface_getNumIfaceNodes; rw [if_pos h0]⟩
    · obtain ⟨s1, hs1⟩ := bracketLoop_terminates E P junk t fuel 0 s hn hfuel
      rw [getNum_after_loop E P junk fuel t s s1 h0 hs1]
      by_cases h1 : s1.NewIfaceDate = E.NO_DATE
      · exact ⟨_, by rw [if_pos h1]⟩
      · exact ⟨_, by rw [if_neg h1]⟩

/-- C5, on the file written for `projectTSS` with records a quarter of an hour
apart: a query half way into the second step reads the next record and returns
one node with the date bracketed; a query before the first record returns 0
and leaves the state as it is. -/
theorem C5_bracketing_witness :
    (∃ s1, iface_getNumIfaceNodes (sampleEnv projectTSS) projectTSS (fun _ => []) 5
        (37622 + 3 / 192) openedTSS = some (1, s1)
      ∧ s1.OldIfaceDate ≤ 37622 + 3 / 192 ∧ 37622 + 3 / 192 ≤ s1.NewIfaceDate)
    ∧ iface_getNumIfaceNodes (sampleEnv projectTSS) projectTSS (fun _ => []) 5 37621 openedTSS
        = some (0, openedTSS) := by
  have h := C5_bracketing (sampleEnv projectTSS) projectTSS (fun _ => []) 5 (37622 + 3 / 192)
    openedTSS
  have h2 := C5_bracketing (sampleEnv projectTSS) projectTSS (fun _ => []) 5 37621 openedTSS
  refine ⟨?_, h2.1 (by decide!)⟩
  obtain ⟨r, hr⟩ := h.2.2.2.2 (by decide!) (by decide!)
  have hfst : r.1 = 1 := by
    have : (iface_getNumIfaceNodes (sampleEnv projectTSS) projectTSS (fun _ => []) 5
        (37622 + 3 / 192) openedTSS).map Prod.fst = some 1 := by decide!
    rw [hr] at this
    simpa using this
  obtain ⟨n, s1⟩ := r
  simp only at hfst
  subst hfst
  have h3 := h.2.2.1 1 s1 hr (by decide)
  exact ⟨s1, hr, h3.1, h3.2.1⟩

theorem fgets_cons_fst (buf : Line) (f : TextFile) (l : Line) (ls : List Line)
    (h : f.rest = l :: ls) : (fgets buf f).1 = l := by
  unfold fgets; rw [h]

theorem fgets_cons_rest (buf : Line) (f : TextFile) (l : Line) (ls : List Line)
    (h : f.rest = l :: ls) : (fgets buf f).2.rest = ls := by
  unfold fgets; rw [h]

theorem fgets_cons_eof (buf : Line) (f : TextFile) (l l1 : Line) (ls : List Line)
    (h : f.rest = l :: l1 :: ls) : (fgets buf f).2.eof = f.eof := by
  unfold fgets; rw [h]; simp

theorem readQualValues_short (i : Int) (k : Nat) :
    ∀ (j : Int) (toks : Line) (M : Option Matrix), toks.length < k →
      (readQualValues i k j toks M).1 = none := by
  induction k with
  | zero => intro j toks M h; omega
  | succ k ih =>
    intro j toks M h
    cases toks with
    | nil => rfl
    | cons t toks =>
      simp only [readQualValues]
      exact ih _ _ _ (by simpa using h)

theorem readQualValues_rest (i : Int) (k : Nat) :
    ∀ (j : Int) (toks rest : Line) (M : Option Matrix),
      (readQualValues i k j toks M).1 = some rest → rest = toks.drop k := by
  induction k with
  | zero => intro j toks rest M h; simpa [readQualValues] using h.symm
  | succ k ih =>
    intro j toks rest M h
    cases toks with
    | nil => simp [readQualValues] at h
    | cons t toks =>
      simp only [readQualValues] at h
      simpa using ih _ _ _ _ h

/-- A record line with fewer tokens than needed makes `readNewIfaceValues`
return from inside its loop. -/
theorem readRecord_short (E : Env) (P : Project) (i : Int) (toks : Line) (s : State)
    (h : toks.length < fieldsNeeded P s) : (readRecord E P i toks s).1 = none := by
  unfold readRecord
  split
  · rename_i a yr mon day hr mi sec q rest
    simp only [fieldsNeeded, List.length_cons] at h
    dsimp only
    cases hq : readQualValues i s.NumIfacePolluts.toNat 1 rest
        (setCell s.NewIfaceValues i 0 (atof q / E.Qcf s.IfaceFlowUnits)) with
    | mk o M =>
      cases o with
      | none => rfl
      | some rest1 =>
        have hr := readQualValues_rest i _ _ _ _ _ (by rw [hq])
        have hlen : s.NumIfacePolluts.toNat ≤ rest.length := by
          by_contra hc
          have := readQualValues_short i s.NumIfacePolluts.toNat 1 rest
            (setCell s.NewIfaceValues i 0 (atof q / E.Qcf s.IfaceFlowUnits)) (by omega)
          rw [hq] at this
          simp at this
        by_cases ht : P.TempModel_active = 1
        · simp only [ht, if_true] at h ⊢
          have : rest1 = [] := by
            rw [hr]
            apply List.drop_eq_nil_of_le
            omega
          rw [this]
        · simp only [ht, if_false] at h
          omega
  · rfl

theorem readNewLoop_short (E : Env) (P : Project) (k : Nat) :
    ∀ (i : Int) (line : Line) (d : DateParts) (s : State) (bad : Line),
      bad ∈ s.inflows.rest.take k → bad.length < fieldsNeeded P s →
      (readNewLoop E P k i line d s).NewIfaceDate = s.NewIfaceDate := by
  induction k with
  | zero => intro i line d s bad hmem; simp at hmem
  | succ k ih =>
    intro i line d s bad hmem hshort
    unfold readNewLoop
    split_ifs with h1
    · rfl
    · cases hrest : s.inflows.rest with
      | nil => rw [hrest] at hmem; simp at hmem
      | cons l ls =>
        have hg1 : (fgets line s.inflows).1 = l := fgets_cons_fst line s.inflows l ls hrest
        have hg2 : (fgets line s.inflows).2.rest = ls := fgets_cons_rest line s.inflows l ls hrest
        have hf := readRecord_frame E P i (fgets line s.inflows).1
          { s with Finflows_file := some (fgets line s.inflows).2 }
        split
        · rename_i s1 heq
          rw [heq] at hf
          exact hf.2.1
        · rename_i d1 s1 heq
          rw [heq] at hf
          obtain ⟨hsame, hdate, hfile⟩ := hf
          dsimp only at hdate hfile
          have hnp : s1.NumIfacePolluts = s.NumIfacePolluts := hsame.2.2.2.2.2.1
          have hl : ¬ l.length < fieldsNeeded P s := by
            intro hl
            have := readRecord_short E P i l { s with Finflows_file := some (fgets line s.inflows).2 }
              (by simpa [fieldsNeeded] using hl)
            rw [hg1] at heq
            rw [heq] at this
            simp at this
          have hbad : bad ∈ ls.take k := by
            rw [hrest] at hmem
            simp only [List.take_succ_cons, List.mem_cons] at hmem
            rcases hmem with hm | hm
            · exact absurd (hm ▸ hshort) hl
            · exact hm
          have hrest1 : s1.inflows.rest = ls := by
            have : s1.inflows = (fgets line s.inflows).2 := by
              unfold State.inflows; rw [hfile]; rfl
            rw [this]; exact hg2
          have hneed : fieldsNeeded P s1 = fieldsNeeded P s := by
            unfold fieldsNeeded
            rw [hnp]
          have := ih (i + 1) ((fgets line s.inflows).1.take 1) d1 s1 bad (by rw [hrest1]; exact hbad)
            (by rw [hneed]; exact hshort)
          rw [this, hdate]

/-- C10 (amended): `readNewIfaceValues` never changes `ErrorCode`; when one of
the record lines it is to read lacks a required field (node ID, six date and
time fields, flow, one value per file constituent, temperature when active) it
returns with `NewIfaceDate = NO_DATE`, so that `iface_getNumIfaceNodes`
reports no data. -/
theorem C10_short_record_no_date (E : Env) (P : Project) (line0 : Line) (s : State) :
    (readNewIfaceValues E P line0 s).ErrorCode = s.ErrorCode
    ∧ (∀ bad, bad ∈ s.inflows.rest.take s.NumIfaceNodes.toNat →
        bad.length < fieldsNeeded P s →
        (readNewIfaceValues E P line0 s).NewIfaceDate = E.NO_DATE) := by
  refine ⟨(readNewIfaceValues_frame E P line0 s).1, ?_⟩
  intro bad hmem hshort
  unfold readNewIfaceValues
  exact readNewLoop_short E P _ 0 line0 _ { s with NewIfaceDate := E.NO_DATE } bad
    (by simpa [State.inflows] using hmem) (by simpa [fieldsNeeded] using hshort)

/-- C10, on a record cut short after the month: no date is read and the error
code stays 0. -/
theorem C10_short_record_no_date_witness :
    (readNewIfaceValues (sampleEnv projectTSS) projectTSS [] shortRecordState).ErrorCode
        = shortRecordState.ErrorCode
    ∧ (readNewIfaceValues (sampleEnv projectTSS) projectTSS [] shortRecordState).NewIfaceDate
        = (sampleEnv projectTSS).NO_DATE :=
  ⟨(C10_short_record_no_date (sampleEnv projectTSS) projectTSS [] shortRecordState).1,
   (C10_short_record_no_date (sampleEnv projectTSS) projectTSS [] shortRecordState).2
     ["OUT1", "2003", "01"] (by decide) (by decide)⟩

/-- C10 as stated fails: a record line that lacks its day, time and values
leaves the run-wide error code at 0. -/
theorem C10_counterexample :
    shortRecordState.ErrorCode = 0
    ∧ (readNewIfaceValues (sampleEnv projectTSS) projectTSS [] shortRecordState).ErrorCode = 0 := by
  decide

theorem sameReport_refl (s : State) : SameReport s s :=
  ⟨rfl, rfl, rfl, rfl, rfl, rfl⟩

theorem sameReport_trans {a b c : State} (hab : SameReport a b) (hbc : SameReport b c) :
    SameReport a c := by
  unfold SameReport at hab hbc ⊢
  refine ⟨?_, ?_, ?_, ?_, ?_, ?_⟩ <;> simp only [hbc, hab]

theorem sameHead_refl (s : State) : SameHead s s :=
  ⟨sameReport_refl s, rfl⟩

theorem sameHead_trans {a b c : State} (h1 : SameHead a b) (h2 : SameHead b c) :
    SameHead a c :=
  ⟨sameReport_trans h1.1 h2.1, h2.2.trans h1.2⟩

/-- A property of the state that each of two sections in sequence carries over
is carried over by the sequence. -/
theorem Step.andThen_state {α β : Type} (R : State → State → Prop)
    (htrans : ∀ a b c, R a b → R b c → R a c) (s : State) (x : Step α)
    (f : α → State → Step β) (hx : R s x.state) (hf : ∀ a s1, R s1 (f a s1).state) :
    R s (x.andThen f).state := by
  cases x with
  | error e => exact hx
  | ok r => exact htrans _ _ _ hx (hf r.1 r.2)

/-- Reporting a format error from a state that agrees with the entry state on
what `SameReport` lists, no matrix existing, is a `FormatFailure`. -/
theorem formatFailure_of_same (E : Env) (s r : State) (h : SameReport s r)
    (hOld : s.OldIfaceValues = none) (hNew : s.NewIfaceValues = none) :
    FormatFailure E s (report_writeErrorMsg E E.ERR_ROUTING_FILE_FORMAT r.Finflows_name r) := by
  obtain ⟨h1, h2, h3, h4, h5, h6⟩ := h
  unfold FormatFailure report_writeErrorMsg report_writeLine
  rw [h3, h4]
  cases hrep : s.Frpt_file with
  | none =>
    dsimp only
    split_ifs <;> simp [h5, h6, hOld, hNew, h2, hrep, h3]
  | some out =>
    dsimp only
    split_ifs <;> simp [h5, h6, hOld, hNew, h2, hrep, h3]

theorem readCount_frame (E : Env) (b : Bufs) (s : State) :
    SameHead s (readCount E b s).state := by
  unfold readCount
  dsimp only
  split_ifs <;> simp [Step.state, SameHead, SameReport]

theorem readFlowUnits_frame (E : Env) (b : Bufs) (s : State) :
    SameHead s (readFlowUnits E b s).state := by
  unfold readFlowUnits
  dsimp only
  split_ifs <;> simp [Step.state, SameHead, SameReport]

theorem allocPolluts_frame (E : Env) (P : Project) (b : Bufs) (s : State) :
    SameHead s (allocPolluts E P b s).state := by
  unfold allocPolluts
  split_ifs <;> simp [Step.state, SameHead, SameReport]

theorem pollutBody_frame (E : Env) (P : Project) (i : Int) (b : Bufs) (s : State) :
    SameHead s (pollutBody E P i b s).state := by
  unfold pollutBody
  dsimp only
  split_ifs <;> simp [Step.state, SameHead, SameReport]

theorem pollutLoop_frame (E : Env) (P : Project) (k : Nat) :
    ∀ (i : Int) (b : Bufs) (s : State), SameHead s (pollutLoop E P k i b s).state := by
  induction k with
  | zero => intro i b s; exact sameHead_refl s
  | succ k ih =>
    intro i b s
    unfold pollutLoop
    split_ifs with h1
    · exact sameHead_refl s
    · exact Step.andThen_state SameHead (fun _ _ _ => sameHead_trans) s _ _
        (pollutBody_frame E P i b s) (fun a s1 => ih (i + 1) a s1)

theorem matchPolluts_frame (E : Env) (P : Project) (b : Bufs) (s : State) :
    SameHead s (matchPolluts E P b s).state := by
  unfold matchPolluts
  split_ifs
  · exact pollutLoop_frame E P _ _ _ _
  · exact sameHead_refl s

theorem tempBlock_frame (E : Env) (P : Project) (b : Bufs) (s : State) :
    SameHead s (tempBlock E P b s).state := by
  unfold tempBlock
  dsimp only
  split_ifs <;> simp [Step.state, SameHead, SameReport]

/-- The constituent section of the header changes neither the error variables,
the report file, the file name, the matrices nor the node count. -/
theorem getIfaceFilePolluts_frame (E : Env) (P : Project) (b : Bufs) (s : State) :
    SameHead s (getIfaceFilePolluts E P b s).2 := by
  unfold getIfaceFilePolluts pollutSteps
  refine Step.andThen_state SameHead (fun _ _ _ => sameHead_trans) s _ _ ?_
    (fun a s1 => tempBlock_frame E P a s1)
  refine Step.andThen_state SameHead (fun _ _ _ => sameHead_trans) s _ _ ?_
    (fun a s1 => matchPolluts_frame E P a s1)
  refine Step.andThen_state SameHead (fun _ _ _ => sameHead_trans) s _ _ ?_
    (fun a s1 => allocPolluts_frame E P a s1)
  exact Step.andThen_state SameHead (fun _ _ _ => sameHead_trans) s _ _
    (readCount_frame E b s) (fun a s1 => readFlowUnits_frame E a s1)

theorem readNodeCount_frame (E : Env) (line0 : Line) (t0 : String) (s : State) :
    SameReport s (readNodeCount E line0 t0 s).state := by
  unfold readNodeCount
  dsimp only
  split_ifs <;> simp [Step.state, SameReport]

theorem nodeBody_frame (E : Env) (i : Int) (b : Line × String) (s : State) :
    SameReport s (nodeBody E i b s).state := by
  unfold nodeBody
  dsimp only
  split_ifs <;> simp [Step.state, SameReport]

theorem nodeLoop_frame (E : Env) (k : Nat) :
    ∀ (i : Int) (b : Line × String) (s : State), SameReport s (nodeLoop E k i b s).state := by
  induction k with
  | zero => intro i b s; exact sameReport_refl s
  | succ k ih =>
    intro i b s
    unfold nodeLoop
    split_ifs with h1
    · exact sameReport_refl s
    · exact Step.andThen_state SameReport (fun _ _ _ => sameReport_trans) s _ _
        (nodeBody_frame E i b s) (fun a s1 => ih (i + 1) a s1)

theorem skipHeadings_frame (E : Env) (b : Line × String) (s : State) :
    SameReport s (skipHeadings E b s).state := by
  unfold skipHeadings
  split_ifs <;> simp [Step.state, SameReport]

/-- The node section of the header changes neither the error variables, the
report file, the file name nor the matrices. -/
theorem getIfaceFileNodes_frame (E : Env) (line0 : Line) (t0 : String) (s : State) :
    SameReport s (getIfaceFileNodes E line0 t0 s).2 := by
  unfold getIfaceFileNodes nodeSteps
  refine Step.andThen_state SameReport (fun _ _ _ => sameReport_trans) s _ _ ?_
    (fun a s1 => skipHeadings_frame E a s1)
  exact Step.andThen_state SameReport (fun _ _ _ => sameReport_trans) s _ _
    (readNodeCount_frame E line0 t0 s) (fun a s1 => nodeLoop_frame E _ _ a s1)

theorem Step.andThen_error {α β : Type} (x : Step α) (f : α → State → Step β)
    (e : Int × State) (h : x = .error e) : x.andThen f = .error e := by
  subst h; rfl

theorem Step.andThen_ok {α β : Type} (x : Step α) (f : α → State → Step β)
    (a : α) (s : State) (h : x = .ok (a, s)) : x.andThen f = f a s := by
  subst h; rfl

/-- The three outcomes of `sscanf(line, "%d", &x)`. -/
theorem sscanf_d_cases (l : Line) (x : Int) :
    (l = [] ∧ sscanf_d l x = (EOF, x))
    ∨ (∃ t r, l = t :: r ∧ scanInt t = none ∧ sscanf_d l x = (0, x))
    ∨ (∃ t r n, l = t :: r ∧ scanInt t = some n ∧ sscanf_d l x = (1, n)) := by
  cases l with
  | nil => exact Or.inl ⟨rfl, rfl⟩
  | cons t r =>
    cases h : scanInt t with
    | none => exact Or.inr (Or.inl ⟨t, r, rfl, h, by simp [sscanf_d, h]⟩)
    | some n => exact Or.inr (Or.inr ⟨t, r, n, rfl, h, by simp [sscanf_d, h]⟩)

theorem sscanf_d_pos (l : Line) (x : Int) (h : startsPosInt l) :
    ∃ n, 0 < n ∧ sscanf_d l x = (1, n) := by
  obtain ⟨t, n, ht, hn, hpos⟩ := h
  cases l with
  | nil => simp at ht
  | cons t1 r =>
    simp only [List.head?_cons, Option.some.injEq] at ht
    subst ht
    exact ⟨n, hpos, by simp [sscanf_d, hn]⟩

/-- When the line does not start with a positive integer and the variable holds
a value `x <= 0`, `sscanf` reports no item or leaves a value `<= 0`. -/
theorem sscanf_d_notpos (l : Line) (x : Int) (hx : x ≤ 0) (h : ¬ startsPosInt l) :
    (sscanf_d l x).1 = 0 ∨ ((sscanf_d l x).2 ≤ 0) := by
  rcases sscanf_d_cases l x with ⟨_, h1⟩ | ⟨t, r, _, _, h1⟩ | ⟨t, r, n, hl, hn, h1⟩
  · rw [h1]; exact Or.inr hx
  · rw [h1]; exact Or.inl rfl
  · rw [h1]
    right
    by_contra hc
    exact h ⟨t, n, by rw [hl]; rfl, hn, not_le.mp hc⟩

/-- Line 4 without a count of at least 1 makes `getIfaceFilePolluts` return the
format error. -/
theorem readCount_bad (E : Env) (b : Bufs) (s : State) (l4 : Line) (tl : List Line)
    (hrest : s.inflows.rest = l4 :: tl) (hbad : ¬ startsPosInt l4) :
    ∃ r, readCount E b s = .error (E.ERR_ROUTING_FILE_FORMAT, r) := by
  unfold readCount
  dsimp only
  rw [fgets_cons_fst b.line s.inflows l4 tl hrest]
  have hneg : (if (sscanf_d l4 (-1)).1 ≠ 0 then (sscanf_d l4 (-1)).2 - 1 else (sscanf_d l4 (-1)).2) < 0 := by
    rcases sscanf_d_cases l4 (-1) with ⟨_, h1⟩ | ⟨t, r, _, _, h1⟩ | ⟨t, r, n, hl, hn, h1⟩
    · rw [h1]; decide
    · rw [h1]; decide
    · rw [h1]
      have : n ≤ 0 := by
        by_contra hc
        exact hbad ⟨t, n, by rw [hl]; rfl, hn, not_le.mp hc⟩
      simp only [ne_eq, one_ne_zero, not_false_eq_true, if_true]
      omega
  rw [if_pos hneg]
  exact ⟨_, rfl⟩

/-- Line 4 with a count `n >= 1`: the function goes on with `NumIfacePolluts`
equal to `n - 1`. -/
theorem readCount_good (E : Env) (b : Bufs) (s : State) (l4 : Line) (tl : List Line)
    (hrest : s.inflows.rest = l4 :: tl) (hgood : startsPosInt l4) :
    ∃ b1 s1, readCount E b s = .ok (b1, s1) ∧ s1.inflows.rest = tl ∧ 0 ≤ s1.NumIfacePolluts
      ∧ sscanf_d l4 (-1) = (1, s1.NumIfacePolluts + 1) := by
  obtain ⟨n, hpos, hn⟩ := sscanf_d_pos l4 (-1) hgood
  unfold readCount
  dsimp only
  rw [fgets_cons_fst b.line s.inflows l4 tl hrest, hn]
  simp only [ne_eq, one_ne_zero, not_false_eq_true, if_true]
  rw [if_neg (by omega)]
  refine ⟨_, _, rfl, ?_, ?_, ?_⟩
  · exact fgets_cons_rest b.line s.inflows l4 tl hrest
  · show 0 ≤ n - 1
    omega
  · show (1, n) = ((1 : Int), n - 1 + 1)
    simp

/-- Line 5 that is not `FLOW` and a known unit word makes
`getIfaceFilePolluts` return the format error. -/
theorem readFlowUnits_bad (E : Env) (b : Bufs) (s : State) (l5 : Line) (tl : List Line)
    (hrest : s.inflows.rest = l5 :: tl) (hbad : ¬ flowLineOK E l5) :
    ∃ r, readFlowUnits E b s = .error (E.ERR_ROUTING_FILE_FORMAT, r) := by
  unfold readFlowUnits
  dsimp only
  rw [fgets_cons_fst b.line s.inflows l5 tl hrest]
  by_cases h1 : (sscanf_ss l5 b.s1 b.s2).1 < 2
  · rw [if_pos h1]; exact ⟨_, rfl⟩
  · rw [if_neg h1]
    obtain ⟨a, c, rest, hl⟩ : ∃ a c rest, l5 = a :: c :: rest := by
      match l5, h1 with
      | [], h => exact absurd (by simp [sscanf_ss, EOF]) h
      | [_], h => exact absurd (by simp [sscanf_ss]) h
      | a :: c :: rest, _ => exact ⟨a, c, rest, rfl⟩
    subst hl
    simp only [sscanf_ss]
    by_cases h2 : E.strcomp a "FLOW" = true
    · simp only [h2, Bool.not_true, Bool.false_eq_true, if_false]
      by_cases h3 : E.findmatch c E.FlowUnitWords < 0
      · rw [if_pos h3]; exact ⟨_, rfl⟩
      · exact absurd ⟨a, c, rest, rfl, h2, not_lt.mp h3⟩ hbad
    · simp only [h2, Bool.not_false, if_true]
      exact ⟨_, rfl⟩

theorem readFlowUnits_good (E : Env) (b : Bufs) (s : State) (l5 : Line) (tl : List Line)
    (hrest : s.inflows.rest = l5 :: tl) (hgood : flowLineOK E l5) :
    ∃ b1 s1, readFlowUnits E b s = .ok (b1, s1) ∧ s1.inflows.rest = tl
      ∧ s1.NumIfacePolluts = s.NumIfacePolluts := by
  obtain ⟨a, c, rest, hl, h2, h3⟩ := hgood
  subst hl
  unfold readFlowUnits
  dsimp only
  rw [fgets_cons_fst b.line s.inflows _ tl hrest]
  simp only [sscanf_ss]
  rw [if_neg (by decide)]
  simp only [h2, Bool.not_true, Bool.false_eq_true, if_false]
  rw [if_neg (not_lt.mpr h3)]
  exact ⟨_, _, rfl, fgets_cons_rest b.line s.inflows _ tl hrest, rfl⟩

theorem allocPolluts_good (E : Env) (P : Project) (b : Bufs) (s : State)
    (hok : E.calloc_ok P.nPollut = true) :
    ∃ s1, allocPolluts E P b s = .ok (b, s1) ∧ s1.inflows = s.inflows
      ∧ s1.NumIfacePolluts = s.NumIfacePolluts
      ∧ (0 < P.nPollut → s1.IfacePolluts = some (List.replicate P.nPollut.toNat (-1))) := by
  unfold allocPolluts
  by_cases h : P.nPollut > 0
  · rw [if_pos h]
    simp only [hok, Bool.not_true, Bool.false_eq_true, if_false]
    exact ⟨_, rfl, rfl, rfl, fun _ => rfl⟩
  · rw [if_neg h]
    exact ⟨_, rfl, rfl, rfl, fun h1 => absurd h1 h⟩

/-- A pollutant line with fewer than two tokens ends the loop with the format
error. -/
theorem pollutBody_short (E : Env) (P : Project) (i : Int) (b : Bufs) (s : State)
    (bad : Line) (post : List Line) (hrest : s.inflows.rest = bad :: post)
    (hbad : bad.length < 2) :
    ∃ r, pollutBody E P i b s = .error (E.ERR_ROUTING_FILE_FORMAT, r) := by
  unfold pollutBody
  dsimp only
  rw [fgets_cons_fst b.line s.inflows bad post hrest]
  have h1 : (sscanf_ss bad b.s1 b.s2).1 < 2 := by
    match bad, hbad with
    | [], _ => simp [sscanf_ss, EOF]
    | [_], _ => simp [sscanf_ss]
    | _ :: _ :: _, h => simp at h; omega
  rw [if_pos h1]
  exact ⟨_, rfl⟩

/-- An accepted pollutant line lets the loop go on with the next line. -/
theorem pollutBody_accepted (E : Env) (P : Project) (i : Int) (b : Bufs) (s : State)
    (g : Line) (ls : List Line) (hrest : s.inflows.rest = g :: ls)
    (hg : pollutLineOK E P g) :
    ∃ b1 s1, pollutBody E P i b s = .ok (b1, s1) ∧ s1.inflows.rest = ls := by
  obtain ⟨name, unit, rest, hl, hm⟩ := hg
  subst hl
  unfold pollutBody
  dsimp only
  rw [fgets_cons_fst b.line s.inflows _ ls hrest]
  simp only [sscanf_ss]
  rw [if_neg (by decide)]
  by_cases hj : E.project_findObject ObjType.POLLUT name < 0
  · rw [if_pos hj]
    exact ⟨_, _, rfl, fgets_cons_rest b.line s.inflows _ ls hrest⟩
  · rw [if_neg hj]
    have hu := hm.resolve_left hj
    simp only [hu, Bool.not_true, Bool.false_eq_true, if_false]
    exact ⟨_, _, rfl, fgets_cons_rest b.line s.inflows _ ls hrest⟩

theorem pollutLoop_short (E : Env) (P : Project) (good : List Line) :
    ∀ (k : Nat) (i : Int) (b : Bufs) (s : State) (bad : Line) (post : List Line),
      s.inflows.rest = good ++ bad :: post → good.length < k →
      (∀ g ∈ good, pollutLineOK E P g) → bad.length < 2 →
      ∃ r, pollutLoop E P k i b s = .error (E.ERR_ROUTING_FILE_FORMAT, r) := by
  induction good with
  | nil =>
    intro k i b s bad post hrest hk _ hbad
    obtain ⟨k1, rfl⟩ : ∃ k1, k = k1 + 1 := ⟨k - 1, by simp at hk; omega⟩
    unfold pollutLoop
    split_ifs with h1
    · exact ⟨_, rfl⟩
    · obtain ⟨r, hr⟩ := pollutBody_short E P i b s bad post (by simpa using hrest) hbad
      exact ⟨r, Step.andThen_error _ _ _ hr⟩
  | cons g gs ih =>
    intro k i b s bad post hrest hk hgood hbad
    obtain ⟨k1, rfl⟩ : ∃ k1, k = k1 + 1 := ⟨k - 1, by simp at hk; omega⟩
    unfold pollutLoop
    split_ifs with h1
    · exact ⟨_, rfl⟩
    · obtain ⟨b1, s1, hb, hr1⟩ := pollutBody_accepted E P i b s g (gs ++ bad :: post)
        (by simpa using hrest) (hgood g (List.mem_cons_self g gs))
      rw [Step.andThen_ok _ _ b1 s1 hb]
      exact ih k1 (i + 1) b1 s1 bad post hr1 (by simpa using hk)
        (fun x hx => hgood x (List.mem_cons_of_mem g hx)) hbad

theorem getIfaceFilePolluts_of_error (E : Env) (P : Project) (b : Bufs) (s : State)
    (c : Int) (r : State) (h : pollutSteps E P b s = .error (c, r)) :
    getIfaceFilePolluts E P b s = (c, r) := by
  unfold getIfaceFilePolluts
  rw [h]; rfl

theorem getIfaceFileNodes_of_error (E : Env) (line0 : Line) (t0 : String) (s : State)
    (c : Int) (r : State) (h : nodeSteps E line0 t0 s = .error (c, r)) :
    getIfaceFileNodes E line0 t0 s = (c, r) := by
  unfold getIfaceFileNodes
  rw [h]; rfl

/-- `openFileForInput` reports a positive code returned by
`getIfaceFilePolluts` and returns. -/
theorem openBody_polluts_error (E : Env) (P : Project) (J : Junk) (s3 r : State) (c : Int)
    (h : getIfaceFilePolluts E P J.polluts s3 = (c, r)) (hc : 0 < c) :
    openBody E P J s3 = report_writeErrorMsg E c r.Finflows_name r := by
  unfold openBody
  dsimp only
  rw [h]
  exact if_pos hc

/-- `openFileForInput` reports a positive code returned by `getIfaceFileNodes`
and returns. -/
theorem openBody_nodes_error (E : Env) (P : Project) (J : Junk) (s3 s4 r : State) (c : Int)
    (h : getIfaceFilePolluts E P J.polluts s3 = (0, s4))
    (hn : getIfaceFileNodes E J.nodesLine J.nodesS s4 = (c, r)) (hc : 0 < c) :
    openBody E P J s3 = report_writeErrorMsg E c r.Finflows_name r := by
  unfold openBody
  dsimp only
  rw [h]
  rw [if_neg (show ¬ ((0 : Int), s4).1 > 0 from lt_irrefl 0)]
  dsimp only
  rw [hn]
  exact if_pos hc

/-- A node count line that does not start with a positive integer makes
`getIfaceFileNodes` return the format error (the node count being 0 on
entry). -/
theorem readNodeCount_bad (E : Env) (line0 : Line) (t0 : String) (s : State)
    (ln : Line) (tl : List Line) (hN : s.NumIfaceNodes = 0)
    (hrest : s.inflows.rest = ln :: tl) (hbad : ¬ startsPosInt ln) :
    ∃ r, readNodeCount E line0 t0 s = .error (E.ERR_ROUTING_FILE_FORMAT, r) := by
  unfold readNodeCount
  dsimp only
  rw [fgets_cons_fst line0 s.inflows ln tl hrest, hN]
  rw [if_pos (sscanf_d_notpos ln 0 (le_refl 0) hbad)]
  exact ⟨_, rfl⟩

/-- The first line being accepted, the file type check goes on with the next
lines. -/
theorem checkFileType_good (E : Env) (J : Junk) (s0 : State) (l1 : Line) (tl : List Line)
    (hrest : s0.inflows.rest = l1 :: tl) (hmagic : magicOK E l1) :
    ∃ s1, checkFileType E J s0 = .ok (l1, s1) ∧ SameHead s0 s1 ∧ s1.inflows.rest = tl := by
  obtain ⟨t, rest, hl, hm⟩ := hmagic
  subst hl
  unfold checkFileType
  dsimp only
  rw [fgets_cons_fst J.line s0.inflows _ tl hrest]
  simp only [sscanf_s, one_ne_zero, hm, Bool.not_true, Bool.false_eq_true, or_self, if_false]
  exact ⟨_, rfl, ⟨⟨rfl, rfl, rfl, rfl, rfl, rfl⟩, rfl⟩, fgets_cons_rest J.line s0.inflows _ tl hrest⟩

theorem readStep_bad (E : Env) (line : Line) (s1 : State) (l2 l3 : Line) (tl : List Line)
    (hrest : s1.inflows.rest = l2 :: l3 :: tl) (hbad : ¬ startsPosInt l3) :
    ∃ r, readStep E line s1 = .error (report_writeErrorMsg E E.ERR_ROUTING_FILE_FORMAT r.Finflows_name r)
      ∧ SameHead s1 r := by
  unfold readStep
  dsimp only
  have h2 : (fgets (fgets line s1.inflows).1
      ({ s1 with Finflows_file := some (fgets line s1.inflows).2, IfaceStep := 0 } : State).inflows).1 = l3 :=
    fgets_cons_fst _ _ l3 tl (fgets_cons_rest line s1.inflows l2 (l3 :: tl) hrest)
  rw [h2]
  rw [if_pos (sscanf_d_notpos l3 0 (le_refl 0) hbad)]
  exact ⟨_, rfl, ⟨⟨rfl, rfl, rfl, rfl, rfl, rfl⟩, rfl⟩⟩

theorem readStep_good (E : Env) (line : Line) (s1 : State) (l2 l3 : Line) (tl : List Line)
    (hrest : s1.inflows.rest = l2 :: l3 :: tl) (hgood : startsPosInt l3) :
    ∃ s3, readStep E line s1 = .ok s3 ∧ SameHead s1 s3 ∧ s3.inflows.rest = tl := by
  obtain ⟨n, hpos, hn⟩ := sscanf_d_pos l3 0 hgood
  unfold readStep
  dsimp only
  have h2 : (fgets (fgets line s1.inflows).1
      ({ s1 with Finflows_file := some (fgets line s1.inflows).2, IfaceStep := 0 } : State).inflows).1 = l3 :=
    fgets_cons_fst _ _ l3 tl (fgets_cons_rest line s1.inflows l2 (l3 :: tl) hrest)
  have h3 : (fgets (fgets line s1.inflows).1
      ({ s1 with Finflows_file := some (fgets line s1.inflows).2, IfaceStep := 0 } : State).inflows).2.rest = tl :=
    fgets_cons_rest _ _ l3 tl (fgets_cons_rest line s1.inflows l2 (l3 :: tl) hrest)
  rw [h2, hn]
  rw [if_neg (by simp; omega)]
  exact ⟨_, rfl, ⟨⟨rfl, rfl, rfl, rfl, rfl, rfl⟩, rfl⟩, h3⟩

/-- The outcome of `openFileForInput` when its header part reports an error. -/
theorem openFileForInput_header_error (E : Env) (P : Project) (J : Junk) (f : TextFile)
    (s r : State) (h : openHeader E J { s with Finflows_file := some f } = .error r) :
    openFileForInput E P J (some f) s = r := by
  unfold openFileForInput
  dsimp only
  rw [h]

theorem openFileForInput_header_ok (E : Env) (P : Project) (J : Junk) (f : TextFile)
    (s s3 : State) (h : openHeader E J { s with Finflows_file := some f } = .ok s3) :
    openFileForInput E P J (some f) s = openBody E P J s3 := by
  unfold openFileForInput
  dsimp only
  rw [h]

/-- C9 (amended): entered with no matrices and a node count of 0 (as
`iface_openRoutingFiles` leaves them) on a file whose first line is accepted,
`openFileForInput` sets `ErrorCode` to `ERR_ROUTING_FILE_FORMAT`, reports it
with the name of the inflows file and creates no value matrix when, reading in
order, the first defect is: (A) line 3 does not start with a positive integer;
(B) line 4 does not start with a count of at least 1; (C) line 5 is not `FLOW`
followed by a known flow-unit word; (D) the project has at least one pollutant
and, the declared pollutant lines before it being accepted, a declared
pollutant line has fewer than two tokens; (E) after a constituent section that
returned 0, the node count line does not start with a positive integer. -/
theorem C9_header_errors (E : Env) (P : Project) (J : Junk) (s : State) (f : TextFile)
    (l1 l2 l3 : Line) (tl : List Line)
    (hpos : 0 < E.ERR_ROUTING_FILE_FORMAT)
    (hOld : s.OldIfaceValues = none) (hNew : s.NewIfaceValues = none)
    (hN : s.NumIfaceNodes = 0)
    (hf : f.rest = l1 :: l2 :: l3 :: tl) (hmagic : magicOK E l1) :
    (¬ startsPosInt l3 → FormatFailure E s (openFileForInput E P J (some f) s))
    ∧ (startsPosInt l3 →
        (∀ l4 tl4, tl = l4 :: tl4 → ¬ startsPosInt l4 →
          FormatFailure E s (openFileForInput E P J (some f) s))
        ∧ (∀ l4 l5 tl5, tl = l4 :: l5 :: tl5 → startsPosInt l4 → ¬ flowLineOK E l5 →
          FormatFailure E s (openFileForInput E P J (some f) s))
        ∧ (∀ t4 r4 n l5 good bad post, tl = (t4 :: r4) :: l5 :: (good ++ bad :: post) →
            scanInt t4 = some n → flowLineOK E l5 → 0 < P.nPollut →
            E.calloc_ok P.nPollut = true → (good.length : Int) < n - 1 →
            (∀ g ∈ good, pollutLineOK E P g) → bad.length < 2 →
          FormatFailure E s (openFileForInput E P J (some f) s))
        ∧ (∀ s3 s4 ln tln, openHeader E J { s with Finflows_file := some f } = .ok s3 →
            getIfaceFilePolluts E P J.polluts s3 = (0, s4) →
            s4.inflows.rest = ln :: tln → ¬ startsPosInt ln →
          FormatFailure E s (openFileForInput E P J (some f) s))) := by
  have hs0 : SameHead s ({ s with Finflows_file := some f } : State) :=
    ⟨⟨rfl, rfl, rfl, rfl, rfl, rfl⟩, rfl⟩
  obtain ⟨s1, hc1, hsame1, hrest1⟩ := checkFileType_good E J { s with Finflows_file := some f }
    l1 (l2 :: l3 :: tl) hf hmagic
  have hhead : openHeader E J { s with Finflows_file := some f } = readStep E l1 s1 := by
    unfold openHeader; rw [hc1]
  -- a positive code returned by the constituent section
  have hpolluts : ∀ s3 r, SameHead s s3 →
      pollutSteps E P J.polluts s3 = .error (E.ERR_ROUTING_FILE_FORMAT, r) →
      openHeader E J { s with Finflows_file := some f } = .ok s3 →
      FormatFailure E s (openFileForInput E P J (some f) s) := by
    intro s3 r hsame3 herr hok
    have hg := getIfaceFilePolluts_of_error E P J.polluts s3 _ r herr
    have hfr := getIfaceFilePolluts_frame E P J.polluts s3
    rw [hg] at hfr
    rw [openFileForInput_header_ok E P J f s s3 hok, openBody_polluts_error E P J s3 r _ hg hpos]
    exact formatFailure_of_same E s r (sameHead_trans hsame3 hfr).1 hOld hNew
  refine ⟨?_, ?_⟩
  · intro hbad
    obtain ⟨r, hr, hsame⟩ := readStep_bad E l1 s1 l2 l3 tl hrest1 hbad
    rw [openFileForInput_header_error E P J f s _ (hhead.trans hr)]
    exact formatFailure_of_same E s r (sameHead_trans (sameHead_trans hs0 hsame1) hsame).1 hOld hNew
  · intro hgood
    obtain ⟨s3, hr3, hsame3, hrest3⟩ := readStep_good E l1 s1 l2 l3 tl hrest1 hgood
    have hok : openHeader E J { s with Finflows_file := some f } = .ok s3 := hhead.trans hr3
    have hs3 : SameHead s s3 := sameHead_trans (sameHead_trans hs0 hsame1) hsame3
    refine ⟨?_, ?_, ?_, ?_⟩
    · intro l4 tl4 htl hbad
      obtain ⟨r, hr⟩ := readCount_bad E J.polluts s3 l4 tl4 (hrest3.trans htl) hbad
      refine hpolluts s3 r hs3 ?_ hok
      unfold pollutSteps
      rw [hr]; rfl
    · intro l4 l5 tl5 htl h4 hbad
      obtain ⟨b4, s4, hr4, hrest4, _, _⟩ := readCount_good E J.polluts s3 l4 (l5 :: tl5)
        (hrest3.trans htl) h4
      obtain ⟨r, hr⟩ := readFlowUnits_bad E b4 s4 l5 tl5 hrest4 hbad
      refine hpolluts s3 r hs3 ?_ hok
      unfold pollutSteps
      rw [hr4, Step.andThen_ok _ _ b4 s4 rfl, hr]; rfl
    · intro t4 r4 n l5 good bad post htl hn h5 hnp hcalloc hlen hgoodl hbad
      have h4 : startsPosInt (t4 :: r4) := ⟨t4, n, rfl, hn, by omega⟩
      obtain ⟨b4, s4, hr4, hrest4, _, hcount⟩ := readCount_good E J.polluts s3 (t4 :: r4)
        (l5 :: (good ++ bad :: post)) (hrest3.trans htl) h4
      have hn4 : s4.NumIfacePolluts = n - 1 := by
        have : sscanf_d (t4 :: r4) (-1) = (1, n) := by simp [sscanf_d, hn]
        rw [this] at hcount
        simp only [Prod.mk.injEq, true_and] at hcount
        omega
      obtain ⟨b5, s5, hr5, hrest5, hnp5⟩ := readFlowUnits_good E b4 s4 l5 _ hrest4 h5
      obtain ⟨s6, hr6, hin6, hnp6, _⟩ := allocPolluts_good E P b5 s5 hcalloc
      have hk : good.length < s6.NumIfacePolluts.toNat := by
        rw [hnp6, hnp5, hn4]; omega
      obtain ⟨r, hr⟩ := pollutLoop_short E P good s6.NumIfacePolluts.toNat 0 b5 s6 bad post
        (by rw [hin6]; exact hrest5) hk hgoodl hbad
      refine hpolluts s3 r hs3 ?_ hok
      unfold pollutSteps
      rw [hr4, Step.andThen_ok _ _ b4 s4 rfl, hr5, Step.andThen_ok _ _ b5 s5 rfl, hr6,
        Step.andThen_ok _ _ b5 s6 rfl]
      have hm : matchPolluts E P b5 s6 = .error (E.ERR_ROUTING_FILE_FORMAT, r) := by
        unfold matchPolluts
        rw [if_pos ⟨by rw [hnp6, hnp5, hn4]; omega, hnp⟩, hr]
      rw [hm]; rfl
    · intro s3a s4 ln tln hoka hp hrest hbad
      have hfr := getIfaceFilePolluts_frame E P J.polluts s3a
      rw [hp] at hfr
      have hs3a : SameHead s s3a := by
        rw [hok] at hoka
        cases hoka
        exact hs3
      have hs4 : SameHead s s4 := sameHead_trans hs3a hfr
      have hN4 : s4.NumIfaceNodes = 0 := hs4.2.trans hN
      obtain ⟨r, hr⟩ := readNodeCount_bad E J.nodesLine J.nodesS s4 ln tln hN4 hrest hbad
      have herr : nodeSteps E J.nodesLine J.nodesS s4 = .error (E.ERR_ROUTING_FILE_FORMAT, r) := by
        unfold nodeSteps
        rw [hr]; rfl
      have hg := getIfaceFileNodes_of_error E J.nodesLine J.nodesS s4 _ r herr
      have hfn := getIfaceFileNodes_frame E J.nodesLine J.nodesS s4
      rw [hg] at hfn
      rw [openFileForInput_header_ok E P J f s s3a hoka,
        openBody_nodes_error E P J s3a s4 r _ hp hg hpos]
      exact formatFailure_of_same E s r (sameReport_trans hs4.1 hfn) hOld hNew

/-- C9 (amended), on a file for `projectTSS` whose second declared pollutant
line holds one token: the first pollutant line is accepted, and the short line
gives the format error with no matrices. -/
theorem C9_header_errors_witness :
    FormatFailure (sampleEnv projectTSS) (initState "in.txt" "")
      (openFileForInput (sampleEnv projectTSS) projectTSS noJunk
        (some (reopened fileShortSecondLine)) (initState "in.txt" "")) :=
  ((C9_header_errors (sampleEnv projectTSS) projectTSS noJunk (initState "in.txt" "")
      (reopened fileShortSecondLine)
      ["SWMM5", "Interface", "File"] ["Example"]
      ["900", "-", "reporting", "time", "step", "in", "sec"]
      [["3", "-", "number", "of", "constituents", "as", "listed", "below:"],
       ["FLOW", "CFS"], ["TSS", "MG/L"], ["LEAD"],
       ["1", "-", "number", "of", "nodes", "as", "listed", "below:"], ["OUT1"]]
      (by decide) rfl rfl rfl rfl ⟨"SWMM5", _, rfl, by decide⟩).2
    ⟨"900", 900, rfl, by decide, by decide⟩).2.2.1
    "3" ["-", "number", "of", "constituents", "as", "listed", "below:"] 3 ["FLOW", "CFS"]
    [["TSS", "MG/L"]] ["LEAD"]
    [["1", "-", "number", "of", "nodes", "as", "listed", "below:"], ["OUT1"]]
    rfl (by decide) ⟨"FLOW", "CFS", [], rfl, by decide, by decide⟩ (by decide) rfl (by decide)
    (fun g hg => by
      simp only [List.mem_singleton] at hg
      subst hg
      exact ⟨"TSS", "MG/L", [], rfl, Or.inr (by decide)⟩)
    (by decide)

/-- C9 as stated fails: in `fileUnitsThenShort`, read for `projectTSS`, the
second declared pollutant line holds one token, yet the error code set is
`ERR_ROUTING_FILE_NOMATCH`, not `ERR_ROUTING_FILE_FORMAT`: the pollutant line
before it names TSS with units other than the project has, and
`getIfaceFilePolluts` returns at that line. -/
theorem C9_counterexample :
    (fileUnitsThenShort.getD 6 []).length < 2
    ∧ (openFileForInput (sampleEnv projectTSS) projectTSS noJunk
        (some (reopened fileUnitsThenShort)) (resetShared (initState "in.txt" ""))).ErrorCode
      = (sampleEnv projectTSS).ERR_ROUTING_FILE_NOMATCH
    ∧ (openFileForInput (sampleEnv projectTSS) projectTSS noJunk
        (some (reopened fileUnitsThenShort)) (resetShared (initState "in.txt" ""))).ErrorCode
      ≠ (sampleEnv projectTSS).ERR_ROUTING_FILE_FORMAT := by
  decide

/-- For a project without pollutants `getIfaceFilePolluts` reads no pollutant
line: in `fileShortPollutLine` the line `2` after the flow line is taken for
the node count, no error is set and both value matrices are created. -/
theorem pollutant_lines_unread_without_pollutants :
    (openFileForInput (sampleEnv projectPlain) projectPlain noJunk
        (some (reopened fileShortPollutLine)) (resetShared (initState "in.txt" ""))).ErrorCode = 0
    ∧ (openFileForInput (sampleEnv projectPlain) projectPlain noJunk
        (some (reopened fileShortPollutLine))
        (resetShared (initState "in.txt" ""))).OldIfaceValues.isSome = true
    ∧ (openFileForInput (sampleEnv projectPlain) projectPlain noJunk
        (some (reopened fileShortPollutLine))
        (resetShared (initState "in.txt" ""))).NewIfaceValues.isSome = true := by
  decide

theorem Step.andThen_eq_ok {α β : Type} (x : Step α) (f : α → State → Step β)
    (r : β × State) (h : x.andThen f = .ok r) :
    ∃ a s1, x = .ok (a, s1) ∧ f a s1 = .ok r := by
  cases x with
  | error e => simp [Step.andThen] at h
  | ok q => exact ⟨q.1, q.2, rfl, h⟩

theorem intAt_setInt_ne (a : Option (List Int)) (j k v : Int) (hj : 0 ≤ j) (hk : 0 ≤ k)
    (hne : k ≠ j) : intAt (setInt a k v) j = intAt a j := by
  have hnat : k.toNat ≠ j.toNat := by omega
  cases a with
  | none => rfl
  | some l =>
    simp only [intAt, setInt, Option.map_some', Option.getD_some, List.getD_eq_getElem?_getD]
    rw [List.getElem?_set_ne hnat]

theorem intAt_setInt_eq (l : List Int) (j v : Int) (hlen : j.toNat < l.length) :
    intAt (setInt (some l) j v) j = v := by
  simp [intAt, setInt, List.getD_eq_getElem?_getD, List.getElem?_set_self, hlen]

theorem intAt_replicate (n : Nat) (j : Int) (h : j.toNat < n) :
    intAt (some (List.replicate n (-1))) j = -1 := by
  simp [intAt, List.getD_eq_getElem?_getD, List.getElem?_replicate, h]

/-- One iteration of the pollutant loop on a line that does not name project
pollutant `j` leaves `IfacePolluts[j]` as it is. -/
theorem pollutBody_keeps (E : Env) (P : Project) (i : Int) (b : Bufs) (s : State)
    (r : Bufs × State) (l : Line) (ls : List Line) (j : Int) (hj : 0 ≤ j)
    (hrest : s.inflows.rest = l :: ls)
    (hname : ∀ name, l.head? = some name → E.project_findObject ObjType.POLLUT name ≠ j)
    (h : pollutBody E P i b s = .ok r) :
    intAt r.2.IfacePolluts j = intAt s.IfacePolluts j ∧ r.2.inflows.rest = ls
      ∧ r.2.NumIfacePolluts = s.NumIfacePolluts := by
  unfold pollutBody at h
  dsimp only at h
  rw [fgets_cons_fst b.line s.inflows l ls hrest] at h
  have hr2 := fgets_cons_rest b.line s.inflows l ls hrest
  match l, hname with
  | [], _ => simp [sscanf_ss, EOF] at h
  | [_], _ => simp [sscanf_ss] at h
  | name :: unit :: more, hname =>
    simp only [sscanf_ss] at h
    rw [if_neg (by decide)] at h
    have hne := hname name rfl
    by_cases hneg : E.project_findObject ObjType.POLLUT name < 0
    · rw [if_pos hneg] at h
      cases h
      exact ⟨rfl, hr2, rfl⟩
    · rw [if_neg hneg] at h
      split_ifs at h with hu
      cases h
      exact ⟨intAt_setInt_ne _ _ _ _ hj (not_lt.mp hneg) hne, hr2, rfl⟩

theorem pollutLoop_keeps (E : Env) (P : Project) (j : Int) (hj : 0 ≤ j) (k : Nat) :
    ∀ (i : Int) (b : Bufs) (s : State) (r : Bufs × State),
      pollutLoop E P k i b s = .ok r → k ≤ s.inflows.rest.length →
      (∀ l ∈ s.inflows.rest.take k, ∀ name, l.head? = some name →
        E.project_findObject ObjType.POLLUT name ≠ j) →
      intAt r.2.IfacePolluts j = intAt s.IfacePolluts j
        ∧ r.2.NumIfacePolluts = s.NumIfacePolluts := by
  induction k with
  | zero =>
    intro i b s r h _ _
    simp only [pollutLoop] at h
    cases h
    exact ⟨rfl, rfl⟩
  | succ k ih =>
    intro i b s r h hlen hnames
    unfold pollutLoop at h
    split_ifs at h with h1
    obtain ⟨b1, s1, hb, hl⟩ := Step.andThen_eq_ok _ _ _ h
    cases hrest : s.inflows.rest with
    | nil => rw [hrest] at hlen; simp at hlen
    | cons l ls =>
      rw [hrest] at hlen hnames
      have hk := pollutBody_keeps E P i b s (b1, s1) l ls j hj hrest
        (fun name hn => hnames l (by simp) name hn) hb
      have := ih (i + 1) b1 s1 r hl (by rw [hk.2.1]; simpa using hlen)
        (fun x hx name hn => hnames x (by
          rw [hk.2.1] at hx
          simp only [List.take_succ_cons, List.mem_cons]
          exact Or.inr hx) name hn)
      exact ⟨this.1.trans hk.1, this.2.trans hk.2.2⟩

theorem readCount_ok_inv (E : Env) (b b1 : Bufs) (s s1 : State) (l4 : Line) (tl : List Line)
    (hrest : s.inflows.rest = l4 :: tl) (h : readCount E b s = .ok (b1, s1)) :
    s1.inflows.rest = tl ∧ s1.IfacePolluts = s.IfacePolluts
      ∧ (∀ l ls, tl = l :: ls → s1.inflows.eof = s.inflows.eof) := by
  have key : ∀ n : Int, (Except.ok (⟨(fgets b.line s.inflows).1, b.s1, b.s2⟩,
      { s with Finflows_file := some (fgets b.line s.inflows).2, NumIfacePolluts := n })
        : Step Bufs) = .ok (b1, s1) →
      s1.inflows.rest = tl ∧ s1.IfacePolluts = s.IfacePolluts
        ∧ (∀ l ls, tl = l :: ls → s1.inflows.eof = s.inflows.eof) := by
    intro n hn
    cases hn
    refine ⟨fgets_cons_rest b.line s.inflows l4 tl hrest, rfl, ?_⟩
    intro l ls htl
    exact fgets_cons_eof b.line s.inflows l4 l ls (by rw [hrest, htl])
  unfold readCount at h
  dsimp only at h
  split_ifs at h <;> exact key _ h

theorem readFlowUnits_ok_inv (E : Env) (b b1 : Bufs) (s s1 : State) (l5 : Line) (tl : List Line)
    (hrest : s.inflows.rest = l5 :: tl) (h : readFlowUnits E b s = .ok (b1, s1)) :
    s1.inflows.rest = tl ∧ s1.IfacePolluts = s.IfacePolluts
      ∧ s1.NumIfacePolluts = s.NumIfacePolluts
      ∧ (∀ l ls, tl = l :: ls → s1.inflows.eof = s.inflows.eof) := by
  unfold readFlowUnits at h
  dsimp only at h
  split_ifs at h
  cases h
  refine ⟨fgets_cons_rest b.line s.inflows l5 tl hrest, rfl, rfl, ?_⟩
  intro l ls htl
  exact fgets_cons_eof b.line s.inflows l5 l ls (by rw [hrest, htl])

theorem allocPolluts_ok_inv (E : Env) (P : Project) (b b1 : Bufs) (s s1 : State)
    (hnp : 0 < P.nPollut) (h : allocPolluts E P b s = .ok (b1, s1)) :
    s1.IfacePolluts = some (List.replicate P.nPollut.toNat (-1)) ∧ s1.inflows = s.inflows
      ∧ s1.NumIfacePolluts = s.NumIfacePolluts := by
  unfold allocPolluts at h
  rw [if_pos hnp] at h
  split_ifs at h
  cases h
  exact ⟨rfl, rfl, rfl⟩

theorem tempBlock_ok_inv (E : Env) (P : Project) (b b1 : Bufs) (s s1 : State)
    (h : tempBlock E P b s = .ok (b1, s1)) :
    s1.IfacePolluts = s.IfacePolluts ∧ s1.NumIfacePolluts = s.NumIfacePolluts := by
  unfold tempBlock at h
  dsimp only at h
  split_ifs at h <;> cases h <;> exact ⟨rfl, rfl⟩

theorem pollutBody_num (E : Env) (P : Project) (i : Int) (b : Bufs) (s : State) :
    (pollutBody E P i b s).state.NumIfacePolluts = s.NumIfacePolluts := by
  unfold pollutBody
  dsimp only
  split_ifs <;> rfl

theorem pollutLoop_num (E : Env) (P : Project) (k : Nat) :
    ∀ (i : Int) (b : Bufs) (s : State),
      (pollutLoop E P k i b s).state.NumIfacePolluts = s.NumIfacePolluts := by
  induction k with
  | zero => intro i b s; rfl
  | succ k ih =>
    intro i b s
    unfold pollutLoop
    split_ifs with h1
    · rfl
    · exact Step.andThen_state (fun a c => c.NumIfacePolluts = a.NumIfacePolluts)
        (fun _ _ _ h1 h2 => h2.trans h1) s _ _ (pollutBody_num E P i b s)
        (fun a s1 => ih (i + 1) a s1)

/-- When `getIfaceFilePolluts` reaches its end on a file that holds the lines
it declares, a project pollutant that none of the declared pollutant lines
names has `IfacePolluts[j] = -1`. -/
theorem pollutSteps_unnamed (E : Env) (P : Project) (b b1 : Bufs) (s s1 : State) (j : Int)
    (h : pollutSteps E P b s = .ok (b1, s1)) (hj : 0 ≤ j) (hjn : j < P.nPollut)
    (hlen : 2 + s1.NumIfacePolluts.toNat ≤ s.inflows.rest.length)
    (hnames : ∀ l ∈ (s.inflows.rest.drop 2).take s1.NumIfacePolluts.toNat, ∀ name,
      l.head? = some name → E.project_findObject ObjType.POLLUT name ≠ j) :
    intAt s1.IfacePolluts j = -1 := by
  unfold pollutSteps at h
  obtain ⟨b4, s4, h4, ht⟩ := Step.andThen_eq_ok _ _ _ h
  obtain ⟨b3, s3, h3, hm⟩ := Step.andThen_eq_ok _ _ _ h4
  obtain ⟨b2, s2, h2, ha⟩ := Step.andThen_eq_ok _ _ _ h3
  obtain ⟨b0, s0, h0, hf⟩ := Step.andThen_eq_ok _ _ _ h2
  obtain ⟨l4, l5, tl, hrest⟩ : ∃ l4 l5 tl, s.inflows.rest = l4 :: l5 :: tl := by
    match hr : s.inflows.rest with
    | [] => rw [hr] at hlen; simp only [List.length_nil] at hlen; omega
    | [_] => rw [hr] at hlen; simp only [List.length_cons, List.length_nil] at hlen; omega
    | l4 :: l5 :: tl => exact ⟨l4, l5, tl, rfl⟩
  have hnp : 0 < P.nPollut := by omega
  have i0 := readCount_ok_inv E b b0 s s0 l4 (l5 :: tl) hrest h0
  have i2 := readFlowUnits_ok_inv E b0 b2 s0 s2 l5 tl i0.1 hf
  have i3 := allocPolluts_ok_inv E P b2 b3 s2 s3 hnp ha
  have i5 := tempBlock_ok_inv E P b4 b1 s4 s1 ht
  have hrest3 : s3.inflows.rest = tl := by rw [i3.2.1]; exact i2.1
  have h3val : intAt s3.IfacePolluts j = -1 := by
    rw [i3.1]
    exact intAt_replicate _ _ (by omega)
  rw [hrest] at hlen hnames
  simp only [List.drop_succ_cons, List.drop_zero] at hnames
  unfold matchPolluts at hm
  split_ifs at hm with hc
  · have hnum : s4.NumIfacePolluts = s3.NumIfacePolluts := by
      have := pollutLoop_num E P s3.NumIfacePolluts.toNat 0 b3 s3
      rw [hm] at this
      exact this
    have hn13 : s1.NumIfacePolluts = s3.NumIfacePolluts := i5.2.trans hnum
    rw [hn13] at hlen hnames
    have hk := pollutLoop_keeps E P j hj _ 0 b3 s3 (b4, s4) hm
      (by rw [hrest3]; simp only [List.length_cons] at hlen; omega)
      (by rw [hrest3]; exact hnames)
    rw [i5.1]
    exact hk.1.trans h3val
  · cases hm
    rw [i5.1]; exact h3val

theorem pollutBody_eof (E : Env) (P : Project) (i : Int) (b : Bufs) (s : State)
    (r : Bufs × State) (l l1 : Line) (ls : List Line)
    (hrest : s.inflows.rest = l :: l1 :: ls) (h : pollutBody E P i b s = .ok r) :
    r.2.inflows.eof = s.inflows.eof := by
  have he := fgets_cons_eof b.line s.inflows l l1 ls hrest
  unfold pollutBody at h
  dsimp only at h
  split_ifs at h <;> cases h <;> exact he

/-- A declared line that names a project pollutant with another unit word ends
the loop with the no-match error. -/
theorem pollutBody_mismatch (E : Env) (P : Project) (i : Int) (b : Bufs) (s : State)
    (name unit : String) (more : Line) (post : List Line)
    (hrest : s.inflows.rest = (name :: unit :: more) :: post)
    (hj : 0 ≤ E.project_findObject ObjType.POLLUT name)
    (hu : E.strcomp unit (word E.QualUnitsWords
      (pollutAt P (E.project_findObject ObjType.POLLUT name)).units) = false) :
    ∃ r, pollutBody E P i b s = .error (E.ERR_ROUTING_FILE_NOMATCH, r) := by
  unfold pollutBody
  dsimp only
  rw [fgets_cons_fst b.line s.inflows _ post hrest]
  simp only [sscanf_ss]
  rw [if_neg (by decide), if_neg (not_lt.mpr hj)]
  simp only [hu, Bool.not_false, if_true]
  exact ⟨_, rfl⟩

theorem pollutLoop_mismatch (E : Env) (P : Project) (good : List Line) :
    ∀ (k : Nat) (i : Int) (b : Bufs) (s : State) (name unit : String) (more : Line)
      (post : List Line),
      s.inflows.eof = false →
      s.inflows.rest = good ++ (name :: unit :: more) :: post → good.length < k →
      (∀ g ∈ good, pollutLineOK E P g) →
      0 ≤ E.project_findObject ObjType.POLLUT name →
      E.strcomp unit (word E.QualUnitsWords
        (pollutAt P (E.project_findObject ObjType.POLLUT name)).units) = false →
      ∃ r, pollutLoop E P k i b s = .error (E.ERR_ROUTING_FILE_NOMATCH, r) := by
  induction good with
  | nil =>
    intro k i b s name unit more post heof hrest hk _ hj hu
    obtain ⟨k1, rfl⟩ : ∃ k1, k = k1 + 1 := ⟨k - 1, by simp at hk; omega⟩
    unfold pollutLoop
    rw [if_neg (by simp [heof])]
    obtain ⟨r, hr⟩ := pollutBody_mismatch E P i b s name unit more post (by simpa using hrest) hj hu
    exact ⟨r, Step.andThen_error _ _ _ hr⟩
  | cons g gs ih =>
    intro k i b s name unit more post heof hrest hk hgood hj hu
    obtain ⟨k1, rfl⟩ : ∃ k1, k = k1 + 1 := ⟨k - 1, by simp at hk; omega⟩
    unfold pollutLoop
    rw [if_neg (by simp [heof])]
    obtain ⟨b1, s1, hb, hr1⟩ := pollutBody_accepted E P i b s g (gs ++ (name :: unit :: more) :: post)
      (by simpa using hrest) (hgood g (List.mem_cons_self g gs))
    have heof1 : s1.inflows.eof = false := by
      cases gs with
      | nil =>
        exact (pollutBody_eof E P i b s (b1, s1) g (name :: unit :: more) post
          (by simpa using hrest) hb).trans heof
      | cons g1 gs1 =>
        exact (pollutBody_eof E P i b s (b1, s1) g g1 (gs1 ++ (name :: unit :: more) :: post)
          (by simpa using hrest) hb).trans heof
    rw [Step.andThen_ok _ _ b1 s1 hb]
    exact ih k1 (i + 1) b1 s1 name unit more post heof1 hr1 (by simpa using hk)
      (fun x hx => hgood x (List.mem_cons_of_mem g hx)) hj hu

/-- C7: in `getIfaceFilePolluts`, for a declared pollutant line (name, unit) at
file position i: (a) a name that is no project pollutant is skipped, the loop
going on with `IfacePolluts` as it is; (b) a name that is project pollutant j
with the project's unit word sets `IfacePolluts[j] = i`, the loop going on;
(c) a name that is project pollutant j with another unit word ends the loop
with `ERR_ROUTING_FILE_NOMATCH`, which `getIfaceFilePolluts` returns when the
declared lines before were accepted; (d) when the function reaches its end
(returning 0), every project pollutant j that no declared line names has
`IfacePolluts[j] = -1`. -/
theorem C7_pollutant_matching (E : Env) (P : Project) :
    (∀ (k : Nat) (i : Int) (b : Bufs) (s : State) (name unit : String) (more : Line)
        (ls : List Line),
        s.inflows.eof = false → s.inflows.rest = (name :: unit :: more) :: ls →
        (E.project_findObject ObjType.POLLUT name < 0 →
          ∃ s1, pollutLoop E P (k + 1) i b s
              = pollutLoop E P k (i + 1) ⟨name :: unit :: more, name, unit⟩ s1
            ∧ s1.IfacePolluts = s.IfacePolluts ∧ s1.inflows.rest = ls)
        ∧ (0 ≤ E.project_findObject ObjType.POLLUT name →
            E.strcomp unit (word E.QualUnitsWords
              (pollutAt P (E.project_findObject ObjType.POLLUT name)).units) = true →
          ∃ s1, pollutLoop E P (k + 1) i b s
              = pollutLoop E P k (i + 1) ⟨name :: unit :: more, name, unit⟩ s1
            ∧ s1.IfacePolluts
                = setInt s.IfacePolluts (E.project_findObject ObjType.POLLUT name) i
            ∧ s1.inflows.rest = ls
            ∧ (∀ l, s.IfacePolluts = some l →
                (E.project_findObject ObjType.POLLUT name).toNat < l.length →
                intAt s1.IfacePolluts (E.project_findObject ObjType.POLLUT name) = i))
        ∧ (0 ≤ E.project_findObject ObjType.POLLUT name →
            E.strcomp unit (word E.QualUnitsWords
              (pollutAt P (E.project_findObject ObjType.POLLUT name)).units) = false →
          ∃ r, pollutLoop E P (k + 1) i b s = .error (E.ERR_ROUTING_FILE_NOMATCH, r)))
    ∧ (∀ (b : Bufs) (s : State) (t4 : String) (r4 : Line) (n : Int) (l5 : Line)
        (good : List Line) (name unit : String) (more : Line) (post : List Line),
        s.inflows.eof = false →
        s.inflows.rest = (t4 :: r4) :: l5 :: (good ++ (name :: unit :: more) :: post) →
        scanInt t4 = some n → flowLineOK E l5 → 0 < P.nPollut →
        E.calloc_ok P.nPollut = true → (good.length : Int) < n - 1 →
        (∀ g ∈ good, pollutLineOK E P g) →
        0 ≤ E.project_findObject ObjType.POLLUT name →
        E.strcomp unit (word E.QualUnitsWords
          (pollutAt P (E.project_findObject ObjType.POLLUT name)).units) = false →
        (getIfaceFilePolluts E P b s).1 = E.ERR_ROUTING_FILE_NOMATCH)
    ∧ (∀ (b b1 : Bufs) (s s1 : State) (j : Int),
        pollutSteps E P b s = .ok (b1, s1) → 0 ≤ j → j < P.nPollut →
        2 + s1.NumIfacePolluts.toNat ≤ s.inflows.rest.length →
        (∀ l ∈ (s.inflows.rest.drop 2).take s1.NumIfacePolluts.toNat, ∀ name,
          l.head? = some name → E.project_findObject ObjType.POLLUT name ≠ j) →
        getIfaceFilePolluts E P b s = (0, s1) ∧ intAt s1.IfacePolluts j = -1) := by
  refine ⟨?_, ?_, ?_⟩
  · intro k i b s name unit more ls heof hrest
    have hbody1 := fgets_cons_fst b.line s.inflows _ ls hrest
    have hbody2 := fgets_cons_rest b.line s.inflows _ ls hrest
    have hloop : pollutLoop E P (k + 1) i b s
        = (pollutBody E P i b s).andThen (pollutLoop E P k (i + 1)) := by
      rw [pollutLoop, if_neg (by simp [heof])]
    refine ⟨?_, ?_, ?_⟩
    · intro hneg
      have hb : pollutBody E P i b s = .ok (⟨name :: unit :: more, name, unit⟩,
          { s with Finflows_file := some (fgets b.line s.inflows).2 }) := by
        unfold pollutBody
        dsimp only
        rw [hbody1]
        simp only [sscanf_ss]
        rw [if_neg (by decide), if_pos hneg]
      exact ⟨{ s with Finflows_file := some (fgets b.line s.inflows).2 },
        by rw [hloop, Step.andThen_ok _ _ _ _ hb], rfl, hbody2⟩
    · intro hj hu
      have hb : pollutBody E P i b s = .ok (⟨name :: unit :: more, name, unit⟩,
          { s with Finflows_file := some (fgets b.line s.inflows).2
                   IfacePolluts := setInt s.IfacePolluts
                     (E.project_findObject ObjType.POLLUT name) i }) := by
        unfold pollutBody
        dsimp only
        rw [hbody1]
        simp only [sscanf_ss]
        rw [if_neg (by decide), if_neg (not_lt.mpr hj)]
        simp only [hu, Bool.not_true, Bool.false_eq_true, if_false]
      refine ⟨{ s with Finflows_file := some (fgets b.line s.inflows).2
                       IfacePolluts := setInt s.IfacePolluts
                         (E.project_findObject ObjType.POLLUT name) i },
        by rw [hloop, Step.andThen_ok _ _ _ _ hb], rfl, hbody2, ?_⟩
      intro l hl hlen
      show intAt (setInt s.IfacePolluts _ i) _ = i
      rw [hl]
      exact intAt_setInt_eq l _ i hlen
    · intro hj hu
      obtain ⟨r, hr⟩ := pollutBody_mismatch E P i b s name unit more ls hrest hj hu
      exact ⟨r, by rw [hloop, Step.andThen_error _ _ _ hr]⟩
  · intro b s t4 r4 n l5 good name unit more post heof hrest hn h5 hnp hcalloc hlen hgood hj hu
    have h4 : startsPosInt (t4 :: r4) := ⟨t4, n, rfl, hn, by omega⟩
    obtain ⟨b4, s4, hr4, hrest4, _, hcount⟩ := readCount_good E b s (t4 :: r4) _ hrest h4
    have hn4 : s4.NumIfacePolluts = n - 1 := by
      have : sscanf_d (t4 :: r4) (-1) = (1, n) := by simp [sscanf_d, hn]
      rw [this] at hcount
      simp only [Prod.mk.injEq, true_and] at hcount
      omega
    have heof4 : s4.inflows.eof = false :=
      ((readCount_ok_inv E b b4 s s4 (t4 :: r4) _ hrest hr4).2.2 l5 _ rfl).trans heof
    obtain ⟨b5, s5, hr5, hrest5, hnp5⟩ := readFlowUnits_good E b4 s4 l5 _ hrest4 h5
    have heof5 : s5.inflows.eof = false := by
      have hinv := (readFlowUnits_ok_inv E b4 b5 s4 s5 l5 _ hrest4 hr5).2.2.2
      cases good with
      | nil => exact (hinv _ _ rfl).trans heof4
      | cons g gs => exact (hinv _ _ rfl).trans heof4
    obtain ⟨s6, hr6, hin6, hnp6, _⟩ := allocPolluts_good E P b5 s5 hcalloc
    obtain ⟨r, hr⟩ := pollutLoop_mismatch E P good s6.NumIfacePolluts.toNat 0 b5 s6 name unit more
      post (by rw [hin6]; exact heof5) (by rw [hin6]; exact hrest5)
      (by rw [hnp6, hnp5, hn4]; omega) hgood hj hu
    have hm : matchPolluts E P b5 s6 = .error (E.ERR_ROUTING_FILE_NOMATCH, r) := by
      unfold matchPolluts
      rw [if_pos ⟨by rw [hnp6, hnp5, hn4]; omega, hnp⟩, hr]
    have herr : pollutSteps E P b s = .error (E.ERR_ROUTING_FILE_NOMATCH, r) := by
      unfold pollutSteps
      rw [hr4, Step.andThen_ok _ _ b4 s4 rfl, hr5, Step.andThen_ok _ _ b5 s5 rfl, hr6,
        Step.andThen_ok _ _ b5 s6 rfl, hm]
      rfl
    rw [getIfaceFilePolluts_of_error E P b s _ r herr]
  · intro b b1 s s1 j h hj hjn hlen hnames
    refine ⟨?_, pollutSteps_unnamed E P b b1 s s1 j h hj hjn hlen hnames⟩
    unfold getIfaceFilePolluts
    rw [h]; rfl

theorem Step.eq_ok_of_toBool {α : Type} (x : Step α) (h : x.toBool = true) :
    ∃ a, x = .ok (a, x.state) := by
  cases x with
  | error e => simp [Except.toBool] at h
  | ok r => exact ⟨r.1, rfl⟩

/-- C7, on a file for a project with the pollutants TSS and LEAD that declares
ZINC and TSS: the function returns 0, LEAD keeps -1 and TSS has the file
position 1. -/
theorem C7_pollutant_matching_witness :
    getIfaceFilePolluts (sampleEnv projectTwo) projectTwo noJunk.polluts afterStepTwo
        = (0, (pollutSteps (sampleEnv projectTwo) projectTwo noJunk.polluts afterStepTwo).state)
      ∧ intAt (pollutSteps (sampleEnv projectTwo) projectTwo noJunk.polluts
          afterStepTwo).state.IfacePolluts 1 = -1 := by
  obtain ⟨b1, hb1⟩ := Step.eq_ok_of_toBool
    (pollutSteps (sampleEnv projectTwo) projectTwo noJunk.polluts afterStepTwo) (by decide)
  have hnum : (pollutSteps (sampleEnv projectTwo) projectTwo noJunk.polluts
      afterStepTwo).state.NumIfacePolluts = 2 := by decide
  refine (C7_pollutant_matching (sampleEnv projectTwo) projectTwo).2.2 noJunk.polluts b1
    afterStepTwo _ 1 hb1 (by decide) (by decide) (by rw [hnum]; decide) ?_
  intro l hl name hn
  rw [hnum] at hl
  have hl2 : l = ["ZINC", "UG/L"] ∨ l = ["TSS", "MG/L"] := by
    simpa [afterStepTwo, reopened, State.inflows, resetShared, initState] using hl
  rcases hl2 with rfl | rfl
  · simp only [List.head?_cons, Option.some.injEq] at hn
    subst hn
    decide
  · simp only [List.head?_cons, Option.some.injEq] at hn
    subst hn
    decide

/-- C1 fails on the code when the temperature model is active.  With a
pollutant, the file a project wrote is refused by the same project with
`ERR_ROUTING_FILE_NOMATCH`; without pollutants it is accepted, but the first
record is not read back (`NewIfaceDate = NO_DATE`) and a query at the first
written date returns 0 nodes.  With the temperature model off the same file is
read back: the first written date is in `NewIfaceDate`. -/
theorem C1_roundtrip_temperature :
    (readBack projectTSSTemp).ErrorCode = (sampleEnv projectTSSTemp).ERR_ROUTING_FILE_NOMATCH
    ∧ (readBack projectTSSTemp).NewIfaceValues.isNone = true
    ∧ (readBack projectTemp).ErrorCode = 0
    ∧ (readBack projectTemp).NewIfaceDate = (sampleEnv projectTemp).NO_DATE
    ∧ (iface_getNumIfaceNodes (sampleEnv projectTemp) projectTemp (fun _ => []) 10 37622
        (readBack projectTemp)).map Prod.fst = some 0
    ∧ (readBack projectTSS).ErrorCode = 0
    ∧ (readBack projectTSS).NewIfaceDate = 37622
    ∧ (iface_getNumIfaceNodes (sampleEnv projectTSS) projectTSS (fun _ => []) 10 37622
        (readBack projectTSS)).map Prod.fst = some 1 := by
  refine ⟨by decide, by decide, by decide, by decide!, by decide!, by decide, by decide!,
    by decide!⟩

/-- C6 fails on the code for a blank first line: `sscanf` then returns `EOF`,
which the test `!sscanf(...)` takes for success, and the buffer `s` is compared
as the earlier content of the memory left it.  When that content is `SWMM5` the
file is accepted (no error, matrices created); when it is empty the format
error is reported. -/
theorem C6_blank_first_line :
    (openFileForInput (sampleEnv projectTSS) projectTSS { noJunk with s := "SWMM5" }
        (some (reopened fileBlankFirst)) (resetShared (initState "in.txt" ""))).ErrorCode = 0
    ∧ (openFileForInput (sampleEnv projectTSS) projectTSS { noJunk with s := "SWMM5" }
        (some (reopened fileBlankFirst))
        (resetShared (initState "in.txt" ""))).NewIfaceValues.isSome = true
    ∧ (openFileForInput (sampleEnv projectTSS) projectTSS noJunk
        (some (reopened fileBlankFirst)) (resetShared (initState "in.txt" ""))).ErrorCode
        = (sampleEnv projectTSS).ERR_ROUTING_FILE_FORMAT := by
  decide

/-- C8 fails on the code: the temperature line `SALT CELSIUS` is accepted as
the temperature constituent by a project whose temperature variable is `WTEMP`
(`project_findObject(WTEMPERATURE, "SALT")` is -1): `getIfaceFilePolluts` sets
`IfaceTemperature = 0` and `openFileForInput` raises no error.  Only the unit
word is compared: the line `WTEMP KELVIN` is refused. -/
theorem C8_temperature_name_unchecked :
    (sampleEnv projectTemp).project_findObject ObjType.WTEMPERATURE "SALT" = -1
    ∧ (openFileForInput (sampleEnv projectTemp) projectTemp noJunk
        (some (reopened fileOtherTempName)) (resetShared (initState "in.txt" ""))).ErrorCode = 0
    ∧ (openFileForInput (sampleEnv projectTemp) projectTemp noJunk
        (some (reopened fileOtherTempName))
        (resetShared (initState "in.txt" ""))).IfaceTemperature = 0
    ∧ (openFileForInput (sampleEnv projectTemp) projectTemp noJunk
        (some (reopened fileOtherTempName))
        (resetShared (initState "in.txt" ""))).NewIfaceValues.isSome = true
    ∧ (openFileForInput (sampleEnv projectTemp) projectTemp noJunk
        (some (reopened fileOtherTempUnit)) (resetShared (initState "in.txt" ""))).ErrorCode
        = (sampleEnv projectTemp).ERR_ROUTING_FILE_NOMATCH := by
  decide

/-! ### The writer -/

theorem saveLoop_append (E : Env) (P : Project) (reportDate : DateTime) (l : List Nat) :
    ∀ file : List Line,
      l.foldl (fun f i => if !isOutletNode E P i then f
          else f ++ [outletRecord E P reportDate i]) file
        = file ++ (l.filter (isOutletNode E P)).map (outletRecord E P reportDate) := by
  induction l with
  | nil => intro file; simp
  | cons a l ih =>
    intro file
    rw [List.foldl_cons, ih]
    cases h : isOutletNode E P a <;> simp [h]

theorem iface_saveOutletResults_eq (E : Env) (P : Project) (reportDate : DateTime)
    (file : List Line) :
    iface_saveOutletResults E P reportDate file
      = file ++ (outletNodes E P).map (outletRecord E P reportDate) :=
  saveLoop_append E P reportDate (List.range P.Node.length) file

theorem outputHeader_parts (E : Env) (P : Project) :
    outputHeader E P
      = [["SWMM5", "Interface", "File"], P.Title0,
          [fmt_d P.ReportStep, "-", "reporting", "time", "step", "in", "sec"],
          countLine (P.nPollut + 1 + P.TempModel_active) "constituents"]
        ++ constituentLines E P
        ++ [countLine ((outletNodes E P).length : Nat) "nodes"]
        ++ nodeLines E P ++ [headingLine P] := by
  simp [outputHeader, countLine, constituentLines, nodeLines, headingLine, outletNodes]

theorem outletRecord_parts (E : Env) (P : Project) (reportDate : DateTime) (i : Nat) :
    outletRecord E P reportDate i
      = [(nodeAt P i).ID] ++ theDate E reportDate ++ recordValues E P i := by
  simp [outletRecord, recordValues]

theorem openFileForOutput_file (E : Env) (P : Project) (s : State) :
    (openFileForOutput E P true s).Foutflows_file
      = some (outputHeader E P ++ (if P.ReportStart = P.StartDateTime then
          (outletNodes E P).map (outletRecord E P P.ReportStart) else [])) := by
  unfold openFileForOutput
  by_cases h : P.ReportStart = P.StartDateTime
  · simp [h, iface_saveOutletResults_eq]
  · simp [h]

/-- C11: `isOutletNode(i)` is true exactly when the routing model is `DW` and
the node is an `OUTFALL`, or the routing model is another one and the node has
degree 0; `iface_saveOutletResults` appends to the file one record per node
index it passes, these being the indexes below `Nobjects[NODE]` for which
`isOutletNode` holds, each once and in increasing order, and the record of
index `i` begins with the ID of node `i`. -/
theorem C11_outlet_records (E : Env) (P : Project) (reportDate : DateTime)
    (file : List Line) :
    (∀ i, isOutletNode E P i = true ↔
        (P.RouteModel = E.DW ∧ (nodeAt P i).type = E.OUTFALL)
        ∨ (P.RouteModel ≠ E.DW ∧ (nodeAt P i).degree = 0))
    ∧ iface_saveOutletResults E P reportDate file
        = file ++ (outletNodes E P).map (outletRecord E P reportDate)
    ∧ (∀ i, i ∈ outletNodes E P ↔ i < P.Node.length ∧ isOutletNode E P i = true)
    ∧ (outletNodes E P).Sorted (fun a b => a < b)
    ∧ (∀ i, (outletRecord E P reportDate i).head? = some (nodeAt P i).ID) := by
  refine ⟨?_, iface_saveOutletResults_eq E P reportDate file, ?_, ?_, ?_⟩
  · intro i
    unfold isOutletNode
    by_cases h : P.RouteModel = E.DW
    · simp [h]
    · simp [h]
  · intro i
    simp [outletNodes]
  · exact (List.pairwise_lt_range _).filter _
  · intro i
    simp [outletRecord]

/-- C12: when the flag `TempModel.active` is 0 or 1, the integer on line 4 of
the file written by `openFileForOutput` is the number of constituent lines
written right after it (the `FLOW` line, one line per pollutant, the
temperature line when it is written), the node count line following them, and
every record of `iface_saveOutletResults` is the node ID, the six date tokens
and that same number of values. -/
theorem C12_constituent_count (E : Env) (P : Project)
    (h : P.TempModel_active = 0 ∨ P.TempModel_active = 1) :
    (∀ s, ∃ records, (openFileForOutput E P true s).Foutflows_file
        = some (outputHeader E P ++ records))
    ∧ (∃ rest, outputHeader E P
        = [["SWMM5", "Interface", "File"], P.Title0,
            [fmt_d P.ReportStep, "-", "reporting", "time", "step", "in", "sec"],
            countLine (P.nPollut + 1 + P.TempModel_active) "constituents"]
          ++ constituentLines E P
          ++ countLine ((outletNodes E P).length : Nat) "nodes" :: rest)
    ∧ ((constituentLines E P).length : Int) = P.nPollut + 1 + P.TempModel_active
    ∧ (constituentLines E P).length
        = 1 + P.Pollut.length + (if P.TempModel_active = 1 then 1 else 0)
    ∧ ∀ (reportDate : DateTime) (i : Nat),
        outletRecord E P reportDate i
          = [(nodeAt P i).ID] ++ theDate E reportDate ++ recordValues E P i
        ∧ (theDate E reportDate).length = 6
        ∧ ((recordValues E P i).length : Int) = P.nPollut + 1 + P.TempModel_active := by
  refine ⟨fun s => ⟨_, openFileForOutput_file E P s⟩,
    ⟨nodeLines E P ++ [headingLine P], ?_⟩, ?_, ?_, ?_⟩
  · rw [outputHeader_parts]; simp
  · rcases h with h | h <;> simp [constituentLines, Project.nPollut, h]
  · rcases h with h | h <;> simp [constituentLines, h] <;> ring
  · intro reportDate i
    refine ⟨outletRecord_parts E P reportDate i, by simp [theDate], ?_⟩
    rcases h with h | h <;> simp [recordValues, Project.nPollut, h]

/-- C12, on the project with the pollutant TSS and the temperature model
active: line 4 holds 3, three constituent lines follow and a record has three
values. -/
theorem C12_constituent_count_witness :
    ((outputHeader (sampleEnv projectTSSTemp) projectTSSTemp).getD 3 []).head? = some "3"
    ∧ (constituentLines (sampleEnv projectTSSTemp) projectTSSTemp).length = 3
    ∧ (recordValues (sampleEnv projectTSSTemp) projectTSSTemp 1).length = 3 := by
  have h := C12_constituent_count (sampleEnv projectTSSTemp) projectTSSTemp (Or.inr (by decide))
  refine ⟨by decide, ?_, ?_⟩
  · have h2 := h.2.2.1
    have : projectTSSTemp.nPollut + 1 + projectTSSTemp.TempModel_active = 3 := by decide
    omega
  · have h3 := (h.2.2.2.2 0 1).2.2
    have : projectTSSTemp.nPollut + 1 + projectTSSTemp.TempModel_active = 3 := by decide
    omega

/-- C13: the node count `n` that `openFileForOutput` writes is the number of
node ID lines that follow it (the heading line ends the header), and every
call of `iface_saveOutletResults` appends `n` record lines to the file. -/
theorem C13_node_count (E : Env) (P : Project) (reportDate : DateTime) (file : List Line) :
    (∀ s, ∃ records, (openFileForOutput E P true s).Foutflows_file
        = some (outputHeader E P ++ records))
    ∧ (∃ before, outputHeader E P
        = before ++ [countLine ((outletNodes E P).length : Nat) "nodes"]
          ++ nodeLines E P ++ [headingLine P]
        ∧ before.length = 4 + (constituentLines E P).length)
    ∧ (nodeLines E P).length = (outletNodes E P).length
    ∧ (∃ records, iface_saveOutletResults E P reportDate file = file ++ records
        ∧ records.length = (outletNodes E P).length)
    ∧ (iface_saveOutletResults E P reportDate file).length
        = file.length + (outletNodes E P).length := by
  refine ⟨fun s => ⟨_, openFileForOutput_file E P s⟩,
    ⟨_, outputHeader_parts E P, by simp; omega⟩, by simp [nodeLines], ?_, ?_⟩
  · exact ⟨_, iface_saveOutletResults_eq E P reportDate file, by simp⟩
  · rw [iface_saveOutletResults_eq]; simp

/-! ### Opening the routing files, error messages -/

theorem report_writeErrorMsg_code (E : Env) (code : Int) (arg : String) (s : State) :
    (report_writeErrorMsg E code arg s).ErrorCode = code := by
  unfold report_writeErrorMsg
  cases s.Frpt_file <;> (dsimp only; split_ifs <;> rfl)

theorem report_writeErrorMsg_files (E : Env) (code : Int) (arg : String) (s : State) :
    (report_writeErrorMsg E code arg s).Finflows_file = s.Finflows_file
    ∧ (report_writeErrorMsg E code arg s).Foutflows_file = s.Foutflows_file := by
  unfold report_writeErrorMsg report_writeLine
  cases s.Frpt_file <;> (dsimp only; split_ifs <;> exact ⟨rfl, rfl⟩)

/-- C14: when `Foutflows.mode` and `Finflows.mode` both differ from `NO_FILE`
and `strcomp` finds the two file names equal, `iface_openRoutingFiles` does
nothing after the initialization but `report_writeErrorMsg(
ERR_ROUTING_FILE_NAMES, "")`: `ErrorCode` is that code and both file handles
are as before, no file being opened.  In every other case the function goes on
from the initialized state to the two opening steps, the check having changed
nothing: with no file to save or use, `ErrorCode` is as it was on entry. -/
theorem C14_same_file_names (E : Env) (P : Project) (J : Junk) (canOpen : Bool)
    (opened : Option TextFile) (s : State) :
    (s.Foutflows_mode ≠ E.NO_FILE → s.Finflows_mode ≠ E.NO_FILE →
      E.strcomp s.Foutflows_name s.Finflows_name = true →
        iface_openRoutingFiles E P J canOpen opened s
          = report_writeErrorMsg E E.ERR_ROUTING_FILE_NAMES "" (resetShared s)
        ∧ (iface_openRoutingFiles E P J canOpen opened s).ErrorCode
            = E.ERR_ROUTING_FILE_NAMES
        ∧ (iface_openRoutingFiles E P J canOpen opened s).Foutflows_file = s.Foutflows_file
        ∧ (iface_openRoutingFiles E P J canOpen opened s).Finflows_file = s.Finflows_file)
    ∧ (¬ (s.Foutflows_mode ≠ E.NO_FILE ∧ s.Finflows_mode ≠ E.NO_FILE
          ∧ E.strcomp s.Foutflows_name s.Finflows_name = true) →
        iface_openRoutingFiles E P J canOpen opened s
          = (if (if s.Foutflows_mode = E.SAVE_FILE then
                  openFileForOutput E P canOpen (resetShared s)
                else resetShared s).Finflows_mode = E.USE_FILE then
              openFileForInput E P J opened
                (if s.Foutflows_mode = E.SAVE_FILE then
                  openFileForOutput E P canOpen (resetShared s) else resetShared s)
            else
              (if s.Foutflows_mode = E.SAVE_FILE then
                openFileForOutput E P canOpen (resetShared s) else resetShared s))
        ∧ (s.Foutflows_mode ≠ E.SAVE_FILE → s.Finflows_mode ≠ E.USE_FILE →
            iface_openRoutingFiles E P J canOpen opened s = resetShared s
            ∧ (iface_openRoutingFiles E P J canOpen opened s).ErrorCode = s.ErrorCode)) := by
  constructor
  · intro h1 h2 h3
    have hc : (resetShared s).Foutflows_mode ≠ E.NO_FILE
        ∧ (resetShared s).Finflows_mode ≠ E.NO_FILE
        ∧ E.strcomp (resetShared s).Foutflows_name (resetShared s).Finflows_name = true :=
      ⟨h1, h2, h3⟩
    have heq : iface_openRoutingFiles E P J canOpen opened s
        = report_writeErrorMsg E E.ERR_ROUTING_FILE_NAMES "" (resetShared s) := by
      unfold iface_openRoutingFiles
      exact if_pos hc
    rw [heq]
    refine ⟨rfl, report_writeErrorMsg_code _ _ _ _, ?_, ?_⟩
    · exact (report_writeErrorMsg_files _ _ _ _).2
    · exact (report_writeErrorMsg_files _ _ _ _).1
  · intro hn
    have hc : ¬ ((resetShared s).Foutflows_mode ≠ E.NO_FILE
        ∧ (resetShared s).Finflows_mode ≠ E.NO_FILE
        ∧ E.strcomp (resetShared s).Foutflows_name (resetShared s).Finflows_name = true) := hn
    have heq : iface_openRoutingFiles E P J canOpen opened s
        = (if (if s.Foutflows_mode = E.SAVE_FILE then
                  openFileForOutput E P canOpen (resetShared s)
                else resetShared s).Finflows_mode = E.USE_FILE then
              openFileForInput E P J opened
                (if s.Foutflows_mode = E.SAVE_FILE then
                  openFileForOutput E P canOpen (resetShared s) else resetShared s)
            else
              (if s.Foutflows_mode = E.SAVE_FILE then
                openFileForOutput E P canOpen (resetShared s) else resetShared s)) := by
      unfold iface_openRoutingFiles
      exact if_neg hc
    refine ⟨heq, ?_⟩
    intro h1 h2
    rw [heq, if_neg h1, if_neg (show ¬ (resetShared s).Finflows_mode = E.USE_FILE from h2)]
    exact ⟨rfl, rfl⟩

/-- C14, on a project that saves to `flows.txt` and uses `FLOWS.TXT`: the
error code 330 is set and neither file is opened; with two different names
and no file to open no error is set. -/
theorem C14_same_file_names_witness :
    (iface_openRoutingFiles (sampleEnv projectTSS) projectTSS noJunk true none
        { initState "FLOWS.TXT" "flows.txt" with Finflows_mode := 2, Foutflows_mode := 3 }).ErrorCode
        = 330
    ∧ (iface_openRoutingFiles (sampleEnv projectTSS) projectTSS noJunk true none
        { initState "FLOWS.TXT" "flows.txt" with Finflows_mode := 2, Foutflows_mode := 3 }).Foutflows_file
        = none
    ∧ (iface_openRoutingFiles (sampleEnv projectTSS) projectTSS noJunk true none
        (initState "in.txt" "out.txt")).ErrorCode = 0 := by
  have h := C14_same_file_names (sampleEnv projectTSS) projectTSS noJunk true none
    { initState "FLOWS.TXT" "flows.txt" with Finflows_mode := 2, Foutflows_mode := 3 }
  have h1 := h.1 (by decide) (by decide) (by decide)
  have h2 := ((C14_same_file_names (sampleEnv projectTSS) projectTSS noJunk true none
    (initState "in.txt" "out.txt")).2 (by decide)).2 (by decide) (by decide)
  exact ⟨h1.2.1, h1.2.2.1, h2.2⟩

/-- C15: `report_writeErrorMsg(code, s)` leaves `ErrorCode = code`, with the
report file open or not; when `code <= ERR_INPUT` or `code >= ERR_FILE_NAME`
it stores the message in `ErrorMsg`, and otherwise `ErrorMsg` is unchanged.
With no report file nothing is written; with one, a blank line and the message
are written. -/
theorem C15_error_message (E : Env) (code : Int) (arg : String) (s : State) :
    (report_writeErrorMsg E code arg s).ErrorCode = code
    ∧ ((code ≤ E.ERR_INPUT ∨ code ≥ E.ERR_FILE_NAME) →
        (report_writeErrorMsg E code arg s).ErrorMsg = E.error_getMsg code arg)
    ∧ (¬ (code ≤ E.ERR_INPUT ∨ code ≥ E.ERR_FILE_NAME) →
        (report_writeErrorMsg E code arg s).ErrorMsg = s.ErrorMsg)
    ∧ (s.Frpt_file = none → (report_writeErrorMsg E code arg s).Frpt_file = none)
    ∧ (∀ out, s.Frpt_file = some out →
        (report_writeErrorMsg E code arg s).Frpt_file
          = some (out ++ ["\n  "] ++ [E.error_getMsg code arg])) := by
  refine ⟨report_writeErrorMsg_code E code arg s, ?_, ?_, ?_, ?_⟩
  · intro h
    unfold report_writeErrorMsg
    cases s.Frpt_file <;> (dsimp only; rw [if_pos h])
  · intro h
    unfold report_writeErrorMsg report_writeLine
    cases s.Frpt_file <;> (dsimp only; rw [if_neg h])
  · intro h
    unfold report_writeErrorMsg
    rw [h]; dsimp only; split_ifs <;> exact h
  · intro out h
    unfold report_writeErrorMsg report_writeLine
    rw [h]; dsimp only; split_ifs <;> simp

/-- C15, with `ERR_INPUT = 200` and `ERR_FILE_NAME = 301` and no report file:
code 200 is stored with its message, code 250 is stored and the message kept
as it was. -/
theorem C15_error_message_witness :
    (report_writeErrorMsg (sampleEnv projectTSS) 200 "x" (initState "" "")).ErrorCode = 200
    ∧ (report_writeErrorMsg (sampleEnv projectTSS) 200 "x" (initState "" "")).ErrorMsg
        = "ERROR 200: x"
    ∧ (report_writeErrorMsg (sampleEnv projectTSS) 250 "x" (initState "" "")).ErrorCode = 250
    ∧ (report_writeErrorMsg (sampleEnv projectTSS) 250 "x" (initState "" "")).ErrorMsg = "" :=
  ⟨(C15_error_message (sampleEnv projectTSS) 200 "x" (initState "" "")).1,
   (C15_error_message (sampleEnv projectTSS) 200 "x" (initState "" "")).2.1 (by decide),
   (C15_error_message (sampleEnv projectTSS) 250 "x" (initState "" "")).1,
   (C15_error_message (sampleEnv projectTSS) 250 "x" (initState "" "")).2.2.1 (by decide)⟩

/-! ### Queries on the interface values -/

theorem cellAt_setCell_self (m : Matrix) (i j : Int) (v : ℚ) :
    cellAt (setCell (some m) i j v) i j = v := by
  simp [cellAt, setCell]

theorem cellAt_setCell_col (M : Option Matrix) (i j a c : Int) (v : ℚ)
    (h : c.toNat ≠ j.toNat) : cellAt (setCell M i j v) a c = cellAt M a c := by
  cases M with
  | none => rfl
  | some m => simp [cellAt, setCell, h]

theorem setCell_isSome (M : Option Matrix) (i j : Int) (v : ℚ) :
    (setCell M i j v).isSome = M.isSome := by
  cases M <;> rfl

theorem readQualValues_below (i : Int) :
    ∀ (k : Nat) (j : Int) (toks : Line) (M : Option Matrix) (a c : Int),
      0 ≤ c → c < j →
      cellAt (readQualValues i k j toks M).2 a c = cellAt M a c := by
  intro k
  induction k with
  | zero => intro j toks M a c _ _; rfl
  | succ k ih =>
    intro j toks M a c h0 hc
    cases toks with
    | nil => rfl
    | cons t toks =>
      rw [readQualValues, ih (j + 1) toks _ a c h0 (by omega)]
      exact cellAt_setCell_col M i j a c _ (by omega)

theorem readQualValues_isSome (i : Int) :
    ∀ (k : Nat) (j : Int) (toks : Line) (M : Option Matrix),
      (readQualValues i k j toks M).2.isSome = M.isSome := by
  intro k
  induction k with
  | zero => intro j toks M; rfl
  | succ k ih =>
    intro j toks M
    cases toks with
    | nil => rfl
    | cons t toks => rw [readQualValues, ih, setCell_isSome]

theorem readQualValues_cell (i : Int) :
    ∀ (k : Nat) (j : Int) (toks : Line) (M : Option Matrix) (m : Nat),
      M.isSome = true → 0 ≤ j → m < k → m < toks.length →
      cellAt (readQualValues i k j toks M).2 i (j + m) = atof (toks.getD m "") := by
  intro k
  induction k with
  | zero => intro j toks M m _ _ hm _; omega
  | succ k ih =>
    intro j toks M m hM hj hm hlen
    cases toks with
    | nil => simp at hlen
    | cons t toks =>
      rw [readQualValues]
      cases m with
      | zero =>
        rw [readQualValues_below i k (j + 1) toks _ i (j + (0 : Nat)) (by omega) (by omega)]
        obtain ⟨m0, rfl⟩ := Option.isSome_iff_exists.mp hM
        simpa using cellAt_setCell_self m0 i j (atof t)
      | succ m =>
        have h := ih (j + 1) toks (setCell M i j (atof t)) m
          (by rw [setCell_isSome]; exact hM) (by omega) (by omega) (by simpa using hlen)
        have e : j + ((m + 1 : Nat) : Int) = j + 1 + (m : Int) := by push_cast; ring
        rw [e, h]
        simp

/-- C20: `iface_getIfaceQual`, `iface_getIfaceFlow` and `iface_getIfaceNode`
return 0.0, 0.0 and -1 for an index outside `0 .. NumIfaceNodes-1`;
`iface_getIfaceQual` returns 0.0 when `IfacePolluts[p] < 0`, and otherwise
`(1 - IfaceFrac)*c1 + IfaceFrac*c2` with `c1`, `c2` the old and new values in
column `IfacePolluts[p] + 1`.  That column holds the value of the file position
`IfacePolluts[p]`: `readNewIfaceValues` stores the value token at position `m`
after the flow of a record line in column `m + 1` of the row. -/
theorem C20_quality_lookup (E : Env) (P : Project) (s : State) (index p : Int) :
    (¬ (index ≥ 0 ∧ index < s.NumIfaceNodes) →
      iface_getIfaceQual s index p = 0 ∧ iface_getIfaceFlow s index = 0
      ∧ iface_getIfaceNode s index = -1)
    ∧ (index ≥ 0 ∧ index < s.NumIfaceNodes → intAt s.IfacePolluts p < 0 →
        iface_getIfaceQual s index p = 0)
    ∧ (index ≥ 0 ∧ index < s.NumIfaceNodes → 0 ≤ intAt s.IfacePolluts p →
        iface_getIfaceQual s index p
          = (1 - s.IfaceFrac) * cellAt s.OldIfaceValues index (intAt s.IfacePolluts p + 1)
            + s.IfaceFrac * cellAt s.NewIfaceValues index (intAt s.IfacePolluts p + 1))
    ∧ (∀ (id yr mon day hr min sec q : String) (vals : Line) (m : Nat),
        s.NewIfaceValues.isSome = true → m < s.NumIfacePolluts.toNat → m < vals.length →
        cellAt (readRecord E P index
            (id :: yr :: mon :: day :: hr :: min :: sec :: q :: vals) s).2.NewIfaceValues
            index ((m : Int) + 1)
          = atof (vals.getD m "")) := by
  refine ⟨?_, ?_, ?_, ?_⟩
  · intro h
    simp only [iface_getIfaceQual, iface_getIfaceFlow, iface_getIfaceNode, if_neg h]
    exact ⟨trivial, trivial, trivial⟩
  · intro h hj
    simp only [iface_getIfaceQual, if_pos h, if_pos hj]
  · intro h hj
    simp only [iface_getIfaceQual, if_pos h, if_neg (not_lt.mpr hj)]
  · intro id yr mon day hr min sec q vals m hM hm hlen
    have key := readQualValues_cell index s.NumIfacePolluts.toNat 1 vals
      (setCell s.NewIfaceValues index 0 (atof q / E.Qcf s.IfaceFlowUnits)) m
      (by rw [setCell_isSome]; exact hM) (by omega) hm hlen
    have e : (1 : Int) + (m : Int) = (m : Int) + 1 := by ring
    rw [e] at key
    unfold readRecord
    dsimp only
    rcases hr : readQualValues index s.NumIfacePolluts.toNat 1 vals
      (setCell s.NewIfaceValues index 0 (atof q / E.Qcf s.IfaceFlowUnits)) with ⟨r, M⟩
    rw [hr] at key
    cases r with
    | none => exact key
    | some rest1 =>
      dsimp only
      by_cases ht : P.TempModel_active = 1
      · rw [if_pos ht]
        cases rest1 with
        | nil => exact key
        | cons t more =>
          dsimp only
          rw [cellAt_setCell_col M index (s.NumIfacePolluts + 1) index ((m : Int) + 1) _
            (by omega)]
          exact key
      · rw [if_neg ht]
        exact key

/-- C20, on a state with one interface node, weight 1/2 and old and new values
10 and 20: index 5 is out of range; pollutant 0 at file position 0 gets 15; a
pollutant marked -1 gets 0; a record line with the value tokens `7.25` after
the flow leaves 7.25 in column 1. -/
theorem C20_quality_lookup_witness :
    (iface_getIfaceQual interpHalf 5 0 = 0 ∧ iface_getIfaceFlow interpHalf 5 = 0
      ∧ iface_getIfaceNode interpHalf 5 = -1)
    ∧ iface_getIfaceQual { interpHalf with IfacePolluts := some [-1] } 0 0 = 0
    ∧ iface_getIfaceQual interpHalf 0 0 = 15
    ∧ cellAt (readRecord (sampleEnv projectTSS) projectTSS 0
          ["OUT1", "2003", "01", "01", "00", "00", "00", "1.5", "7.25"]
          { interpHalf with NumIfacePolluts := 1 }).2.NewIfaceValues 0 1 = 29 / 4 := by
  refine ⟨(C20_quality_lookup (sampleEnv projectTSS) projectTSS interpHalf 5 0).1 (by decide),
    (C20_quality_lookup (sampleEnv projectTSS) projectTSS
      { interpHalf with IfacePolluts := some [-1] } 0 0).2.1 (by decide) (by decide), ?_, ?_⟩
  · rw [(C20_quality_lookup (sampleEnv projectTSS) projectTSS interpHalf 0 0).2.2.1
      (by decide) (by decide)]
    decide!
  · have h := (C20_quality_lookup (sampleEnv projectTSS) projectTSS
      { interpHalf with NumIfacePolluts := 1 } 0 0).2.2.2
      "OUT1" "2003" "01" "01" "00" "00" "00" "1.5" ["7.25"] 0 (by decide) (by decide) (by decide)
    rw [show ((0 : Nat) : Int) + 1 = 1 from rfl] at h
    rw [h]
    decide!

/-! ### Continuity tables by chunks -/

theorem MIN_int_eq_min (x y : Int) : MIN_int x y = min x y := by
  unfold MIN_int
  split_ifs with h
  · exact (min_eq_left h).symm
  · exact (min_eq_right (le_of_not_le h)).symm

theorem chunkLoop_done {σ : Type} (N : Int) (table : Int → Int → σ → σ) (fuel : Nat)
    (p1 p2 : Int) (out : σ) (h : ¬ p1 ≤ N) : chunkLoop N table fuel p1 p2 out = some out := by
  cases fuel <;> simp [chunkLoop, h]

theorem chunkLoop_step {σ : Type} (N : Int) (table : Int → Int → σ → σ) (fuel : Nat)
    (p1 p2 : Int) (out : σ) (h : p1 ≤ N) :
    chunkLoop N table (fuel + 1) p1 p2 out
      = chunkLoop N table fuel (p2 + 1) (MIN_int (p2 + 1 + 4) N) (table (p1 - 1) (p2 - 1) out) := by
  rw [chunkLoop, if_pos h]

theorem chunkLoop_from {σ : Type} (N : Int) (table : Int → Int → σ → σ) (m : Nat)
    (hm : (m : Int) = (N + 4) / 5) :
    ∀ (r k fuel : Nat) (out : σ), k + (r + 1) = m → r + 1 ≤ fuel →
      chunkLoop N table fuel (5 * (k : Int) + 1) (MIN_int (5 * (k : Int) + 5) N) out
        = some (((List.range' k (r + 1)).map
            (fun (k : Nat) => (5 * (k : Int), min (5 * (k : Int) + 4) (N - 1)))).foldl
            (fun o c => table c.1 c.2 o) out) := by
  intro r
  induction r with
  | zero =>
    intro k fuel out hk hf
    obtain ⟨f, rfl⟩ : ∃ f, fuel = f + 1 := ⟨fuel - 1, by omega⟩
    have h1 : 5 * (k : Int) + 1 ≤ N := by omega
    have h2 : MIN_int (5 * (k : Int) + 5) N = N := by
      rw [MIN_int_eq_min]; omega
    rw [chunkLoop_step N table f _ _ out h1, h2, chunkLoop_done N table f _ _ _ (by omega)]
    have h3 : min (5 * (k : Int) + 4) (N - 1) = N - 1 := by omega
    simp [h3]
  | succ r ih =>
    intro k fuel out hk hf
    obtain ⟨f, rfl⟩ : ∃ f, fuel = f + 1 := ⟨fuel - 1, by omega⟩
    have h1 : 5 * (k : Int) + 1 ≤ N := by omega
    have h2 : MIN_int (5 * (k : Int) + 5) N = 5 * (k : Int) + 5 := by
      rw [MIN_int_eq_min]; omega
    rw [chunkLoop_step N table f _ _ out h1, h2]
    have e1 : 5 * (k : Int) + 5 + 1 = 5 * ((k + 1 : Nat) : Int) + 1 := by push_cast; ring
    have e2 : 5 * (k : Int) + 5 + 1 + 4 = 5 * ((k + 1 : Nat) : Int) + 5 := by push_cast; ring
    rw [e2, e1, ih (k + 1) f _ (by omega) (by omega)]
    have h3 : min (5 * (k : Int) + 4) (N - 1) = 5 * (k : Int) + 4 := by omega
    have e3 : 5 * (k : Int) + 5 - 1 = 5 * (k : Int) + 4 := by ring
    have e4 : 5 * (k : Int) + 1 - 1 = 5 * (k : Int) := by ring
    rw [List.range'_succ k (r + 1), List.map_cons, List.foldl_cons, h3, e3, e4]

theorem chunkLoop_ranges {σ : Type} (N : Int) (hN : 0 ≤ N) (table : Int → Int → σ → σ)
    (fuel : Nat) (hf : ((N + 4) / 5).toNat ≤ fuel) (out : σ) :
    chunkLoop N table fuel 1 (MIN_int 5 N) out
      = some ((chunkRanges N).foldl (fun o c => table c.1 c.2 o) out) := by
  have hm : (((N + 4) / 5).toNat : Int) = (N + 4) / 5 := Int.toNat_of_nonneg (by omega)
  rcases Nat.eq_zero_or_pos ((N + 4) / 5).toNat with h0 | hpos
  · have hN0 : N = 0 := by omega
    subst hN0
    rw [chunkLoop_done 0 table fuel _ _ _ (by decide)]
    simp [chunkRanges]
  · obtain ⟨r, hr⟩ : ∃ r, ((N + 4) / 5).toNat = r + 1 := ⟨_, (Nat.succ_pred_eq_of_pos hpos).symm⟩
    have h := chunkLoop_from N table _ hm r 0 fuel out (by omega) (by omega)
    have e1 : 5 * ((0 : Nat) : Int) + 1 = 1 := by norm_num
    have e2 : 5 * ((0 : Nat) : Int) + 5 = 5 := by norm_num
    rw [e1, e2] at h
    rw [h, chunkRanges, hr, List.range_eq_range']

/-- C17: for `N = Nobjects[POLLUT] >= 0` the chunking loop of
`report_writeQualError` and of `report_writeLoadingError` ends (any fuel from
`ceil(N/5)` on gives the result) and calls the table writer with the ranges
`chunkRanges N`, in that order: there are `ceil(N/5)` of them, none for
`N = 0`; range `k` starts at `5k` (the first at 0, each next one right after
the one before), holds between 1 and 5 indexes below `N`, exactly 5 unless it
is the last, and the last ends at `N-1`. -/
theorem C17_pollutant_chunks {σ : Type} (N : Int) (hN : 0 ≤ N)
    (table : Int → Int → σ → σ) (fuel : Nat) (hf : ((N + 4) / 5).toNat ≤ fuel) (out : σ) :
    report_writeQualError N table fuel out
        = some ((chunkRanges N).foldl (fun o c => table c.1 c.2 o) out)
    ∧ report_writeLoadingError N table fuel out
        = some ((chunkRanges N).foldl (fun o c => table c.1 c.2 o) out)
    ∧ report_writeQualError N logCall fuel [] = some (chunkRanges N)
    ∧ ((chunkRanges N).length : Int) = ⌈(N : ℚ) / 5⌉
    ∧ (N = 0 → chunkRanges N = [])
    ∧ (∀ (k : Nat) (a b : Int), (chunkRanges N)[k]? = some (a, b) →
        a = 5 * k ∧ a ≤ b ∧ b ≤ N - 1 ∧ b - a + 1 ≤ 5
        ∧ (k + 1 < (chunkRanges N).length →
            b - a + 1 = 5 ∧ ∃ b2, (chunkRanges N)[k + 1]? = some (b + 1, b2))
        ∧ (k + 1 = (chunkRanges N).length → b = N - 1)) := by
  have hm : (((N + 4) / 5).toNat : Int) = (N + 4) / 5 := Int.toNat_of_nonneg (by omega)
  have hlen : (chunkRanges N).length = ((N + 4) / 5).toNat := by simp [chunkRanges]
  refine ⟨chunkLoop_ranges N hN table fuel hf out, chunkLoop_ranges N hN table fuel hf out,
    ?_, ?_, ?_, ?_⟩
  · have h := chunkLoop_ranges N hN logCall fuel hf []
    have e : ∀ (l acc : List (Int × Int)),
        l.foldl (fun o c => logCall c.1 c.2 o) acc = acc ++ l := by
      intro l
      induction l with
      | nil => intro acc; simp
      | cons c l ih => intro acc; rw [List.foldl_cons, ih]; simp [logCall]
    rw [e] at h
    simpa [report_writeQualError] using h
  · rw [hlen, hm]
    symm
    rw [Int.ceil_eq_iff]
    have h1 : 5 * ((N + 4) / 5) ≤ N + 4 := by omega
    have h2 : N < 5 * ((N + 4) / 5) + 1 := by omega
    have h1q : (5 : ℚ) * (((N + 4) / 5 : Int) : ℚ) ≤ (N : ℚ) + 4 := by exact_mod_cast h1
    have h2q : (N : ℚ) < 5 * (((N + 4) / 5 : Int) : ℚ) + 1 := by exact_mod_cast h2
    constructor
    · rw [lt_div_iff₀ (by norm_num)]; linarith
    · rw [div_le_iff₀ (by norm_num)]
      have h3 : N ≤ 5 * ((N + 4) / 5) := by omega
      have h3q : (N : ℚ) ≤ 5 * (((N + 4) / 5 : Int) : ℚ) := by exact_mod_cast h3
      linarith
  · intro h0
    subst h0
    simp [chunkRanges]
  · intro k a b hk
    have hklt : k < ((N + 4) / 5).toNat := by
      have := (List.getElem?_eq_some.mp hk).1
      omega
    have hab : a = 5 * (k : Int) ∧ b = min (5 * (k : Int) + 4) (N - 1) := by
      simp only [chunkRanges, List.getElem?_map, List.getElem?_range hklt, Option.map_some',
        Option.some.injEq, Prod.mk.injEq] at hk
      exact ⟨hk.1.symm, hk.2.symm⟩
    obtain ⟨ha, hb⟩ := hab
    refine ⟨ha, by omega, by omega, by omega, ?_, ?_⟩
    · intro hnext
      rw [hlen] at hnext
      refine ⟨by omega, min (5 * ((k + 1 : Nat) : Int) + 4) (N - 1), ?_⟩
      simp only [chunkRanges, List.getElem?_map, List.getElem?_range hnext, Option.map_some',
        Option.some.injEq, Prod.mk.injEq]
      refine ⟨?_, trivial⟩
      push_cast
      omega
    · intro hlast
      rw [hlen] at hlast
      omega

/-- C17, for 12 pollutants and fuel 3: the table writer is called with the
ranges 0..4, 5..9 and 10..11. -/
theorem C17_pollutant_chunks_witness :
    report_writeQualError 12 logCall 3 [] = some [(0, 4), (5, 9), (10, 11)]
    ∧ report_writeLoadingError 12 logCall 3 [] = some [(0, 4), (5, 9), (10, 11)] := by
  have h := C17_pollutant_chunks 12 (by decide) logCall 3 (by decide) []
  have e : chunkRanges 12 = [(0, 4), (5, 9), (10, 11)] := by decide
  refine ⟨by rw [h.2.2.1, e], ?_⟩
  rw [h.2.1, e]
  rfl

/-! ### The report file -/

theorem written_nil (s : State) : written [] s = s := by
  cases s with
  | mk a1 a2 f =>
    cases f <;> simp [written]

theorem written_written (a b : List String) (s : State) :
    written b (written a s) = written (a ++ b) s := by
  cases s with
  | mk a1 a2 f =>
    cases f <;> simp [written]

theorem report_writeLine_written (x : String) (s : State) :
    report_writeLine x s = written ["\n  " ++ x] s := by
  cases s with
  | mk a1 a2 f =>
    cases f <;> simp [written, report_writeLine]

theorem fprintf_Frpt_written (t : String) (s : State) : fprintf_Frpt t s = written [t] s := rfl

theorem written_file (l out : List String) (s : State) (h : s.Frpt_file = some out) :
    (written l s).Frpt_file = some (out ++ l) := by
  simp [written, h]

/-- C16: with `ErrorCode` not 0, `report_writeReport` and `report_writeTitle`
return the state they were given: nothing is written and no variable changes.
`report_writeReport` also returns the state as it is when `Nperiods = 0`.
When `IgnoreRouting` and `IgnoreQuality` both equal `TRUE`, it returns before
the node and link tables: the state is the one given or the one
`report_Subcatchments` leaves, the latter exactly when no error is set,
`Nperiods` is not 0 and the subcatchment test holds. -/
theorem C16_report_guards (E : Env) (P : Project) (R : Rpt) (LinkResults0 : Int → ℚ)
    (s : State) :
    (s.ErrorCode ≠ 0 →
      report_writeReport E P R LinkResults0 s = s ∧ report_writeTitle R s = s)
    ∧ (R.Nperiods = 0 → report_writeReport E P R LinkResults0 s = s)
    ∧ (R.IgnoreRouting = R.TRUE → R.IgnoreQuality = R.TRUE →
        report_writeReport E P R LinkResults0 s
          = (if s.ErrorCode = 0 ∧ R.Nperiods ≠ 0 ∧ R.RptFlags_subcatchments ≠ R.NONE
                ∧ (R.IgnoreRainfall = R.FALSE ∨ R.IgnoreSnowmelt = R.FALSE
                    ∨ R.IgnoreGwater = R.FALSE)
             then report_Subcatchments E P R s else s)) := by
  refine ⟨?_, ?_, ?_⟩
  · intro h
    exact ⟨by rw [report_writeReport, if_pos h], by rw [report_writeTitle, if_pos h]⟩
  · intro h
    unfold report_writeReport
    by_cases he : s.ErrorCode ≠ 0
    · rw [if_pos he]
    · rw [if_neg he, if_pos h]
  · intro h1 h2
    unfold report_writeReport
    by_cases he : s.ErrorCode ≠ 0
    · rw [if_pos he, if_neg (fun h => he h.1)]
    · rw [if_neg he]
      by_cases hp : R.Nperiods = 0
      · rw [if_pos hp, if_neg (fun h => h.2.1 hp)]
      · rw [if_neg hp]
        dsimp only
        rw [if_pos ⟨h1, h2⟩]
        by_cases hc : R.RptFlags_subcatchments ≠ R.NONE
            ∧ (R.IgnoreRainfall = R.FALSE ∨ R.IgnoreSnowmelt = R.FALSE
                ∨ R.IgnoreGwater = R.FALSE)
        · rw [if_pos hc, if_pos ⟨not_not.mp he, hp, hc⟩]
        · rw [if_neg hc, if_neg (fun h => hc h.2.2)]

/-- C16, on the sample report data with an open report file: with
`ErrorCode = 1` both functions leave the file empty; with no period nothing is
written; with routing and quality ignored the file ends with the subcatchment
table that `report_Subcatchments` writes. -/
theorem C16_report_guards_witness :
    (report_writeReport (sampleEnv projectTSS) projectTSS sampleRpt (fun _ => 0)
        { reportState with ErrorCode := 1 }).Frpt_file = some []
    ∧ (report_writeTitle sampleRpt { reportState with ErrorCode := 1 }).Frpt_file = some []
    ∧ (report_writeReport (sampleEnv projectTSS) projectTSS { sampleRpt with Nperiods := 0 }
        (fun _ => 0) reportState).Frpt_file = some []
    ∧ report_writeReport (sampleEnv projectTSS) projectTSS
        { sampleRpt with IgnoreRouting := 1, IgnoreQuality := 1 } (fun _ => 0) reportState
      = report_Subcatchments (sampleEnv projectTSS) projectTSS
        { sampleRpt with IgnoreRouting := 1, IgnoreQuality := 1 } reportState := by
  have h1 := (C16_report_guards (sampleEnv projectTSS) projectTSS sampleRpt (fun _ => 0)
    { reportState with ErrorCode := 1 }).1 (by decide)
  have h2 := (C16_report_guards (sampleEnv projectTSS) projectTSS { sampleRpt with Nperiods := 0 }
    (fun _ => 0) reportState).2.1 rfl
  have h3 := (C16_report_guards (sampleEnv projectTSS) projectTSS
    { sampleRpt with IgnoreRouting := 1, IgnoreQuality := 1 } (fun _ => 0) reportState).2.2
    rfl rfl
  refine ⟨by rw [h1.1]; rfl, by rw [h1.2]; rfl, by rw [h2]; rfl, ?_⟩
  rw [h3]
  exact if_pos (by decide)

/-! ### Rankings -/

theorem statAt_range (a : List TMaxStats) :
    (List.range a.length).map (statAt a) = a := by
  apply List.ext_getElem
  · simp
  · intro i h1 h2
    simp [statAt, List.getElem?_eq_getElem h2]

theorem foldl_slots {σ : Type} (f : TMaxStats → σ → σ) (a : List TMaxStats) (s : σ) :
    (List.range a.length).foldl (fun t i => f (statAt a i) t) s
      = a.foldl (fun t m => f m t) s := by
  have h := List.foldl_map (statAt a) (fun t m => f m t) (List.range a.length) s
  rw [statAt_range] at h
  exact h.symm

theorem foldl_written (keep : TMaxStats → Bool) (text : TMaxStats → String)
    (a : List TMaxStats) :
    ∀ s : State, a.foldl (fun t m => if keep m then written [text m] t else t) s
      = written ((a.filter keep).map text) s := by
  induction a with
  | nil => intro s; exact (written_nil s).symm
  | cons m a ih =>
    intro s
    rw [List.foldl_cons, ih]
    cases h : keep m
    · simp [h]
    · simp [h, written_written]

theorem nonconvergedLine_eq (P : Project) (a : List TMaxStats) (i : Nat) (s : State) :
    nonconvergedLine P a i s
      = (fun m t => if decide (0 ≤ m.index ∧ 0 < m.value) then
          written [nonconvergedText P m] t else t) (statAt a i) s := by
  unfold nonconvergedLine
  dsimp only
  by_cases h : (statAt a i).index < 0 ∨ (statAt a i).value ≤ 0
  · rw [if_pos h, if_neg]
    simp only [decide_eq_true_eq, not_and, not_lt]
    intro h0
    rcases h with h | h
    · omega
    · exact h
  · rw [if_neg h, if_pos]
    · rfl
    · simp only [decide_eq_true_eq]
      push_neg at h
      exact ⟨h.1, h.2⟩

theorem flowTurnLine_eq (R : Rpt) (a : List TMaxStats) (i : Nat) (s : State) :
    flowTurnLine R a i s
      = (fun m t => if decide (0 ≤ m.index) then written [flowTurnText R m] t else t)
          (statAt a i) s := by
  unfold flowTurnLine
  dsimp only
  by_cases h : (statAt a i).index < 0
  · rw [if_pos h, if_neg]
    simpa using h
  · rw [if_neg h, if_pos]
    · rfl
    · simpa using h

theorem nonconverged_message (E : Env) (P : Project) (a : List TMaxStats) (n : Int) (s : State)
    (hnode : P.nNode ≠ 0) (hdw : P.RouteModel = E.DW)
    (h : n ≤ 0 ∨ (statAt a 0).index ≤ 0 ∨ (statAt a 0).value < 5 / 100000) :
    report_writeNonconvergedStats E P a n s
      = written (nonconvergedHeading
          ++ ["\n  Convergence obtained at all time steps.", "\n  "]) s := by
  unfold report_writeNonconvergedStats
  rw [if_neg (by rintro (h1 | h1); exact hnode h1; exact h1 hdw)]
  dsimp only
  rw [if_pos h]
  simp only [report_writeLine_written, fprintf_Frpt_written, written_written]
  rfl

theorem nonconverged_listing (E : Env) (P : Project) (a : List TMaxStats) (n : Int) (s : State)
    (hnode : P.nNode ≠ 0) (hdw : P.RouteModel = E.DW) (hlen : n.toNat = a.length)
    (h : ¬ (n ≤ 0 ∨ (statAt a 0).index ≤ 0 ∨ (statAt a 0).value < 5 / 100000)) :
    report_writeNonconvergedStats E P a n s
      = written (nonconvergedHeading
          ++ (a.filter (fun m => decide (0 ≤ m.index ∧ 0 < m.value))).map (nonconvergedText P)
          ++ ["\n  "]) s := by
  unfold report_writeNonconvergedStats
  rw [if_neg (by rintro (h1 | h1); exact hnode h1; exact h1 hdw)]
  dsimp only
  rw [if_neg h, hlen]
  simp only [nonconvergedLine_eq]
  rw [foldl_slots (fun m t => if decide (0 ≤ m.index ∧ 0 < m.value) then
      written [nonconvergedText P m] t else t) a, foldl_written]
  simp only [report_writeLine_written, written_written]
  rfl

theorem flowTurns_message (R : Rpt) (a : List TMaxStats) (n : Int) (s : State)
    (hlink : R.Link ≠ []) (h : n ≤ 0 ∨ (statAt a 0).index ≤ 0) :
    report_writeMaxFlowTurns R a n s
      = written (flowTurnHeading ++ ["\n  All links are stable.", "\n  "]) s := by
  unfold report_writeMaxFlowTurns
  rw [if_neg (by simpa using hlink)]
  dsimp only
  rw [if_pos h]
  simp only [report_writeLine_written, fprintf_Frpt_written, written_written]
  rfl

theorem flowTurns_listing (R : Rpt) (a : List TMaxStats) (n : Int) (s : State)
    (hlink : R.Link ≠ []) (hlen : n.toNat = a.length)
    (h : ¬ (n ≤ 0 ∨ (statAt a 0).index ≤ 0)) :
    report_writeMaxFlowTurns R a n s
      = written (flowTurnHeading
          ++ (a.filter (fun m => decide (0 ≤ m.index))).map (flowTurnText R)
          ++ ["\n  "]) s := by
  unfold report_writeMaxFlowTurns
  rw [if_neg (by simpa using hlink)]
  dsimp only
  rw [if_neg h, hlen]
  simp only [flowTurnLine_eq]
  rw [foldl_slots (fun m t => if decide (0 ≤ m.index) then
      written [flowTurnText R m] t else t) a, foldl_written]
  simp only [report_writeLine_written, written_written]
  rfl

/-- C18, as the code has it: in `report_writeNonconvergedStats`, run for a
project with nodes under `DW` routing, nothing is listed and `Convergence
obtained at all time steps.` is printed when `nMaxStats <= 0` or the first
record has a negative index or a value below 0.00005.  When `nMaxStats > 0`
and the first record has a positive index and a value of at least 0.00005, the
records listed are those with index `>= 0` and value `> 0`, in slot order, each
shown as `100*value` percent.  The threshold 0.00005 is tested on the first
record only. -/
theorem C18_nonconverged_display (E : Env) (P : Project) (a : List TMaxStats) (n : Int)
    (s : State) (hnode : P.nNode ≠ 0) (hdw : P.RouteModel = E.DW) :
    ((n ≤ 0 ∨ (statAt a 0).index < 0 ∨ (statAt a 0).value < 5 / 100000) →
      report_writeNonconvergedStats E P a n s
        = written (nonconvergedHeading
            ++ ["\n  Convergence obtained at all time steps.", "\n  "]) s)
    ∧ (n.toNat = a.length → 0 < n → 0 < (statAt a 0).index →
        5 / 100000 ≤ (statAt a 0).value →
        report_writeNonconvergedStats E P a n s
          = written (nonconvergedHeading
              ++ (a.filter (fun m => decide (0 ≤ m.index ∧ 0 < m.value))).map
                  (nonconvergedText P)
              ++ ["\n  "]) s
        ∧ ∀ m ∈ a.filter (fun m => decide (0 ≤ m.index ∧ 0 < m.value)),
            0 ≤ m.index ∧ 0 < m.value
            ∧ nonconvergedText P m
                = "\n  Node " ++ (nodeAt P m.index.toNat).ID ++ " ("
                    ++ fmt_prec 2 (100 * m.value) ++ "%)") := by
  refine ⟨fun h => nonconverged_message E P a n s hnode hdw
    (h.imp id (Or.imp le_of_lt id)), ?_⟩
  intro hlen hn hidx hval
  have h : ¬ (n ≤ 0 ∨ (statAt a 0).index ≤ 0 ∨ (statAt a 0).value < 5 / 100000) := by
    rintro (h1 | h1 | h1)
    · omega
    · omega
    · exact absurd h1 (not_lt.mpr hval)
  refine ⟨nonconverged_listing E P a n s hnode hdw hlen h, ?_⟩
  intro m hm
  have h2 := (List.mem_filter.mp hm).2
  simp only [decide_eq_true_eq] at h2
  exact ⟨h2.1, h2.2, rfl⟩

/-- C18, on the sample project: the ranking of node 1 (0.5), node 0 (0.25) and
an unused slot is listed as two lines; an empty ranking gives the message. -/
theorem C18_nonconverged_display_witness :
    (report_writeNonconvergedStats (sampleEnv projectTSS) projectTSS rankNonconverged 3
        reportState).Frpt_file
      = some (nonconvergedHeading ++ ["\n  Node OUT1 (50.00%)", "\n  Node J1 (25.00%)", "\n  "])
    ∧ (report_writeNonconvergedStats (sampleEnv projectTSS) projectTSS [] 0
        reportState).Frpt_file
      = some (nonconvergedHeading ++ ["\n  Convergence obtained at all time steps.", "\n  "]) := by
  have h := C18_nonconverged_display (sampleEnv projectTSS) projectTSS rankNonconverged 3
    reportState (by decide) (by decide)
  have h0 := (C18_nonconverged_display (sampleEnv projectTSS) projectTSS [] 0
    reportState (by decide) (by decide)).1 (Or.inl (le_refl 0))
  refine ⟨?_, by rw [h0]; rfl⟩
  rw [(h.2 (by decide) (by decide) (by decide) (by decide!)).1]
  decide!

/-- C18 fails on the code: with node 1 (value 0.5) in the first slot and node 0
(value 0.00001, below 0.00005) in the second, `report_writeNonconvergedStats`
lists the second record, as `0.00%`. -/
theorem C18_counterexample :
    (statAt rankSmallSecond 1).value < 5 / 100000
    ∧ (report_writeNonconvergedStats (sampleEnv projectTSS) projectTSS rankSmallSecond 2
        reportState).Frpt_file
      = some (nonconvergedHeading ++ ["\n  Node OUT1 (50.00%)", "\n  Node J1 (0.00%)", "\n  "]) := by
  decide!

/-- On a ranking whose first slot holds link 0, `report_writeMaxFlowTurns`
prints `All links are stable.` and lists neither slot: the test on the first
slot is `index <= 0`. -/
theorem flowTurns_first_slot_zero :
    (report_writeMaxFlowTurns sampleRpt rankFirstZero 2 reportState).Frpt_file
      = some (flowTurnHeading ++ ["\n  All links are stable.", "\n  "]) := by
  decide!

/-- C19, as the code has it, for a ranking array of `nMaxStats > 0` slots.
`report_writeMaxFlowTurns` (run with links) prints `All links are stable.`
when the index of the first slot is negative; when it is positive the function
lists the slots with index `>= 0`, object 0 among them, in slot order and no
other.  `report_writeNonconvergedStats` (run with nodes under `DW` routing)
prints `Convergence obtained at all time steps.` when the index of the first
slot is negative or its value is below 0.00005; when that index is positive
and that value at least 0.00005 it lists the slots with index `>= 0` and value
`> 0` and no other. -/
theorem C19_unused_slots (E : Env) (P : Project) (R : Rpt) (a : List TMaxStats) (n : Int)
    (s : State) (hn : 0 < n) (hlen : n.toNat = a.length) :
    (R.Link ≠ [] →
      ((statAt a 0).index < 0 →
        report_writeMaxFlowTurns R a n s
          = written (flowTurnHeading ++ ["\n  All links are stable.", "\n  "]) s)
      ∧ (0 < (statAt a 0).index →
        report_writeMaxFlowTurns R a n s
          = written (flowTurnHeading
              ++ (a.filter (fun m => decide (0 ≤ m.index))).map (flowTurnText R)
              ++ ["\n  "]) s))
    ∧ (P.nNode ≠ 0 → P.RouteModel = E.DW →
      (((statAt a 0).index < 0 ∨ (statAt a 0).value < 5 / 100000) →
        report_writeNonconvergedStats E P a n s
          = written (nonconvergedHeading
              ++ ["\n  Convergence obtained at all time steps.", "\n  "]) s)
      ∧ (0 < (statAt a 0).index → 5 / 100000 ≤ (statAt a 0).value →
        report_writeNonconvergedStats E P a n s
          = written (nonconvergedHeading
              ++ (a.filter (fun m => decide (0 ≤ m.index ∧ 0 < m.value))).map
                  (nonconvergedText P)
              ++ ["\n  "]) s)) := by
  refine ⟨fun hlink => ⟨?_, ?_⟩, fun hnode hdw => ⟨?_, ?_⟩⟩
  · intro h
    exact flowTurns_message R a n s hlink (Or.inr (le_of_lt h))
  · intro h
    refine flowTurns_listing R a n s hlink hlen ?_
    rintro (h1 | h1) <;> omega
  · intro h
    refine nonconverged_message E P a n s hnode hdw ?_
    rcases h with h | h
    · exact Or.inr (Or.inl (le_of_lt h))
    · exact Or.inr (Or.inr h)
  · intro h1 h2
    refine nonconverged_listing E P a n s hnode hdw hlen ?_
    rintro (h3 | h3 | h3)
    · omega
    · omega
    · exact absurd h3 (not_lt.mpr h2)

/-- C19, on the sample data: the ranking of link 1, link 0 and an unused slot
is listed by `report_writeMaxFlowTurns` as two lines, link 0 among them, and
the ranking of node 1, node 0 and an unused slot by
`report_writeNonconvergedStats` likewise. -/
theorem C19_unused_slots_witness :
    (report_writeMaxFlowTurns sampleRpt rankThree 3 reportState).Frpt_file
      = some (flowTurnHeading ++ ["\n  Link C2 (7)", "\n  Link C1 (3)", "\n  "])
    ∧ (report_writeNonconvergedStats (sampleEnv projectTSS) projectTSS rankNonconverged 3
        reportState).Frpt_file
      = some (nonconvergedHeading
          ++ ["\n  Node OUT1 (50.00%)", "\n  Node J1 (25.00%)", "\n  "]) := by
  have h1 := ((C19_unused_slots (sampleEnv projectTSS) projectTSS sampleRpt rankThree 3
    reportState (by decide) (by decide)).1 (List.cons_ne_nil _ _)).2 (by decide)
  have h2 := ((C19_unused_slots (sampleEnv projectTSS) projectTSS sampleRpt rankNonconverged 3
    reportState (by decide) (by decide)).2 (by decide) (by decide)).2 (by decide) (by decide!)
  refine ⟨?_, ?_⟩
  · rw [h1]; decide!
  · rw [h2]; decide!

/-- C19 fails on the code: with node 1 (value 0.5) in the first slot and node 0
(value 0) in the second, `report_writeNonconvergedStats` lists the first slot
only, though the index of the second is a real object index. -/
theorem C19_counterexample :
    0 ≤ (statAt rankZeroSecond 1).index
    ∧ (report_writeNonconvergedStats (sampleEnv projectTSS) projectTSS rankZeroSecond 2
        reportState).Frpt_file
      = some (nonconvergedHeading ++ ["\n  Node OUT1 (50.00%)", "\n  "]) := by
  decide!

/-! ### Termination of the bracketing loop -/

theorem readNewLoop_lines (E : Env) (P : Project) (k : Nat) :
    ∀ (i : Int) (line : Line) (d : DateParts) (s : State), line.length < 8 →
      (readNewLoop E P k i line d s).inflows.rest.length ≤ s.inflows.rest.length
      ∧ (0 < k → (readNewLoop E P k i line d s).NewIfaceDate = s.NewIfaceDate
          ∨ (readNewLoop E P k i line d s).inflows.rest.length < s.inflows.rest.length) := by
  induction k with
  | zero => intro i line d s _; simp [readNewLoop, State.inflows]
  | succ k ih =>
    intro i line d s hline
    unfold readNewLoop
    split_ifs with h1
    · simp
    · have hf := readRecord_frame E P i (fgets line s.inflows).1
        { s with Finflows_file := some (fgets line s.inflows).2 }
      have hrest : ∀ r : State, r.Finflows_file = some (fgets line s.inflows).2 →
          r.inflows.rest = (fgets line s.inflows).2.rest := by
        intro r hr
        simp [State.inflows, hr]
      cases hr : s.inflows.rest with
      | nil =>
        have hbuf : (fgets line s.inflows).1 = line := by simp [fgets, hr]
        have hshort := readRecord_short E P i (fgets line s.inflows).1
          { s with Finflows_file := some (fgets line s.inflows).2 }
          (by rw [hbuf]; unfold fieldsNeeded; omega)
        split
        · rename_i s1 heq
          rw [heq] at hf
          have h2 := hrest s1 hf.2.2
          have h3 : (fgets line s.inflows).2.rest = [] := by simp [fgets, hr]
          refine ⟨by rw [h2, h3], fun _ => Or.inl ?_⟩
          exact hf.2.1
        · rename_i d1 s1 heq
          rw [heq] at hshort
          simp at hshort
      | cons l ls =>
        have h3 : (fgets line s.inflows).2.rest = ls := by simp [fgets, hr]
        split
        · rename_i s1 heq
          rw [heq] at hf
          have h2 := hrest s1 hf.2.2
          refine ⟨by rw [h2, h3]; simp, fun _ => Or.inr ?_⟩
          rw [h2, h3]; simp
        · rename_i d1 s1 heq
          rw [heq] at hf
          have h2 := hrest s1 hf.2.2
          have h4 := (ih (i + 1) ((fgets line s.inflows).1.take 1) d1 s1
            (by rw [List.length_take]; omega)).1
          rw [h2, h3] at h4
          refine ⟨by simp only [List.length_cons]; omega, fun _ => Or.inr ?_⟩
          simp only [List.length_cons]; omega

theorem readNewIfaceValues_lines (E : Env) (P : Project) (line0 : Line) (s : State)
    (hn : 1 ≤ s.NumIfaceNodes) (hline : line0.length < 8) :
    (readNewIfaceValues E P line0 s).NewIfaceDate = E.NO_DATE
      ∨ (readNewIfaceValues E P line0 s).inflows.rest.length < s.inflows.rest.length := by
  unfold readNewIfaceValues
  have hk : 0 < s.NumIfaceNodes.toNat := by omega
  have := (readNewLoop_lines E P s.NumIfaceNodes.toNat 0 line0 ⟨0, 0, 0, 0, 0, 0⟩
    { s with NewIfaceDate := E.NO_DATE } hline).2 hk
  simpa [State.inflows] using this

theorem bracketLoop_terminates_lines (E : Env) (P : Project) (junk : Nat → Line)
    (hjunk : ∀ n, (junk n).length < 8) (t : DateTime) (fuel : Nat) :
    ∀ (n : Nat) (s : State), 1 ≤ s.NumIfaceNodes → s.inflows.rest.length + 1 ≤ fuel →
      ∃ s1, bracketLoop E P junk t fuel n s = some s1 := by
  induction fuel with
  | zero => intro n s _ h; omega
  | succ fuel ih =>
    intro n s hn hfuel
    by_cases hc : s.NewIfaceDate < t ∧ s.NewIfaceDate ≠ E.NO_DATE
    · unfold bracketLoop
      rw [if_pos hc]
      have hset := setOldIfaceValues_fields P s
      have hn1 : 1 ≤ (setOldIfaceValues P s).NumIfaceNodes := by rw [hset.1]; exact hn
      have hfr := readNewIfaceValues_frame E P (junk n) (setOldIfaceValues P s)
      obtain ⟨_, _, _, _, hNum, _⟩ := hfr
      rcases readNewIfaceValues_lines E P (junk n) (setOldIfaceValues P s) hn1 (hjunk n)
        with h | h
      · exact ⟨_, bracketLoop_idle E P junk t fuel (n + 1) _ (fun hh => hh.2 h)⟩
      · rw [hset.2.2] at h
        exact ih (n + 1) _ (by rw [hNum]; exact hn1) (by omega)
    · exact ⟨s, bracketLoop_idle E P junk t (fuel + 1) n s hc⟩

/-- C29, as the code has it: with at least one interface node the loop of
`iface_getNumIfaceNodes` ends for every file, stale buffer and current date,
whatever the order of the dates in the file.  Each call of
`readNewIfaceValues` leaves `NewIfaceDate = NO_DATE` or leaves less to read
(the lines left, plus one while the end-of-file indicator is not set); so the
fuel of the model, which an iteration of the loop uses one unit of, suffices
from that number plus one on, hence from the number of lines left plus two on,
and the function then returns.  When the line buffer holds no full record on
entry (fewer than 8 tokens, as `strtok` leaves it), each call leaves
`NewIfaceDate = NO_DATE` or consumes a line, and the number of lines left plus
one suffices. -/
theorem C29_loop_terminates (E : Env) (P : Project) (junk : Nat → Line) (t : DateTime)
    (s : State) (hn : 1 ≤ s.NumIfaceNodes) :
    (∀ (line0 : Line) (r : State), 1 ≤ r.NumIfaceNodes →
      (readNewIfaceValues E P line0 r).NewIfaceDate = E.NO_DATE
        ∨ pending (readNewIfaceValues E P line0 r).inflows < pending r.inflows)
    ∧ (∀ (line0 : Line) (r : State), 1 ≤ r.NumIfaceNodes → line0.length < 8 →
      (readNewIfaceValues E P line0 r).NewIfaceDate = E.NO_DATE
        ∨ (readNewIfaceValues E P line0 r).inflows.rest.length < r.inflows.rest.length)
    ∧ (∀ fuel n, pending s.inflows + 1 ≤ fuel →
        ∃ s1, bracketLoop E P junk t fuel n s = some s1)
    ∧ (∀ fuel n, s.inflows.rest.length + 2 ≤ fuel →
        (∃ s1, bracketLoop E P junk t fuel n s = some s1)
        ∧ ∃ r, iface_getNumIfaceNodes E P junk fuel t s = some r)
    ∧ ((∀ n, (junk n).length < 8) → ∀ fuel n, s.inflows.rest.length + 1 ≤ fuel →
        (∃ s1, bracketLoop E P junk t fuel n s = some s1)
        ∧ ∃ r, iface_getNumIfaceNodes E P junk fuel t s = some r) := by
  have hret : ∀ fuel, (∃ s1, bracketLoop E P junk t fuel 0 s = some s1) →
      ∃ r, iface_getNumIfaceNodes E P junk fuel t s = some r := by
    rintro fuel ⟨s1, h1⟩
    unfold iface_getNumIfaceNodes
    split_ifs with h0
    · exact ⟨_, rfl⟩
    · rw [h1]
      dsimp only
      split_ifs
      · exact ⟨_, rfl⟩
      · exact ⟨_, rfl⟩
  have hpend : pending s.inflows ≤ s.inflows.rest.length + 1 := by
    unfold pending
    split_ifs <;> omega
  refine ⟨fun line0 r hr => readNewIfaceValues_progress E P line0 r hr,
    fun line0 r hr hl => readNewIfaceValues_lines E P line0 r hr hl,
    fun fuel n hf => bracketLoop_terminates E P junk t fuel n s hn hf, ?_, ?_⟩
  · intro fuel n hf
    exact ⟨bracketLoop_terminates E P junk t fuel n s hn (by omega),
      hret fuel (bracketLoop_terminates E P junk t fuel 0 s hn (by omega))⟩
  · intro hjunk fuel n hf
    exact ⟨bracketLoop_terminates_lines E P junk hjunk t fuel n s hn hf,
      hret fuel (bracketLoop_terminates_lines E P junk hjunk t fuel 0 s hn hf)⟩

/-- C29 (amended), on the file of `projectTSS` read back, of which one record
line is left after opening: with a buffer holding a full record and a newline
after the last record a query far after the last date returns with fuel 3;
with an empty buffer it returns with fuel 2. -/
theorem C29_loop_terminates_witness :
    readBackNewline.inflows.rest.length = 1
    ∧ (∃ r, iface_getNumIfaceNodes (sampleEnv projectTSS) projectTSS (fun _ => staleRecord) 3
        40000 readBackNewline = some r)
    ∧ (readBack projectTSS).inflows.rest.length = 1
    ∧ ∃ r, iface_getNumIfaceNodes (sampleEnv projectTSS) projectTSS (fun _ => []) 2 40000
        (readBack projectTSS) = some r :=
  ⟨by decide,
    ((C29_loop_terminates (sampleEnv projectTSS) projectTSS (fun _ => staleRecord) 40000
      readBackNewline (by decide)).2.2.2.1 3 0 (by decide)).2,
    by decide,
    ((C29_loop_terminates (sampleEnv projectTSS) projectTSS (fun _ => []) 40000
      (readBack projectTSS) (by decide)).2.2.2.2 (fun _ => by decide) 2 0 (by decide)).2⟩

/-- C29 fails on the code: `readBackNewline` has one interface node and one
line left to read, in a file that ends with a newline, and the line buffer
holds a full record on entry to each call of `readNewIfaceValues`.  For a
current date after every date at hand the loop of `iface_getNumIfaceNodes` is
not over after two iterations (the number of lines left plus one) and is over
after three.  Its second call of `readNewIfaceValues` finds no line left,
consumes none and leaves a date other than `NO_DATE`, parsed from the
buffer. -/
theorem C29_counterexample :
    1 ≤ readBackNewline.NumIfaceNodes
    ∧ readBackNewline.inflows.rest.length = 1
    ∧ (bracketLoop (sampleEnv projectTSS) projectTSS (fun _ => staleRecord) 40000 2 0
        readBackNewline).isSome = false
    ∧ (bracketLoop (sampleEnv projectTSS) projectTSS (fun _ => staleRecord) 40000 3 0
        readBackNewline).isSome = true
    ∧ (readNewIfaceValues (sampleEnv projectTSS) projectTSS staleRecord
        (setOldIfaceValues projectTSS readBackNewline)).inflows.rest.length = 0
    ∧ (readNewIfaceValues (sampleEnv projectTSS) projectTSS staleRecord
        (setOldIfaceValues projectTSS
          (readNewIfaceValues (sampleEnv projectTSS) projectTSS staleRecord
            (setOldIfaceValues projectTSS readBackNewline)))).inflows.rest.length = 0
    ∧ (readNewIfaceValues (sampleEnv projectTSS) projectTSS staleRecord
        (setOldIfaceValues projectTSS
          (readNewIfaceValues (sampleEnv projectTSS) projectTSS staleRecord
            (setOldIfaceValues projectTSS readBackNewline)))).NewIfaceDate
      ≠ (sampleEnv projectTSS).NO_DATE := by
  refine ⟨by decide, by decide, by decide!, by decide!, by decide, by decide, by decide!⟩

/-! ### Defects of the temperature modification and the first query -/

/-- C27 fails on the code.  For `projectTSSTemp` the file `fileTempTSS` is
accepted: one file pollutant, and both value matrices are created with
`1 + NumIfacePolluts = 2` columns.  `readNewIfaceValues` has stored the
temperature 18 of the record in column `NumIfacePolluts + 1 = 2`,
`setOldIfaceValues` copies column 2, and `iface_getIfaceTemp` with `npollut = 1`
reads column `IfaceTemperature + 1 + 1 = 2`: a column index that is not below
the column count. -/
theorem C27_temperature_column_outside :
    openedTemp.ErrorCode = 0
    ∧ openedTemp.NumIfacePolluts = 1
    ∧ openedTemp.NewIfaceValues.map (fun m => m.ncols) = some 2
    ∧ openedTemp.OldIfaceValues.map (fun m => m.ncols) = some 2
    ∧ cellAt openedTemp.NewIfaceValues 0 (openedTemp.NumIfacePolluts + 1) = 18
    ∧ ¬ (openedTemp.NumIfacePolluts + 1 < 1 + openedTemp.NumIfacePolluts)
    ∧ cellAt openedTemp.OldIfaceValues 0 2 = 0
    ∧ cellAt (setOldIfaceValues projectTSSTemp openedTemp).OldIfaceValues 0
        (openedTemp.NumIfacePolluts + projectTSSTemp.TempModel_active) = 18
    ∧ openedTemp.IfaceTemperature + 1 + 1 = 2
    ∧ iface_getIfaceTemp { openedTemp with IfaceFrac := 1 } 0 1 = 18 := by
  refine ⟨by decide, by decide, by decide, by decide, by decide!, by decide, by decide!,
    by decide!, by decide, by decide!⟩

/-- C28 fails on the code.  After `openFileForInput` has read back the file of
`projectTSS`, `OldIfaceDate` and `NewIfaceDate` both hold the first date of the
file, 37622.  A query at that date passes the first test, runs no iteration of
the loop, finds a date other than `NO_DATE` and computes the fraction with the
divisor `NewIfaceDate - OldIfaceDate = 0`. -/
theorem C28_first_query_zero_divisor (junk : Nat → Line) (fuel : Nat) :
    (readBack projectTSS).ErrorCode = 0
    ∧ (readBack projectTSS).OldIfaceDate = 37622
    ∧ (readBack projectTSS).NewIfaceDate = 37622
    ∧ (readBack projectTSS).NewIfaceDate ≠ (sampleEnv projectTSS).NO_DATE
    ∧ bracketLoop (sampleEnv projectTSS) projectTSS junk 37622 fuel 0 (readBack projectTSS)
        = some (readBack projectTSS)
    ∧ iface_getNumIfaceNodes (sampleEnv projectTSS) projectTSS junk fuel 37622
        (readBack projectTSS)
      = some ((readBack projectTSS).NumIfaceNodes, { readBack projectTSS with
          IfaceFrac := MIN (MAX 0 ((37622 - (readBack projectTSS).OldIfaceDate) / ((readBack projectTSS).NewIfaceDate - (readBack projectTSS).OldIfaceDate))) 1 })
    ∧ (readBack projectTSS).NewIfaceDate - (readBack projectTSS).OldIfaceDate = 0 := by
  have hold : (readBack projectTSS).OldIfaceDate = 37622 := by decide!
  have hnew : (readBack projectTSS).NewIfaceDate = 37622 := by decide!
  have hno : (readBack projectTSS).NewIfaceDate ≠ (sampleEnv projectTSS).NO_DATE := by decide!
  have hloop := bracketLoop_idle (sampleEnv projectTSS) projectTSS junk 37622 fuel 0
    (readBack projectTSS) (fun hh => absurd hh.1 (by rw [hnew]; exact lt_irrefl _))
  refine ⟨by decide, hold, hnew, hno, hloop, ?_, by rw [hold, hnew]; norm_num⟩
  rw [getNum_after_loop (sampleEnv projectTSS) projectTSS junk fuel 37622 (readBack projectTSS)
    (readBack projectTSS) (by rw [hold]; exact lt_irrefl _) hloop, if_neg hno]
/-! ### Time series rows -/

theorem fprintf_Frpt_eq (t : String) : fprintf_Frpt t = written [t] := rfl

theorem foldl_written_map {α : Type} (text : α → String) (l : List α) :
    ∀ s : State, l.foldl (fun u p => written [text p] u) s = written (l.map text) s := by
  induction l with
  | nil => intro s; exact (written_nil s).symm
  | cons a l ih =>
    intro s
    rw [List.foldl_cons, ih, written_written]
    rfl

theorem doIf_written (c : Prop) [Decidable c] (l : List String) (s : State) :
    doIf c (written l) s = written (if c then l else []) s := by
  unfold doIf
  split_ifs
  · rfl
  · exact (written_nil s).symm

theorem doIf_foldl_written {α : Type} (c : Prop) [Decidable c] (text : α → String)
    (l : List α) (s : State) :
    doIf c (fun t => l.foldl (fun u p => written [text p] u) t) s
      = written (if c then l.map text else []) s := by
  rw [← doIf_written]
  congr 1
  funext t
  exact foldl_written_map text l t

/-- The chunks of a period row of `report_Nodes`: the chunk with date, time and
4 values, one chunk per pollutant when quality is not ignored, and the
temperature chunk when the water temperature is not ignored. -/
theorem nodeRow_written (P : Project) (R : Rpt) (k period : Int) (s : State) :
    nodeRow P R k period s
      = written ([nodeRowHead R k period]
          ++ (if R.IgnoreQuality = 0 then
                (List.range P.Pollut.length).map (fun (p : Nat) =>
                  " " ++ fmt_wf 9 3 (R.output_readNodeResults period k (R.NODE_QUAL + p)))
              else [])
          ++ (if R.IgnoreWTemperature = 0 then
                [" " ++ fmt_wf 9 3 (R.output_readNodeResults period k (R.NODE_QUAL + P.nPollut))]
              else [])) s := by
  unfold nodeRow nodeRowHead
  simp only [fprintf_Frpt_eq]
  rw [doIf_written, doIf_foldl_written, written_written, written_written, List.append_assoc]

/-- The chunks of a period row of `report_Links`: the chunk with date, time and
4 values and one chunk per pollutant when quality is not ignored; no chunk for
the temperature. -/
theorem linkRow_written (P : Project) (R : Rpt) (k period : Int) (s : State) :
    (linkRow P R k period s).2
      = written ([linkRowHead R k period]
          ++ (if R.IgnoreQuality = 0 then
                (List.range P.Pollut.length).map (fun (p : Nat) =>
                  " " ++ fmt_wf 9 3 (R.output_readLinkResults period k (R.LINK_QUAL + p)))
              else [])) s := by
  unfold linkRow linkRowHead
  simp only [fprintf_Frpt_eq]
  rw [doIf_foldl_written, written_written]

/-- C30 fails on the code.  With one pollutant, the water temperature reported
and two periods, `report_Links` writes for the reported link a first period
row of 4 values and the pollutant value, and a last row of these 5 values and
the temperature: the temperature is printed once, after the loop over the
periods.  `report_Nodes` writes 6 values in each period row, while
`report_NodeHeader` and `report_LinkHeader` write 4 headings and the pollutant
name, none for the temperature. -/
theorem C30_rows_not_rectangular :
    ((report_Links (sampleEnv projectTSS) projectTSS rptTemp (fun _ => 0)
        reportState).Frpt_file.getD []).drop 14
      = ["\n   01/01/2003 00:15:00      1.000     1.020     1.010     1.040", "     1.050",
         "\n   01/01/2003 00:30:00      2.000     2.020     2.010     2.040", "     2.050",
         "     2.060", "\n  "]
    ∧ ((report_Nodes (sampleEnv projectTSS) projectTSS rptTemp
        reportState).Frpt_file.getD []).drop 14
      = ["\n   01/01/2003 00:15:00      1.040     1.050     1.000     1.010", "     1.060",
         "     1.070",
         "\n   01/01/2003 00:30:00      2.040     2.050     2.000     2.010", "     2.060",
         "     2.070", "\n  "]
    ∧ (((report_LinkHeader (sampleEnv projectTSS) projectTSS rptTemp "C1"
        reportState).Frpt_file.getD []).drop 4).take 2
      = ["\n                             Flow  Velocity     Depth  Capacity/", "       TSS"]
    ∧ (((report_NodeHeader (sampleEnv projectTSS) projectTSS rptTemp "OUT1"
        reportState).Frpt_file.getD []).drop 4).take 2
      = ["\n                           Inflow  Flooding     Depth      Head", "       TSS"] := by
  refine ⟨by decide!, by decide!, by decide!, by decide!⟩

/-! ### Routing time step statistics -/

theorem report_RouteStepFreq_written (R : Rpt) (t : TTimeStepStats) (s : State) :
    report_RouteStepFreq R t s
      = written (if totalSteps R t = 0 then [] else stepFreqTable R t) s := by
  unfold report_RouteStepFreq
  split_ifs with h
  · exact (written_nil s).symm
  · dsimp only
    simp only [fprintf_Frpt_eq]
    rw [foldl_written_map (fun (k : Nat) => stepFreqLine R t (k + 1)), written_written]
    rfl

theorem report_writeTimeStepStats_written (E : Env) (P : Project) (R : Rpt)
    (t : TTimeStepStats) (s : State) (h : ¬ ((R.Link.length : Int) = 0 ∨ t.timeStepCount = 0)) :
    report_writeTimeStepStats E P R t s
      = written (timeStepSummary R t
          ++ (if P.RouteModel = E.DW ∧ R.CourantFactor > 0 then
                (if totalSteps R t = 0 then [] else stepFreqTable R t) else [])
          ++ ["\n  "]) s := by
  unfold report_writeTimeStepStats
  dsimp only
  rw [if_neg h]
  have e : report_RouteStepFreq R t
      = written (if totalSteps R t = 0 then [] else stepFreqTable R t) := by
    funext u
    exact report_RouteStepFreq_written R t u
  rw [e]
  simp only [report_writeLine_written, fprintf_Frpt_eq, doIf_written, written_written]
  rfl

/-- C21: `report_writeTimeStepStats` returns the state as it is when there is
no link or `timeStepCount = 0`; whenever it changes the state, `timeStepCount`
is not 0, so no division by it has a zero divisor.  When it writes, the lines
are those of `timeStepSummary` (then the frequency table, then a blank line):
the average time step printed is `routingTime / timeStepCount`, the average
iterations per step `trialsCount / timeStepCount`, and the percent of steps not
converging `100 * NonConvergeCount / timeStepCount`. -/
theorem C21_time_step_averages (E : Env) (P : Project) (R : Rpt) (t : TTimeStepStats)
    (s : State) :
    ((R.Link = [] ∨ t.timeStepCount = 0) → report_writeTimeStepStats E P R t s = s)
    ∧ (report_writeTimeStepStats E P R t s ≠ s → t.timeStepCount ≠ 0 ∧ R.Link ≠ [])
    ∧ (R.Link ≠ [] → t.timeStepCount ≠ 0 →
        ∃ table, report_writeTimeStepStats E P R t s
          = written (timeStepSummary R t ++ table ++ ["\n  "]) s)
    ∧ (timeStepSummary R t).length = 10
    ∧ (timeStepSummary R t).getD 5 ""
        = "\n  Average Time Step           :  "
            ++ fmt_wf 7 2 (t.routingTime / t.timeStepCount) ++ " sec"
    ∧ (timeStepSummary R t).getD 8 ""
        = "\n  Average Iterations per Step :  " ++ fmt_wf 7 2 (t.trialsCount / t.timeStepCount)
    ∧ (timeStepSummary R t).getD 9 ""
        = "\n  % of Steps Not Converging   :  "
            ++ fmt_wf 7 2 (100 * (R.NonConvergeCount : ℚ) / t.timeStepCount) := by
  have hret : (R.Link = [] ∨ t.timeStepCount = 0) → report_writeTimeStepStats E P R t s = s := by
    intro h
    unfold report_writeTimeStepStats
    dsimp only
    rw [if_pos]
    rcases h with h | h
    · exact Or.inl (by simp [h])
    · exact Or.inr h
  refine ⟨hret, ?_, ?_, rfl, rfl, rfl, rfl⟩
  · intro hne
    constructor
    · intro h0
      exact hne (hret (Or.inr h0))
    · intro h0
      exact hne (hret (Or.inl h0))
  · intro hl hc
    refine ⟨_, report_writeTimeStepStats_written E P R t s ?_⟩
    rintro (h | h)
    · exact hl (by simpa using h)
    · exact hc h

/-- C21, on the sample statistics (40 steps, 1000 s of routing, 90 trials, 3
steps not converging) with an open report file: the averages printed are
25.00, 2.25 and 7.50; with `timeStepCount = 0` nothing is written. -/
theorem C21_time_step_averages_witness :
    ((report_writeTimeStepStats (sampleEnv projectTSS) projectTSS sampleRpt sampleStats
        reportState).Frpt_file.getD []).take 10
      = ["\n  ", "\n  *************************", "\n  Routing Time Step Summary",
         "\n  *************************",
         "\n  Minimum Time Step           :     5.00 sec",
         "\n  Average Time Step           :    25.00 sec",
         "\n  Maximum Time Step           :    30.00 sec",
         "\n  % of Time in Steady State   :    20.00",
         "\n  Average Iterations per Step :     2.25",
         "\n  % of Steps Not Converging   :     7.50"]
    ∧ (report_writeTimeStepStats (sampleEnv projectTSS) projectTSS sampleRpt
        { sampleStats with timeStepCount := 0 } reportState).Frpt_file = some [] := by
  have h := C21_time_step_averages (sampleEnv projectTSS) projectTSS sampleRpt sampleStats
    reportState
  have h0 := (C21_time_step_averages (sampleEnv projectTSS) projectTSS sampleRpt
    { sampleStats with timeStepCount := 0 } reportState).1 (Or.inr rfl)
  obtain ⟨table, ht⟩ := h.2.2.1 (List.cons_ne_nil _ _) (by decide!)
  refine ⟨?_, by rw [h0]; rfl⟩
  rw [ht]
  have e : timeStepSummary sampleRpt sampleStats
      = ["\n  ", "\n  *************************", "\n  Routing Time Step Summary",
         "\n  *************************",
         "\n  Minimum Time Step           :     5.00 sec",
         "\n  Average Time Step           :    25.00 sec",
         "\n  Maximum Time Step           :    30.00 sec",
         "\n  % of Time in Steady State   :    20.00",
         "\n  Average Iterations per Step :     2.25",
         "\n  % of Steps Not Converging   :     7.50"] := by decide!
  rw [e]
  rfl

theorem toChar_of_range (n : Int) (h1 : -128 ≤ n) (h2 : n ≤ 127) : toChar n = n := by
  unfold toChar
  omega

theorem report_readOptions_yesno (E : Env) (K : Inp) (tok : List String) (ntoks : Int)
    (R : Rpt) (k : Int) (h2 : 2 ≤ ntoks) (hk : E.findmatch (tok.getD 0 "") K.ReportWords = k)
    (hk0 : 0 ≤ k) (hk127 : k ≤ 127) (hkind : k < 2 ∨ k > 4) :
    report_readOptions E K tok ntoks R
      = (if E.findmatch (tok.getD 1 "") K.NoYesWords < K.NO
            ∨ E.findmatch (tok.getD 1 "") K.NoYesWords > K.YES then
          (K.error_setInpError K.ERR_KEYWORD (tok.getD 1 ""), R)
        else if k = 0 then
          (0, { R with RptFlags_disabled := E.findmatch (tok.getD 1 "") K.NoYesWords })
        else if k = 1 then
          (0, { R with RptFlags_input := E.findmatch (tok.getD 1 "") K.NoYesWords })
        else if k = 5 then
          (0, { R with RptFlags_continuity := E.findmatch (tok.getD 1 "") K.NoYesWords })
        else if k = 6 then
          (0, { R with RptFlags_flowStats := E.findmatch (tok.getD 1 "") K.NoYesWords })
        else if k = 7 then
          (0, { R with RptFlags_controls := E.findmatch (tok.getD 1 "") K.NoYesWords })
        else if k = 8 then
          (0, { R with RptFlags_averages := E.findmatch (tok.getD 1 "") K.NoYesWords })
        else if k = 9 then (0, R)
        else (K.error_setInpError K.ERR_KEYWORD (tok.getD 1 ""), R)) := by
  unfold report_readOptions
  rw [if_neg (by omega)]
  dsimp only
  rw [hk, toChar_of_range k (by omega) hk127, if_neg (by omega), if_pos hkind]

/-- C24: `report_readOptions` returns `ERR_ITEMS` when `ntoks < 2` and
`ERR_KEYWORD` when `tok[0]` matches no report keyword, the flags being as
before.  For a keyword of index 0, 1, 5, 6, 7, 8 or 9, when `tok[1]` matches
neither `NO` nor `YES` it returns `ERR_KEYWORD` and changes nothing; otherwise
it returns 0, having assigned the matched value to `RptFlags.disabled`,
`.input`, `.continuity`, `.flowStats`, `.controls` or `.averages` for the
index 0, 1, 5, 6, 7 or 8 and to nothing else, and having changed nothing for
the index 9.  (`error_setInpError` is taken to return its code.) -/
theorem C24_yes_no_options (E : Env) (K : Inp) (tok : List String) (ntoks : Int) (R : Rpt)
    (hret : ∀ c a, K.error_setInpError c a = c) :
    (ntoks < 2 → report_readOptions E K tok ntoks R = (K.ERR_ITEMS, R))
    ∧ (2 ≤ ntoks → E.findmatch (tok.getD 0 "") K.ReportWords < 0 →
        -128 ≤ E.findmatch (tok.getD 0 "") K.ReportWords →
        report_readOptions E K tok ntoks R = (K.ERR_KEYWORD, R))
    ∧ (2 ≤ ntoks → E.findmatch (tok.getD 0 "") K.ReportWords ∈ [0, 1, 5, 6, 7, 8, 9] →
        (E.findmatch (tok.getD 1 "") K.NoYesWords < K.NO
          ∨ E.findmatch (tok.getD 1 "") K.NoYesWords > K.YES) →
        report_readOptions E K tok ntoks R = (K.ERR_KEYWORD, R))
    ∧ (2 ≤ ntoks → K.NO ≤ E.findmatch (tok.getD 1 "") K.NoYesWords →
        E.findmatch (tok.getD 1 "") K.NoYesWords ≤ K.YES →
        (E.findmatch (tok.getD 0 "") K.ReportWords = 0 →
          report_readOptions E K tok ntoks R
            = (0, { R with RptFlags_disabled := E.findmatch (tok.getD 1 "") K.NoYesWords }))
        ∧ (E.findmatch (tok.getD 0 "") K.ReportWords = 1 →
          report_readOptions E K tok ntoks R
            = (0, { R with RptFlags_input := E.findmatch (tok.getD 1 "") K.NoYesWords }))
        ∧ (E.findmatch (tok.getD 0 "") K.ReportWords = 5 →
          report_readOptions E K tok ntoks R
            = (0, { R with RptFlags_continuity := E.findmatch (tok.getD 1 "") K.NoYesWords }))
        ∧ (E.findmatch (tok.getD 0 "") K.ReportWords = 6 →
          report_readOptions E K tok ntoks R
            = (0, { R with RptFlags_flowStats := E.findmatch (tok.getD 1 "") K.NoYesWords }))
        ∧ (E.findmatch (tok.getD 0 "") K.ReportWords = 7 →
          report_readOptions E K tok ntoks R
            = (0, { R with RptFlags_controls := E.findmatch (tok.getD 1 "") K.NoYesWords }))
        ∧ (E.findmatch (tok.getD 0 "") K.ReportWords = 8 →
          report_readOptions E K tok ntoks R
            = (0, { R with RptFlags_averages := E.findmatch (tok.getD 1 "") K.NoYesWords }))
        ∧ (E.findmatch (tok.getD 0 "") K.ReportWords = 9 →
          report_readOptions E K tok ntoks R = (0, R))) := by
  refine ⟨?_, ?_, ?_, ?_⟩
  · intro h
    unfold report_readOptions
    rw [if_pos h, hret]
  · intro h2 hneg hlo
    unfold report_readOptions
    rw [if_neg (by omega)]
    dsimp only
    rw [toChar_of_range _ hlo (by omega), if_pos hneg, hret]
  · intro h2 hmem hbad
    simp only [List.mem_cons, List.mem_singleton, List.not_mem_nil, or_false] at hmem
    rw [report_readOptions_yesno E K tok ntoks R _ h2 rfl (by omega) (by omega) (by omega),
      if_pos hbad, hret]
  · intro h2 hno hyes
    have hok : ¬ (E.findmatch (tok.getD 1 "") K.NoYesWords < K.NO
        ∨ E.findmatch (tok.getD 1 "") K.NoYesWords > K.YES) := by
      rintro (h | h) <;> omega
    refine ⟨?_, ?_, ?_, ?_, ?_, ?_, ?_⟩ <;> intro hk <;>
      rw [report_readOptions_yesno E K tok ntoks R _ h2 hk (by omega) (by omega) (by omega),
        if_neg hok] <;> simp

/-- C24, on the sample keyword tables: `CONTROLS YES` returns 0 and sets
`RptFlags.controls` to 1; `CONTROLS MAYBE` and `BOGUS YES` return
`ERR_KEYWORD` (205); a line of one token returns `ERR_ITEMS` (203);
`NODESTATS YES` returns 0 when `findmatch` compares whole words (the sample
one finds `NODES` first). -/
theorem C24_yes_no_options_witness :
    (report_readOptions (sampleEnv projectTSS) sampleInp ["CONTROLS", "YES"] 2 sampleRpt).1 = 0
    ∧ (report_readOptions (sampleEnv projectTSS) sampleInp ["CONTROLS", "YES"] 2
        sampleRpt).2.RptFlags_controls = 1
    ∧ (report_readOptions (sampleEnv projectTSS) sampleInp ["CONTROLS", "MAYBE"] 2 sampleRpt).1
        = 205
    ∧ (report_readOptions (sampleEnv projectTSS) sampleInp ["BOGUS", "YES"] 2 sampleRpt).1 = 205
    ∧ (report_readOptions (sampleEnv projectTSS) sampleInp ["CONTROLS"] 1 sampleRpt).1 = 203
    ∧ (report_readOptions { sampleEnv projectTSS with findmatch := wholeWordMatch } sampleInp
        ["NODESTATS", "YES"] 2 sampleRpt).1 = 0 := by
  have hyes := ((C24_yes_no_options (sampleEnv projectTSS) sampleInp ["CONTROLS", "YES"] 2
    sampleRpt (fun _ _ => rfl)).2.2.2 (by decide) (by decide) (by decide)).2.2.2.2.1 (by decide)
  have hbad := (C24_yes_no_options (sampleEnv projectTSS) sampleInp ["CONTROLS", "MAYBE"] 2
    sampleRpt (fun _ _ => rfl)).2.2.1 (by decide) (by decide) (by decide)
  have hkey := (C24_yes_no_options (sampleEnv projectTSS) sampleInp ["BOGUS", "YES"] 2
    sampleRpt (fun _ _ => rfl)).2.1 (by decide) (by decide) (by decide)
  have hitems := (C24_yes_no_options (sampleEnv projectTSS) sampleInp ["CONTROLS"] 1
    sampleRpt (fun _ _ => rfl)).1 (by decide)
  have hstats := ((C24_yes_no_options { sampleEnv projectTSS with findmatch := wholeWordMatch }
    sampleInp ["NODESTATS", "YES"] 2 sampleRpt (fun _ _ => rfl)).2.2.2 (by decide) (by decide)
    (by decide)).2.2.2.2.2.2 (by decide)
  refine ⟨by rw [hyes], ?_, by rw [hbad]; rfl, by rw [hkey]; rfl, by rw [hitems]; rfl,
    by rw [hstats]⟩
  rw [hyes]
  decide

theorem setRptFlag_consts (R : Rpt) (m : ObjType) (j : Int) :
    (setRptFlag R m j).TRUE = R.TRUE
    ∧ (∀ m2, rptCount (setRptFlag R m j) m2 = rptCount R m2)
    ∧ (∀ m2, typeFlagOf (setRptFlag R m j) m2 = typeFlagOf R m2) := by
  refine ⟨?_, ?_, ?_⟩
  · cases m <;> rfl
  · intro m2
    cases m <;> cases m2 <;> simp [setRptFlag, rptCount]
  · intro m2
    cases m <;> cases m2 <;> rfl

theorem rptFlagOf_setRptFlag (R : Rpt) (m m2 : ObjType) (j : Int) (i : Nat) :
    rptFlagOf (setRptFlag R m j) m2 i
      = if m2 = m ∧ i < rptCount R m ∧ j.toNat = i then R.TRUE else rptFlagOf R m2 i := by
  cases m <;> cases m2 <;>
    simp only [setRptFlag, rptFlagOf, rptCount, subcatchAt, linkAt, Int.toNat_ofNat,
      List.getD_eq_getElem?_getD, List.getElem?_set, reduceCtorEq, false_and, if_false,
      true_and, not_lt_zero']
  · by_cases h : j.toNat = i
    · by_cases hi : i < R.Node_rptFlag.length
      · simp [h, hi]
      · simp [h, hi, List.getElem?_eq_none (not_lt.mp hi)]
    · simp [h]
  · by_cases h : j.toNat = i
    · by_cases hi : i < R.Subcatch.length
      · simp [h, hi]
      · simp [h, hi, List.getElem?_eq_none (not_lt.mp hi)]
    · simp [h]
  · by_cases h : j.toNat = i
    · by_cases hi : i < R.Link.length
      · simp [h, hi]
      · simp [h, hi, List.getElem?_eq_none (not_lt.mp hi)]
    · simp [h]

theorem flagged_consts (E : Env) (m : ObjType) (l : List String) :
    ∀ R : Rpt, (flagged E m l R).TRUE = R.TRUE
      ∧ (∀ m2, rptCount (flagged E m l R) m2 = rptCount R m2)
      ∧ (∀ m2, typeFlagOf (flagged E m l R) m2 = typeFlagOf R m2) := by
  induction l with
  | nil => intro R; exact ⟨rfl, fun _ => rfl, fun _ => rfl⟩
  | cons t l ih =>
    intro R
    have h1 := setRptFlag_consts R m (E.project_findObject m t)
    have h2 := ih (setRptFlag R m (E.project_findObject m t))
    refine ⟨h2.1.trans h1.1, fun m2 => (h2.2.1 m2).trans (h1.2.1 m2),
      fun m2 => (h2.2.2 m2).trans (h1.2.2 m2)⟩

theorem rptFlagOf_flagged (E : Env) (m m2 : ObjType) (i : Nat) (l : List String) :
    ∀ R : Rpt, rptFlagOf (flagged E m l R) m2 i
      = if m2 = m ∧ i < rptCount R m ∧ ∃ t ∈ l, (E.project_findObject m t).toNat = i
        then R.TRUE else rptFlagOf R m2 i := by
  induction l with
  | nil => intro R; simp [flagged]
  | cons t l ih =>
    intro R
    have h1 := setRptFlag_consts R m (E.project_findObject m t)
    have h2 := ih (setRptFlag R m (E.project_findObject m t))
    have e : flagged E m (t :: l) R = flagged E m l (setRptFlag R m (E.project_findObject m t)) :=
      rfl
    rw [e, h2, h1.1, h1.2.1 m, rptFlagOf_setRptFlag]
    by_cases hm : m2 = m
    · by_cases hi : i < rptCount R m
      · by_cases ht : (E.project_findObject m t).toNat = i
        · simp [hm, hi, ht]
        · simp [hm, hi, ht]
      · simp [hm, hi]
    · simp [hm]

theorem flagObjects_all (E : Env) (m : ObjType) (l : List String) :
    ∀ R : Rpt, (∀ t ∈ l, 0 ≤ E.project_findObject m t) →
      flagObjects E m l R = (none, flagged E m l R) := by
  induction l with
  | nil => intro R _; rfl
  | cons t l ih =>
    intro R h
    rw [flagObjects, if_neg (not_lt.mpr (h t (List.mem_cons_self t l)))]
    exact ih _ (fun x hx => h x (List.mem_cons_of_mem t hx))

theorem flagObjects_unknown (E : Env) (m : ObjType) (bad : String) (post : List String)
    (hbad : E.project_findObject m bad < 0) (pre : List String) :
    ∀ R : Rpt, (∀ t ∈ pre, 0 ≤ E.project_findObject m t) →
      flagObjects E m (pre ++ bad :: post) R = (some bad, flagged E m pre R) := by
  induction pre with
  | nil =>
    intro R _
    rw [List.nil_append, flagObjects, if_pos hbad]
    rfl
  | cons t pre ih =>
    intro R h
    rw [List.cons_append, flagObjects, if_neg (not_lt.mpr (h t (List.mem_cons_self t pre)))]
    exact ih _ (fun x hx => h x (List.mem_cons_of_mem t hx))

theorem report_readOptions_objects (E : Env) (K : Inp) (tok : List String) (ntoks : Int)
    (R : Rpt) (h2 : 2 ≤ ntoks)
    (hk : E.findmatch (tok.getD 0 "") K.ReportWords ∈ [2, 3, 4]) :
    report_readOptions E K tok ntoks R
      = objectOptions E K tok ntoks
          (typeOfKeyword (E.findmatch (tok.getD 0 "") K.ReportWords)) R := by
  simp only [List.mem_cons, List.mem_singleton, List.not_mem_nil, or_false] at hk
  unfold report_readOptions
  rw [if_neg (by omega)]
  dsimp only
  rw [toChar_of_range _ (by omega) (by omega), if_neg (by omega), if_neg (by omega)]
  rfl

theorem setTypeFlag_fields (R : Rpt) (m : ObjType) (k : Int) :
    (∀ m2 i, rptFlagOf (setTypeFlag R m k) m2 i = rptFlagOf R m2 i)
    ∧ (∀ m2, m2 ≠ m → typeFlagOf (setTypeFlag R m k) m2 = typeFlagOf R m2)
    ∧ (m ∈ [ObjType.SUBCATCH, ObjType.NODE, ObjType.LINK] →
        typeFlagOf (setTypeFlag R m k) m = k) := by
  refine ⟨?_, ?_, ?_⟩
  · intro m2 i
    cases m <;> cases m2 <;> rfl
  · intro m2 hne
    cases m <;> cases m2 <;> first | rfl | exact absurd rfl hne
  · intro hm
    cases m <;> first | rfl | simp at hm

/-- C25: for a line of at least 2 tokens whose keyword has index 2, 3 or 4
(`SUBCATCHMENTS`, `NODES`, `LINKS`), `m` being the object type of the keyword:
(A) when `tok[1]` is `NONE`, `report_readOptions` returns 0 with the flag of
the type set to `NONE`; (B) when it is `ALL` (and not `NONE`), 0 with that flag
set to `ALL`; (C) otherwise, when every token `tok[1] .. tok[ntoks-1]` names an
object of the type, 0 with the flag of each named object set to `TRUE` and the
flag of the type set to `SOME`; (D) when one of these tokens names no object,
`ERR_NAME`, the flags of the objects named before the first such token being
set to `TRUE` and nothing else changed.  (E) Setting object flags changes no
flag of a type and no flag of an object of another type or of an object not
named; setting the flag of the type changes no other flag.
(`error_setInpError` is taken to return its code, and `NONE`, `ALL`, `SOME`
to fit a `char`.) -/
theorem C25_object_options (E : Env) (K : Inp) (tok : List String) (ntoks : Int) (R : Rpt)
    (hret : ∀ c a, K.error_setInpError c a = c) (h2 : 2 ≤ ntoks)
    (hk : E.findmatch (tok.getD 0 "") K.ReportWords ∈ [2, 3, 4])
    (hc : ∀ v ∈ [R.NONE, R.ALL, R.SOME], -128 ≤ v ∧ v ≤ 127) :
    typeOfKeyword (E.findmatch (tok.getD 0 "") K.ReportWords)
        ∈ [ObjType.SUBCATCH, ObjType.NODE, ObjType.LINK]
    ∧ (E.strcomp (tok.getD 1 "") K.w_NONE = true →
        report_readOptions E K tok ntoks R
          = (0, setTypeFlag R (typeOfKeyword (E.findmatch (tok.getD 0 "") K.ReportWords)) R.NONE))
    ∧ (E.strcomp (tok.getD 1 "") K.w_NONE = false → E.strcomp (tok.getD 1 "") K.w_ALL = true →
        report_readOptions E K tok ntoks R
          = (0, setTypeFlag R (typeOfKeyword (E.findmatch (tok.getD 0 "") K.ReportWords)) R.ALL))
    ∧ (E.strcomp (tok.getD 1 "") K.w_NONE = false → E.strcomp (tok.getD 1 "") K.w_ALL = false →
        ((∀ t ∈ objectTokens tok ntoks, 0 ≤ E.project_findObject
            (typeOfKeyword (E.findmatch (tok.getD 0 "") K.ReportWords)) t) →
          report_readOptions E K tok ntoks R
            = (0, setTypeFlag
                (flagged E (typeOfKeyword (E.findmatch (tok.getD 0 "") K.ReportWords))
                  (objectTokens tok ntoks) R)
                (typeOfKeyword (E.findmatch (tok.getD 0 "") K.ReportWords)) R.SOME))
        ∧ (∀ pre bad post, objectTokens tok ntoks = pre ++ bad :: post →
            (∀ t ∈ pre, 0 ≤ E.project_findObject
              (typeOfKeyword (E.findmatch (tok.getD 0 "") K.ReportWords)) t) →
            E.project_findObject
              (typeOfKeyword (E.findmatch (tok.getD 0 "") K.ReportWords)) bad < 0 →
            report_readOptions E K tok ntoks R
              = (K.ERR_NAME,
                  flagged E (typeOfKeyword (E.findmatch (tok.getD 0 "") K.ReportWords)) pre R)))
    ∧ (∀ (m m2 : ObjType) (l : List String) (r : Rpt) (i : Nat) (k : Int),
        typeFlagOf (flagged E m l r) m2 = typeFlagOf r m2
        ∧ rptFlagOf (flagged E m l r) m2 i
            = (if m2 = m ∧ i < rptCount r m ∧ ∃ t ∈ l, (E.project_findObject m t).toNat = i
                then r.TRUE else rptFlagOf r m2 i)
        ∧ rptFlagOf (setTypeFlag r m k) m2 i = rptFlagOf r m2 i
        ∧ (m2 ≠ m → typeFlagOf (setTypeFlag r m k) m2 = typeFlagOf r m2)
        ∧ (m ∈ [ObjType.SUBCATCH, ObjType.NODE, ObjType.LINK] →
            typeFlagOf (setTypeFlag r m k) m = k)) := by
  have hobj := report_readOptions_objects E K tok ntoks R h2 hk
  have hN := toChar_of_range R.NONE (hc _ (by simp)).1 (hc _ (by simp)).2
  have hA := toChar_of_range R.ALL (hc _ (by simp)).1 (hc _ (by simp)).2
  have hS := toChar_of_range R.SOME (hc _ (by simp)).1 (hc _ (by simp)).2
  refine ⟨?_, ?_, ?_, ?_, ?_⟩
  · unfold typeOfKeyword
    split_ifs <;> simp
  · intro h
    rw [hobj, objectOptions, if_pos h, hN]
  · intro h1 h
    rw [hobj, objectOptions, if_neg (by rw [h1]; decide), if_pos h, hA]
  · intro h1 h3
    constructor
    · intro hall
      rw [hobj, objectOptions, if_neg (by rw [h1]; decide), if_neg (by rw [h3]; decide)]
      have := flagObjects_all E _ (objectTokens tok ntoks) R hall
      unfold objectTokens at this
      rw [this, hS]
      rfl
    · intro pre bad post hsplit hpre hbad
      rw [hobj, objectOptions, if_neg (by rw [h1]; decide), if_neg (by rw [h3]; decide)]
      have := flagObjects_unknown E _ bad post hbad pre R hpre
      rw [← hsplit] at this
      unfold objectTokens at this
      rw [this]
      dsimp only
      rw [hret]
  · intro m m2 l r i k
    exact ⟨(flagged_consts E m l r).2.2 m2, rptFlagOf_flagged E m m2 i l r,
      (setTypeFlag_fields r m k).1 m2 i, (setTypeFlag_fields r m k).2.1 m2,
      (setTypeFlag_fields r m k).2.2⟩

/-- C25, on the sample project with the nodes `J1` and `OUT1`, both unflagged:
`NODES OUT1 J1` returns 0, flags both nodes and sets `RptFlags.nodes` to
`SOME` (2); `NODES OUT1 X J1` returns `ERR_NAME` (209), flags `OUT1` only and
leaves `RptFlags.nodes` at 1; `NODES NONE` and `NODES ALL` set it to 0 and
1. -/
theorem C25_object_options_witness :
    (report_readOptions (sampleEnv projectTSS) sampleInp ["NODES", "OUT1", "J1"] 3
        { sampleRpt with Node_rptFlag := [0, 0] }).1 = 0
    ∧ (report_readOptions (sampleEnv projectTSS) sampleInp ["NODES", "OUT1", "J1"] 3
        { sampleRpt with Node_rptFlag := [0, 0] }).2.Node_rptFlag = [1, 1]
    ∧ (report_readOptions (sampleEnv projectTSS) sampleInp ["NODES", "OUT1", "J1"] 3
        { sampleRpt with Node_rptFlag := [0, 0] }).2.RptFlags_nodes = 2
    ∧ (report_readOptions (sampleEnv projectTSS) sampleInp ["NODES", "OUT1", "X", "J1"] 4
        { sampleRpt with Node_rptFlag := [0, 0] }).1 = 209
    ∧ (report_readOptions (sampleEnv projectTSS) sampleInp ["NODES", "OUT1", "X", "J1"] 4
        { sampleRpt with Node_rptFlag := [0, 0] }).2.Node_rptFlag = [0, 1]
    ∧ (report_readOptions (sampleEnv projectTSS) sampleInp ["NODES", "OUT1", "X", "J1"] 4
        { sampleRpt with Node_rptFlag := [0, 0] }).2.RptFlags_nodes = 1
    ∧ (report_readOptions (sampleEnv projectTSS) sampleInp ["NODES", "NONE"] 2
        sampleRpt).2.RptFlags_nodes = 0
    ∧ (report_readOptions (sampleEnv projectTSS) sampleInp ["NODES", "ALL"] 2
        sampleRpt).2.RptFlags_nodes = 1 := by
  have hgood := ((C25_object_options (sampleEnv projectTSS) sampleInp ["NODES", "OUT1", "J1"] 3
    { sampleRpt with Node_rptFlag := [0, 0] } (fun _ _ => rfl) (by decide) (by decide)
    (by decide)).2.2.2.1 (by decide) (by decide)).1 (by decide)
  have hbad := ((C25_object_options (sampleEnv projectTSS) sampleInp
    ["NODES", "OUT1", "X", "J1"] 4 { sampleRpt with Node_rptFlag := [0, 0] } (fun _ _ => rfl)
    (by decide) (by decide) (by decide)).2.2.2.1 (by decide) (by decide)).2
    ["OUT1"] "X" ["J1"] (by decide) (by decide) (by decide)
  have hnone := (C25_object_options (sampleEnv projectTSS) sampleInp ["NODES", "NONE"] 2
    sampleRpt (fun _ _ => rfl) (by decide) (by decide) (by decide)).2.1 (by decide)
  have hall := (C25_object_options (sampleEnv projectTSS) sampleInp ["NODES", "ALL"] 2
    sampleRpt (fun _ _ => rfl) (by decide) (by decide) (by decide)).2.2.1 (by decide)
    (by decide)
  refine ⟨by rw [hgood], by rw [hgood]; decide, by rw [hgood]; decide, by rw [hbad]; rfl,
    by rw [hbad]; decide, by rw [hbad]; decide, by rw [hnone]; decide, by rw [hall]; decide⟩

/-! ### Interface file parameters -/

theorem iface_readFileParams_named (E : Env) (K : Inp) (tok : List String) (ntoks : Int)
    (F : Files) (h3 : 3 ≤ ntoks)
    (hk0 : 0 ≤ E.findmatch (tok.getD 0 "") K.FileModeWords)
    (hk127 : E.findmatch (tok.getD 0 "") K.FileModeWords ≤ 127)
    (hj : 0 ≤ E.findmatch (tok.getD 1 "") K.FileTypeWords) :
    iface_readFileParams E K tok ntoks F
      = processFileName E K (E.findmatch (tok.getD 0 "") K.FileModeWords)
          (E.findmatch (tok.getD 1 "") K.FileTypeWords)
          (K.sstrncpy (tok.getD 2 "") K.MAXFNAME) F := by
  unfold iface_readFileParams
  rw [if_neg (by omega)]
  dsimp only
  rw [toChar_of_range _ (by omega) hk127, if_neg (by omega), if_neg (by omega),
    if_neg (by omega)]

/-- The file types are distinct constants (they label the cases of one
`switch`). -/
theorem processFileName_cases (E : Env) (K : Inp) (k j : Int) (fname : String) (F : Files)
    (hd : [K.RAINFALL_FILE, K.RUNOFF_FILE, K.HOTSTART_FILE, K.RDII_FILE, K.INFLOWS_FILE,
      K.OUTFLOWS_FILE].Nodup) :
    (j = K.RAINFALL_FILE → processFileName E K k j fname F
      = (0, { F with Frain := ⟨k, K.sstrncpy (K.addAbsolutePath fname) K.MAXFNAME⟩ }))
    ∧ (j = K.RUNOFF_FILE → processFileName E K k j fname F
      = (0, { F with Frunoff := ⟨k, K.sstrncpy (K.addAbsolutePath fname) K.MAXFNAME⟩ }))
    ∧ (j = K.HOTSTART_FILE → processFileName E K k j fname F
      = (if k = E.USE_FILE then
          (0, { F with Fhotstart1 := ⟨k, K.sstrncpy (K.addAbsolutePath fname) K.MAXFNAME⟩ })
        else if k = E.SAVE_FILE then
          (0, { F with Fhotstart2 := ⟨k, K.sstrncpy (K.addAbsolutePath fname) K.MAXFNAME⟩ })
        else (0, F)))
    ∧ (j = K.RDII_FILE → processFileName E K k j fname F
      = (0, { F with Frdii := ⟨k, K.sstrncpy fname K.MAXFNAME⟩ }))
    ∧ (j = K.INFLOWS_FILE → processFileName E K k j fname F
      = (if k ≠ E.USE_FILE then (K.error_setInpError K.ERR_ITEMS "", F)
        else (0, { F with Finflows := ⟨k, K.sstrncpy (K.addAbsolutePath fname) K.MAXFNAME⟩ })))
    ∧ (j = K.OUTFLOWS_FILE → processFileName E K k j fname F
      = (if k ≠ E.SAVE_FILE then (K.error_setInpError K.ERR_ITEMS "", F)
        else (0, { F with Foutflows := ⟨k, K.sstrncpy (K.addAbsolutePath fname) K.MAXFNAME⟩ })))
    ∧ (j ∉ [K.RAINFALL_FILE, K.RUNOFF_FILE, K.HOTSTART_FILE, K.RDII_FILE, K.INFLOWS_FILE,
        K.OUTFLOWS_FILE] → processFileName E K k j fname F = (0, F)) := by
  simp only [List.nodup_cons, List.mem_cons, List.mem_singleton, List.not_mem_nil, or_false,
    not_or, List.nodup_nil, and_true, not_false_eq_true] at hd
  obtain ⟨⟨a1, a2, a3, a4, a5⟩, ⟨b2, b3, b4, b5⟩, ⟨c3, c4, c5⟩, ⟨d4, d5⟩, e5⟩ := hd
  refine ⟨?_, ?_, ?_, ?_, ?_, ?_, ?_⟩
  · intro h
    subst h
    simp [processFileName]
  · intro h
    subst h
    simp [processFileName, Ne.symm a1]
  · intro h
    subst h
    simp [processFileName, Ne.symm a2, Ne.symm b2]
  · intro h
    subst h
    simp [processFileName, Ne.symm a3, Ne.symm b3, Ne.symm c3]
  · intro h
    subst h
    simp [processFileName, Ne.symm a4, Ne.symm b4, Ne.symm c4, Ne.symm d4]
  · intro h
    subst h
    simp [processFileName, Ne.symm a5, Ne.symm b5, Ne.symm c5, Ne.symm d5, Ne.symm e5]
  · intro h
    simp only [List.mem_cons, List.mem_singleton, List.not_mem_nil, or_false, not_or] at h
    obtain ⟨h1, h2, h3, h4, h5, h6⟩ := h
    simp [processFileName, h1, h2, h3, h4, h5, h6]

theorem processFileName_only (E : Env) (K : Inp) (k j : Int) (fname : String) (F : Files) :
    (processFileName E K k j fname F).2 = F
    ∨ ∃ name,
        (j = K.RAINFALL_FILE
          ∧ processFileName E K k j fname F = (0, { F with Frain := ⟨k, name⟩ }))
        ∨ (j = K.RUNOFF_FILE
          ∧ processFileName E K k j fname F = (0, { F with Frunoff := ⟨k, name⟩ }))
        ∨ (j = K.HOTSTART_FILE ∧ k = E.USE_FILE
          ∧ processFileName E K k j fname F = (0, { F with Fhotstart1 := ⟨k, name⟩ }))
        ∨ (j = K.HOTSTART_FILE ∧ k = E.SAVE_FILE
          ∧ processFileName E K k j fname F = (0, { F with Fhotstart2 := ⟨k, name⟩ }))
        ∨ (j = K.RDII_FILE
          ∧ processFileName E K k j fname F = (0, { F with Frdii := ⟨k, name⟩ }))
        ∨ (j = K.INFLOWS_FILE ∧ k = E.USE_FILE
          ∧ processFileName E K k j fname F = (0, { F with Finflows := ⟨k, name⟩ }))
        ∨ (j = K.OUTFLOWS_FILE ∧ k = E.SAVE_FILE
          ∧ processFileName E K k j fname F = (0, { F with Foutflows := ⟨k, name⟩ })) := by
  unfold processFileName
  split_ifs with h1 h2 h3 h4 h5 h6 h7 h8 h9 h10
  · exact Or.inr ⟨_, Or.inl ⟨h1, rfl⟩⟩
  · exact Or.inr ⟨_, Or.inr (Or.inl ⟨h2, rfl⟩)⟩
  · exact Or.inr ⟨_, Or.inr (Or.inr (Or.inl ⟨h3, h4, rfl⟩))⟩
  · exact Or.inr ⟨_, Or.inr (Or.inr (Or.inr (Or.inl ⟨h3, h5, rfl⟩)))⟩
  · exact Or.inl rfl
  · exact Or.inr ⟨_, Or.inr (Or.inr (Or.inr (Or.inr (Or.inl ⟨h6, rfl⟩))))⟩
  · exact Or.inl rfl
  · exact Or.inr ⟨_, Or.inr (Or.inr (Or.inr (Or.inr (Or.inr (Or.inl
      ⟨h7, not_not.mp h8, rfl⟩)))))⟩
  · exact Or.inl rfl
  · exact Or.inr ⟨_, Or.inr (Or.inr (Or.inr (Or.inr (Or.inr (Or.inr
      ⟨h9, not_not.mp h10, rfl⟩)))))⟩
  · exact Or.inl rfl

theorem iface_readFileParams_cases (E : Env) (K : Inp) (tok : List String) (ntoks : Int)
    (F : Files) :
    (iface_readFileParams E K tok ntoks F).2 = F
    ∨ (3 ≤ ntoks ∧ iface_readFileParams E K tok ntoks F
        = processFileName E K (toChar (E.findmatch (tok.getD 0 "") K.FileModeWords))
            (E.findmatch (tok.getD 1 "") K.FileTypeWords)
            (K.sstrncpy (tok.getD 2 "") K.MAXFNAME) F) := by
  unfold iface_readFileParams
  dsimp only
  split_ifs with h1 h2 h3 h4
  · exact Or.inl rfl
  · exact Or.inl rfl
  · exact Or.inl rfl
  · exact Or.inl rfl
  · exact Or.inr ⟨by omega, rfl⟩

/-- C26: `iface_readFileParams` returns `ERR_ITEMS` when `ntoks < 2`,
`ERR_KEYWORD` when `tok[0]` matches no file mode word or `tok[1]` no file type
word, and 0 when `ntoks = 2`, the file variables being as before in each case.
With a file name: an `INFLOWS` file with a mode other than `USE_FILE` and an
`OUTFLOWS` file with a mode other than `SAVE_FILE` return `ERR_ITEMS` and
change nothing; a `HOTSTART` file gives its mode and name to `Fhotstart1` when
the mode is `USE_FILE` and to `Fhotstart2` when it is `SAVE_FILE`; the other
types give them to `Frain`, `Frunoff`, `Frdii`, `Finflows`, `Foutflows`.  In
every case the file variables are as before or differ in the mode and the name
of the one file of the type.  (`error_setInpError` is taken to return its
code; the file types are distinct constants, as are `USE_FILE` and
`SAVE_FILE`.) -/
theorem C26_file_params (E : Env) (K : Inp) (tok : List String) (ntoks : Int) (F : Files)
    (hret : ∀ c a, K.error_setInpError c a = c)
    (hd : [K.RAINFALL_FILE, K.RUNOFF_FILE, K.HOTSTART_FILE, K.RDII_FILE, K.INFLOWS_FILE,
      K.OUTFLOWS_FILE].Nodup)
    (hus : E.USE_FILE ≠ E.SAVE_FILE) :
    (ntoks < 2 → iface_readFileParams E K tok ntoks F = (K.ERR_ITEMS, F))
    ∧ (2 ≤ ntoks → E.findmatch (tok.getD 0 "") K.FileModeWords < 0 →
        -128 ≤ E.findmatch (tok.getD 0 "") K.FileModeWords →
        iface_readFileParams E K tok ntoks F = (K.ERR_KEYWORD, F))
    ∧ (2 ≤ ntoks → 0 ≤ E.findmatch (tok.getD 0 "") K.FileModeWords →
        E.findmatch (tok.getD 0 "") K.FileModeWords ≤ 127 →
        (E.findmatch (tok.getD 1 "") K.FileTypeWords < 0 →
          iface_readFileParams E K tok ntoks F = (K.ERR_KEYWORD, F))
        ∧ (0 ≤ E.findmatch (tok.getD 1 "") K.FileTypeWords → ntoks = 2 →
          iface_readFileParams E K tok ntoks F = (0, F))
        ∧ (0 ≤ E.findmatch (tok.getD 1 "") K.FileTypeWords → 3 ≤ ntoks →
          (E.findmatch (tok.getD 1 "") K.FileTypeWords = K.INFLOWS_FILE →
            E.findmatch (tok.getD 0 "") K.FileModeWords ≠ E.USE_FILE →
            iface_readFileParams E K tok ntoks F = (K.ERR_ITEMS, F))
          ∧ (E.findmatch (tok.getD 1 "") K.FileTypeWords = K.OUTFLOWS_FILE →
            E.findmatch (tok.getD 0 "") K.FileModeWords ≠ E.SAVE_FILE →
            iface_readFileParams E K tok ntoks F = (K.ERR_ITEMS, F))
          ∧ (E.findmatch (tok.getD 1 "") K.FileTypeWords = K.HOTSTART_FILE →
            E.findmatch (tok.getD 0 "") K.FileModeWords = E.USE_FILE →
            iface_readFileParams E K tok ntoks F
              = (0, { F with Fhotstart1 := ⟨E.USE_FILE, K.sstrncpy (K.addAbsolutePath (K.sstrncpy (tok.getD 2 "") K.MAXFNAME)) K.MAXFNAME⟩ }))
          ∧ (E.findmatch (tok.getD 1 "") K.FileTypeWords = K.HOTSTART_FILE →
            E.findmatch (tok.getD 0 "") K.FileModeWords = E.SAVE_FILE →
            iface_readFileParams E K tok ntoks F
              = (0, { F with Fhotstart2 := ⟨E.SAVE_FILE, K.sstrncpy (K.addAbsolutePath (K.sstrncpy (tok.getD 2 "") K.MAXFNAME)) K.MAXFNAME⟩ }))
          ∧ (E.findmatch (tok.getD 1 "") K.FileTypeWords = K.INFLOWS_FILE →
            E.findmatch (tok.getD 0 "") K.FileModeWords = E.USE_FILE →
            iface_readFileParams E K tok ntoks F
              = (0, { F with Finflows := ⟨E.USE_FILE, K.sstrncpy (K.addAbsolutePath (K.sstrncpy (tok.getD 2 "") K.MAXFNAME)) K.MAXFNAME⟩ }))
          ∧ (E.findmatch (tok.getD 1 "") K.FileTypeWords = K.OUTFLOWS_FILE →
            E.findmatch (tok.getD 0 "") K.FileModeWords = E.SAVE_FILE →
            iface_readFileParams E K tok ntoks F
              = (0, { F with Foutflows := ⟨E.SAVE_FILE, K.sstrncpy (K.addAbsolutePath (K.sstrncpy (tok.getD 2 "") K.MAXFNAME)) K.MAXFNAME⟩ }))))
    ∧ ((iface_readFileParams E K tok ntoks F).2 = F
        ∨ ∃ k j name, 3 ≤ ntoks ∧ k = toChar (E.findmatch (tok.getD 0 "") K.FileModeWords)
            ∧ j = E.findmatch (tok.getD 1 "") K.FileTypeWords
            ∧ ((j = K.RAINFALL_FILE
                ∧ iface_readFileParams E K tok ntoks F = (0, { F with Frain := ⟨k, name⟩ }))
              ∨ (j = K.RUNOFF_FILE
                ∧ iface_readFileParams E K tok ntoks F = (0, { F with Frunoff := ⟨k, name⟩ }))
              ∨ (j = K.HOTSTART_FILE ∧ k = E.USE_FILE
                ∧ iface_readFileParams E K tok ntoks F
                    = (0, { F with Fhotstart1 := ⟨k, name⟩ }))
              ∨ (j = K.HOTSTART_FILE ∧ k = E.SAVE_FILE
                ∧ iface_readFileParams E K tok ntoks F
                    = (0, { F with Fhotstart2 := ⟨k, name⟩ }))
              ∨ (j = K.RDII_FILE
                ∧ iface_readFileParams E K tok ntoks F = (0, { F with Frdii := ⟨k, name⟩ }))
              ∨ (j = K.INFLOWS_FILE ∧ k = E.USE_FILE
                ∧ iface_readFileParams E K tok ntoks F
                    = (0, { F with Finflows := ⟨k, name⟩ }))
              ∨ (j = K.OUTFLOWS_FILE ∧ k = E.SAVE_FILE
                ∧ iface_readFileParams E K tok ntoks F
                    = (0, { F with Foutflows := ⟨k, name⟩ })))) := by
  refine ⟨?_, ?_, ?_, ?_⟩
  · intro h
    unfold iface_readFileParams
    rw [if_pos h, hret]
  · intro h2 hneg hlo
    unfold iface_readFileParams
    rw [if_neg (by omega)]
    dsimp only
    rw [toChar_of_range _ hlo (by omega), if_pos hneg, hret]
  · intro h2 hk0 hk127
    refine ⟨?_, ?_, ?_⟩
    · intro hj
      unfold iface_readFileParams
      rw [if_neg (by omega)]
      dsimp only
      rw [toChar_of_range _ (by omega) hk127, if_neg (by omega), if_pos hj, hret]
    · intro hj hn
      unfold iface_readFileParams
      rw [if_neg (by omega)]
      dsimp only
      rw [toChar_of_range _ (by omega) hk127, if_neg (by omega), if_neg (by omega),
        if_pos (by omega)]
    · intro hj h3
      have hnamed := iface_readFileParams_named E K tok ntoks F h3 hk0 hk127 hj
      have hc := processFileName_cases E K (E.findmatch (tok.getD 0 "") K.FileModeWords)
        (E.findmatch (tok.getD 1 "") K.FileTypeWords)
        (K.sstrncpy (tok.getD 2 "") K.MAXFNAME) F hd
      obtain ⟨_, _, hhot, _, hin, hout, _⟩ := hc
      refine ⟨?_, ?_, ?_, ?_, ?_, ?_⟩
      · intro hty hmode
        rw [hnamed, hin hty, if_pos hmode, hret]
      · intro hty hmode
        rw [hnamed, hout hty, if_pos hmode, hret]
      · intro hty hmode
        rw [hnamed, hhot hty, if_pos hmode, hmode]
      · intro hty hmode
        rw [hnamed, hhot hty, if_neg (by rw [hmode]; exact Ne.symm hus), if_pos hmode, hmode]
      · intro hty hmode
        rw [hnamed, hin hty, if_neg (not_not.mpr hmode), hmode]
      · intro hty hmode
        rw [hnamed, hout hty, if_neg (not_not.mpr hmode), hmode]
  · rcases iface_readFileParams_cases E K tok ntoks F with h | ⟨h3, h⟩
    · exact Or.inl h
    · rw [h]
      rcases processFileName_only E K (toChar (E.findmatch (tok.getD 0 "") K.FileModeWords))
        (E.findmatch (tok.getD 1 "") K.FileTypeWords)
        (K.sstrncpy (tok.getD 2 "") K.MAXFNAME) F with hp | ⟨name, hp⟩
      · exact Or.inl hp
      · exact Or.inr ⟨_, _, name, h3, rfl, rfl, hp⟩

/-- C26, on the sample keyword tables (`USE_FILE = 2`, `SAVE_FILE = 3`):
`USE INFLOWS a.txt` returns 0 and sets mode and name of `Finflows`;
`SAVE INFLOWS a.txt` returns `ERR_ITEMS` (203); `SAVE HOTSTART h.hsf` sets
`Fhotstart2` and leaves `Fhotstart1`; `USE` alone returns `ERR_ITEMS`;
`BOGUS INFLOWS` and `USE BOGUS` return `ERR_KEYWORD` (205); `USE INFLOWS`
returns 0. -/
theorem C26_file_params_witness :
    (iface_readFileParams (sampleEnv projectTSS) sampleInp ["USE", "INFLOWS", "a.txt"] 3
        noFiles).1 = 0
    ∧ (iface_readFileParams (sampleEnv projectTSS) sampleInp ["USE", "INFLOWS", "a.txt"] 3
        noFiles).2.Finflows.mode = 2
    ∧ (iface_readFileParams (sampleEnv projectTSS) sampleInp ["USE", "INFLOWS", "a.txt"] 3
        noFiles).2.Finflows.name = "a.txt"
    ∧ (iface_readFileParams (sampleEnv projectTSS) sampleInp ["SAVE", "INFLOWS", "a.txt"] 3
        noFiles).1 = 203
    ∧ (iface_readFileParams (sampleEnv projectTSS) sampleInp ["SAVE", "HOTSTART", "h.hsf"] 3
        noFiles).2.Fhotstart2.mode = 3
    ∧ (iface_readFileParams (sampleEnv projectTSS) sampleInp ["SAVE", "HOTSTART", "h.hsf"] 3
        noFiles).2.Fhotstart1.name = ""
    ∧ (iface_readFileParams (sampleEnv projectTSS) sampleInp ["USE"] 1 noFiles).1 = 203
    ∧ (iface_readFileParams (sampleEnv projectTSS) sampleInp ["BOGUS", "INFLOWS"] 2 noFiles).1
        = 205
    ∧ (iface_readFileParams (sampleEnv projectTSS) sampleInp ["USE", "BOGUS"] 2 noFiles).1 = 205
    ∧ (iface_readFileParams (sampleEnv projectTSS) sampleInp ["USE", "INFLOWS"] 2 noFiles).1
        = 0 := by
  have hd : [sampleInp.RAINFALL_FILE, sampleInp.RUNOFF_FILE, sampleInp.HOTSTART_FILE,
      sampleInp.RDII_FILE, sampleInp.INFLOWS_FILE, sampleInp.OUTFLOWS_FILE].Nodup := by decide
  have hus : (sampleEnv projectTSS).USE_FILE ≠ (sampleEnv projectTSS).SAVE_FILE := by decide
  have huse := (((C26_file_params (sampleEnv projectTSS) sampleInp ["USE", "INFLOWS", "a.txt"] 3
    noFiles (fun _ _ => rfl) hd hus).2.2.1 (by decide) (by decide) (by decide)).2.2
    (by decide) (by decide)).2.2.2.2.1 (by decide) (by decide)
  have hsave := (((C26_file_params (sampleEnv projectTSS) sampleInp ["SAVE", "INFLOWS", "a.txt"]
    3 noFiles (fun _ _ => rfl) hd hus).2.2.1 (by decide) (by decide) (by decide)).2.2
    (by decide) (by decide)).1 (by decide) (by decide)
  have hhot := (((C26_file_params (sampleEnv projectTSS) sampleInp ["SAVE", "HOTSTART", "h.hsf"]
    3 noFiles (fun _ _ => rfl) hd hus).2.2.1 (by decide) (by decide) (by decide)).2.2
    (by decide) (by decide)).2.2.2.1 (by decide) (by decide)
  have hone := (C26_file_params (sampleEnv projectTSS) sampleInp ["USE"] 1 noFiles
    (fun _ _ => rfl) hd hus).1 (by decide)
  have hmode := (C26_file_params (sampleEnv projectTSS) sampleInp ["BOGUS", "INFLOWS"] 2 noFiles
    (fun _ _ => rfl) hd hus).2.1 (by decide) (by decide) (by decide)
  have htype := ((C26_file_params (sampleEnv projectTSS) sampleInp ["USE", "BOGUS"] 2 noFiles
    (fun _ _ => rfl) hd hus).2.2.1 (by decide) (by decide) (by decide)).1 (by decide)
  have htwo := ((C26_file_params (sampleEnv projectTSS) sampleInp ["USE", "INFLOWS"] 2 noFiles
    (fun _ _ => rfl) hd hus).2.2.1 (by decide) (by decide) (by decide)).2.1 (by decide) rfl
  refine ⟨by rw [huse], by rw [huse]; rfl, by rw [huse]; decide, by rw [hsave]; rfl,
    by rw [hhot]; rfl, by rw [hhot]; rfl, by rw [hone]; rfl, by rw [hmode]; rfl,
    by rw [htype]; rfl, by rw [htwo]⟩

end SWMM
